import Mathlib

/-!
Verification of the AHC1EC0 embedded-controller protocol core (drivers/mfd/ahc1ec0.c).

The driver talks to the EC through two fixed I/O ports (a command port and a
data port) with a busy-bit handshake, serialized by a single mutex.  We embed
the protocol shallowly: the hardware side is an abstract `Dev` (four port
primitives over an opaque device state), and every driver routine is translated
into a pure Lean function that threads the device state and additionally
records the trace of port accesses and mutex transitions as a list of events.
-/

/-- Protocol constants, from include/linux/mfd/ahc1ec0.h. -/
def EC_COMMAND_BIT_OBF : Nat := 0x01

/-- IBF status bit (bit 1 of the command-port status byte). -/
def EC_COMMAND_BIT_IBF : Nat := 0x02

/-- Retry budget of the busy-wait loops (EC_MAX_TIMEOUT_COUNT). -/
def EC_MAX_TIMEOUT_COUNT : Nat := 5000

/-- Linux ETIMEDOUT errno; the waits return -ETIMEDOUT. -/
def ETIMEDOUT : Int := 110

/-- Opcode constants from include/linux/mfd/ahc1ec0.h. -/
def EC_HW_RAM_READ : Nat := 0x88

def EC_HW_RAM_WRITE : Nat := 0x89

def EC_ACPI_RAM_READ : Nat := 0x80

def EC_ACPI_DATA_WRITE : Nat := 0x81

def EC_GPIO_INDEX_WRITE : Nat := 0x10

def EC_GPIO_STATUS_READ : Nat := 0x11

def EC_GPIO_STATUS_WRITE : Nat := 0x12

def EC_GPIO_DIR_READ : Nat := 0x1D

def EC_GPIO_DIR_WRITE : Nat := 0x1E

def EC_AD_INDEX_WRITE : Nat := 0x15

def EC_AD_LSB_READ : Nat := 0x16

def EC_AD_MSB_READ : Nat := 0x1F

def EC_TBL_WRITE_ITEM : Nat := 0x20

def EC_TBL_GET_PIN : Nat := 0x21

def EC_TBL_GET_DEVID : Nat := 0x22

def EC_MAX_TBL_NUM : Nat := 32

/-- An observable event of a protocol run: the four port accesses
(inb on the command port is a status poll, inb on the data port is a data
read, outb to either port), plus the mutex transitions. -/
inductive Ev where
  | inbCmd (v : Nat)
  | inbData (v : Nat)
  | outbCmd (v : Nat)
  | outbData (v : Nat)
  | lock
  | unlock
deriving DecidableEq, Repr

/-- The EC hardware as seen through the two ports: an opaque device state σ
and the four port primitives (inb/outb on command and data port). -/
structure Dev (σ : Type) where
  inbCmd : σ → Nat × σ
  inbData : σ → Nat × σ
  outbCmd : Nat → σ → σ
  outbData : Nat → σ → σ

/-- ec_wait_write: poll the command port until IBF is clear, at most `n`
polls (called with EC_MAX_TIMEOUT_COUNT); returns 0 on success and
-ETIMEDOUT when the budget is exhausted, together with the new device state
and the trace of polls it performed. -/
def ec_wait_write {σ : Type} (d : Dev σ) : Nat → σ → Int × σ × List Ev
  | 0, s => (-ETIMEDOUT, s, [])
  | n + 1, s =>
    let v := (d.inbCmd s).1
    let s1 := (d.inbCmd s).2
    if v &&& EC_COMMAND_BIT_IBF = 0 then (0, s1, [Ev.inbCmd v])
    else
      let q := ec_wait_write d n s1
      (q.1, q.2.1, Ev.inbCmd v :: q.2.2)

/-- ec_wait_read: poll the command port until OBF is set, bounded like
ec_wait_write. -/
def ec_wait_read {σ : Type} (d : Dev σ) : Nat → σ → Int × σ × List Ev
  | 0, s => (-ETIMEDOUT, s, [])
  | n + 1, s =>
    let v := (d.inbCmd s).1
    let s1 := (d.inbCmd s).2
    if v &&& EC_COMMAND_BIT_OBF ≠ 0 then (0, s1, [Ev.inbCmd v])
    else
      let q := ec_wait_read d n s1
      (q.1, q.2.1, Ev.inbCmd v :: q.2.2)

/-- read_hw_ram: lock; wait IBF; send EC_HW_RAM_READ; wait IBF; send addr;
wait OBF; read the byte into *data; unlock.  Every error path unlocks and
returns the wait's error, leaving the data cell untouched.  The Nat argument
`data` is the current contents of the caller's output cell; the returned Nat
is its contents after the call. -/
def read_hw_ram {σ : Type} (d : Dev σ) (addr data : Nat) (s : σ) :
    Int × Nat × σ × List Ev :=
  let q1 := ec_wait_write d EC_MAX_TIMEOUT_COUNT s
  if q1.1 ≠ 0 then (q1.1, data, q1.2.1, Ev.lock :: q1.2.2 ++ [Ev.unlock])
  else
    let s2 := d.outbCmd EC_HW_RAM_READ q1.2.1
    let q2 := ec_wait_write d EC_MAX_TIMEOUT_COUNT s2
    if q2.1 ≠ 0 then
      (q2.1, data, q2.2.1,
        Ev.lock :: q1.2.2 ++ Ev.outbCmd EC_HW_RAM_READ :: q2.2.2 ++ [Ev.unlock])
    else
      let s3 := d.outbData addr q2.2.1
      let q3 := ec_wait_read d EC_MAX_TIMEOUT_COUNT s3
      if q3.1 ≠ 0 then
        (q3.1, data, q3.2.1,
          Ev.lock :: q1.2.2 ++ Ev.outbCmd EC_HW_RAM_READ :: q2.2.2 ++
            Ev.outbData addr :: q3.2.2 ++ [Ev.unlock])
      else
        let v := (d.inbData q3.2.1).1
        let s4 := (d.inbData q3.2.1).2
        (q3.1, v, s4,
          Ev.lock :: q1.2.2 ++ Ev.outbCmd EC_HW_RAM_READ :: q2.2.2 ++
            Ev.outbData addr :: q3.2.2 ++ [Ev.inbData v, Ev.unlock])

/-- write_hw_ram: lock; wait IBF; send EC_HW_RAM_WRITE; wait IBF; send addr;
wait IBF; send data byte; unlock; return 0. -/
def write_hw_ram {σ : Type} (d : Dev σ) (addr data : Nat) (s : σ) :
    Int × σ × List Ev :=
  let q1 := ec_wait_write d EC_MAX_TIMEOUT_COUNT s
  if q1.1 ≠ 0 then (q1.1, q1.2.1, Ev.lock :: q1.2.2 ++ [Ev.unlock])
  else
    let s2 := d.outbCmd EC_HW_RAM_WRITE q1.2.1
    let q2 := ec_wait_write d EC_MAX_TIMEOUT_COUNT s2
    if q2.1 ≠ 0 then
      (q2.1, q2.2.1,
        Ev.lock :: q1.2.2 ++ Ev.outbCmd EC_HW_RAM_WRITE :: q2.2.2 ++ [Ev.unlock])
    else
      let s3 := d.outbData addr q2.2.1
      let q3 := ec_wait_write d EC_MAX_TIMEOUT_COUNT s3
      if q3.1 ≠ 0 then
        (q3.1, q3.2.1,
          Ev.lock :: q1.2.2 ++ Ev.outbCmd EC_HW_RAM_WRITE :: q2.2.2 ++
            Ev.outbData addr :: q3.2.2 ++ [Ev.unlock])
      else
        let s4 := d.outbData data q3.2.1
        (0, s4,
          Ev.lock :: q1.2.2 ++ Ev.outbCmd EC_HW_RAM_WRITE :: q2.2.2 ++
            Ev.outbData addr :: q3.2.2 ++ [Ev.outbData data, Ev.unlock])

/-- read_acpi_value: same shape as read_hw_ram with opcode EC_ACPI_RAM_READ;
returns 0 on success. -/
def read_acpi_value {σ : Type} (d : Dev σ) (addr data : Nat) (s : σ) :
    Int × Nat × σ × List Ev :=
  let q1 := ec_wait_write d EC_MAX_TIMEOUT_COUNT s
  if q1.1 ≠ 0 then (q1.1, data, q1.2.1, Ev.lock :: q1.2.2 ++ [Ev.unlock])
  else
    let s2 := d.outbCmd EC_ACPI_RAM_READ q1.2.1
    let q2 := ec_wait_write d EC_MAX_TIMEOUT_COUNT s2
    if q2.1 ≠ 0 then
      (q2.1, data, q2.2.1,
        Ev.lock :: q1.2.2 ++ Ev.outbCmd EC_ACPI_RAM_READ :: q2.2.2 ++ [Ev.unlock])
    else
      let s3 := d.outbData addr q2.2.1
      let q3 := ec_wait_read d EC_MAX_TIMEOUT_COUNT s3
      if q3.1 ≠ 0 then
        (q3.1, data, q3.2.1,
          Ev.lock :: q1.2.2 ++ Ev.outbCmd EC_ACPI_RAM_READ :: q2.2.2 ++
            Ev.outbData addr :: q3.2.2 ++ [Ev.unlock])
      else
        let v := (d.inbData q3.2.1).1
        let s4 := (d.inbData q3.2.1).2
        (0, v, s4,
          Ev.lock :: q1.2.2 ++ Ev.outbCmd EC_ACPI_RAM_READ :: q2.2.2 ++
            Ev.outbData addr :: q3.2.2 ++ [Ev.inbData v, Ev.unlock])

/-- write_acpi_value: lock; wait; send EC_ACPI_DATA_WRITE; wait; send addr;
wait; send value; unlock; return 0. -/
def write_acpi_value {σ : Type} (d : Dev σ) (addr value : Nat) (s : σ) :
    Int × σ × List Ev :=
  let q1 := ec_wait_write d EC_MAX_TIMEOUT_COUNT s
  if q1.1 ≠ 0 then (q1.1, q1.2.1, Ev.lock :: q1.2.2 ++ [Ev.unlock])
  else
    let s2 := d.outbCmd EC_ACPI_DATA_WRITE q1.2.1
    let q2 := ec_wait_write d EC_MAX_TIMEOUT_COUNT s2
    if q2.1 ≠ 0 then
      (q2.1, q2.2.1,
        Ev.lock :: q1.2.2 ++ Ev.outbCmd EC_ACPI_DATA_WRITE :: q2.2.2 ++ [Ev.unlock])
    else
      let s3 := d.outbData addr q2.2.1
      let q3 := ec_wait_write d EC_MAX_TIMEOUT_COUNT s3
      if q3.1 ≠ 0 then
        (q3.1, q3.2.1,
          Ev.lock :: q1.2.2 ++ Ev.outbCmd EC_ACPI_DATA_WRITE :: q2.2.2 ++
            Ev.outbData addr :: q3.2.2 ++ [Ev.unlock])
      else
        let s4 := d.outbData value q3.2.1
        (0, s4,
          Ev.lock :: q1.2.2 ++ Ev.outbCmd EC_ACPI_DATA_WRITE :: q2.2.2 ++
            Ev.outbData addr :: q3.2.2 ++ [Ev.outbData value, Ev.unlock])

/-- read_gpio_status: select the pin via EC_GPIO_INDEX_WRITE; if the data-port
readback is the sentinel 0xff, unlock and return -1 without any further port
access; otherwise send EC_GPIO_STATUS_READ, read the byte into *pvalue,
unlock, return 0. -/
def read_gpio_status {σ : Type} (d : Dev σ) (pin data : Nat) (s : σ) :
    Int × Nat × σ × List Ev :=
  let q1 := ec_wait_write d EC_MAX_TIMEOUT_COUNT s
  if q1.1 ≠ 0 then (q1.1, data, q1.2.1, Ev.lock :: q1.2.2 ++ [Ev.unlock])
  else
    let s2 := d.outbCmd EC_GPIO_INDEX_WRITE q1.2.1
    let q2 := ec_wait_write d EC_MAX_TIMEOUT_COUNT s2
    if q2.1 ≠ 0 then
      (q2.1, data, q2.2.1,
        Ev.lock :: q1.2.2 ++ Ev.outbCmd EC_GPIO_INDEX_WRITE :: q2.2.2 ++ [Ev.unlock])
    else
      let s3 := d.outbData pin q2.2.1
      let q3 := ec_wait_read d EC_MAX_TIMEOUT_COUNT s3
      if q3.1 ≠ 0 then
        (q3.1, data, q3.2.1,
          Ev.lock :: q1.2.2 ++ Ev.outbCmd EC_GPIO_INDEX_WRITE :: q2.2.2 ++
            Ev.outbData pin :: q3.2.2 ++ [Ev.unlock])
      else
        let chk := (d.inbData q3.2.1).1
        let s4 := (d.inbData q3.2.1).2
        if chk = 0xff then
          (-1, data, s4,
            Ev.lock :: q1.2.2 ++ Ev.outbCmd EC_GPIO_INDEX_WRITE :: q2.2.2 ++
              Ev.outbData pin :: q3.2.2 ++ [Ev.inbData chk, Ev.unlock])
        else
          let q4 := ec_wait_write d EC_MAX_TIMEOUT_COUNT s4
          if q4.1 ≠ 0 then
            (q4.1, data, q4.2.1,
              Ev.lock :: q1.2.2 ++ Ev.outbCmd EC_GPIO_INDEX_WRITE :: q2.2.2 ++
                Ev.outbData pin :: q3.2.2 ++ Ev.inbData chk :: q4.2.2 ++ [Ev.unlock])
          else
            let s5 := d.outbCmd EC_GPIO_STATUS_READ q4.2.1
            let q5 := ec_wait_read d EC_MAX_TIMEOUT_COUNT s5
            if q5.1 ≠ 0 then
              (q5.1, data, q5.2.1,
                Ev.lock :: q1.2.2 ++ Ev.outbCmd EC_GPIO_INDEX_WRITE :: q2.2.2 ++
                  Ev.outbData pin :: q3.2.2 ++ Ev.inbData chk :: q4.2.2 ++
                    Ev.outbCmd EC_GPIO_STATUS_READ :: q5.2.2 ++ [Ev.unlock])
            else
              let v := (d.inbData q5.2.1).1
              let s6 := (d.inbData q5.2.1).2
              (0, v, s6,
                Ev.lock :: q1.2.2 ++ Ev.outbCmd EC_GPIO_INDEX_WRITE :: q2.2.2 ++
                  Ev.outbData pin :: q3.2.2 ++ Ev.inbData chk :: q4.2.2 ++
                    Ev.outbCmd EC_GPIO_STATUS_READ :: q5.2.2 ++ [Ev.inbData v, Ev.unlock])

/-- write_gpio_status: select the pin (sentinel check as in read_gpio_status),
then send EC_GPIO_STATUS_WRITE and the value byte. -/
def write_gpio_status {σ : Type} (d : Dev σ) (pin value : Nat) (s : σ) :
    Int × σ × List Ev :=
  let q1 := ec_wait_write d EC_MAX_TIMEOUT_COUNT s
  if q1.1 ≠ 0 then (q1.1, q1.2.1, Ev.lock :: q1.2.2 ++ [Ev.unlock])
  else
    let s2 := d.outbCmd EC_GPIO_INDEX_WRITE q1.2.1
    let q2 := ec_wait_write d EC_MAX_TIMEOUT_COUNT s2
    if q2.1 ≠ 0 then
      (q2.1, q2.2.1,
        Ev.lock :: q1.2.2 ++ Ev.outbCmd EC_GPIO_INDEX_WRITE :: q2.2.2 ++ [Ev.unlock])
    else
      let s3 := d.outbData pin q2.2.1
      let q3 := ec_wait_read d EC_MAX_TIMEOUT_COUNT s3
      if q3.1 ≠ 0 then
        (q3.1, q3.2.1,
          Ev.lock :: q1.2.2 ++ Ev.outbCmd EC_GPIO_INDEX_WRITE :: q2.2.2 ++
            Ev.outbData pin :: q3.2.2 ++ [Ev.unlock])
      else
        let chk := (d.inbData q3.2.1).1
        let s4 := (d.inbData q3.2.1).2
        if chk = 0xff then
          (-1, s4,
            Ev.lock :: q1.2.2 ++ Ev.outbCmd EC_GPIO_INDEX_WRITE :: q2.2.2 ++
              Ev.outbData pin :: q3.2.2 ++ [Ev.inbData chk, Ev.unlock])
        else
          let q4 := ec_wait_write d EC_MAX_TIMEOUT_COUNT s4
          if q4.1 ≠ 0 then
            (q4.1, q4.2.1,
              Ev.lock :: q1.2.2 ++ Ev.outbCmd EC_GPIO_INDEX_WRITE :: q2.2.2 ++
                Ev.outbData pin :: q3.2.2 ++ Ev.inbData chk :: q4.2.2 ++ [Ev.unlock])
          else
            let s5 := d.outbCmd EC_GPIO_STATUS_WRITE q4.2.1
            let q5 := ec_wait_write d EC_MAX_TIMEOUT_COUNT s5
            if q5.1 ≠ 0 then
              (q5.1, q5.2.1,
                Ev.lock :: q1.2.2 ++ Ev.outbCmd EC_GPIO_INDEX_WRITE :: q2.2.2 ++
                  Ev.outbData pin :: q3.2.2 ++ Ev.inbData chk :: q4.2.2 ++
                    Ev.outbCmd EC_GPIO_STATUS_WRITE :: q5.2.2 ++ [Ev.unlock])
            else
              let s6 := d.outbData value q5.2.1
              (0, s6,
                Ev.lock :: q1.2.2 ++ Ev.outbCmd EC_GPIO_INDEX_WRITE :: q2.2.2 ++
                  Ev.outbData pin :: q3.2.2 ++ Ev.inbData chk :: q4.2.2 ++
                    Ev.outbCmd EC_GPIO_STATUS_WRITE :: q5.2.2 ++
                      [Ev.outbData value, Ev.unlock])

/-- read_gpio_dir: like read_gpio_status with opcode EC_GPIO_DIR_READ. -/
def read_gpio_dir {σ : Type} (d : Dev σ) (pin data : Nat) (s : σ) :
    Int × Nat × σ × List Ev :=
  let q1 := ec_wait_write d EC_MAX_TIMEOUT_COUNT s
  if q1.1 ≠ 0 then (q1.1, data, q1.2.1, Ev.lock :: q1.2.2 ++ [Ev.unlock])
  else
    let s2 := d.outbCmd EC_GPIO_INDEX_WRITE q1.2.1
    let q2 := ec_wait_write d EC_MAX_TIMEOUT_COUNT s2
    if q2.1 ≠ 0 then
      (q2.1, data, q2.2.1,
        Ev.lock :: q1.2.2 ++ Ev.outbCmd EC_GPIO_INDEX_WRITE :: q2.2.2 ++ [Ev.unlock])
    else
      let s3 := d.outbData pin q2.2.1
      let q3 := ec_wait_read d EC_MAX_TIMEOUT_COUNT s3
      if q3.1 ≠ 0 then
        (q3.1, data, q3.2.1,
          Ev.lock :: q1.2.2 ++ Ev.outbCmd EC_GPIO_INDEX_WRITE :: q2.2.2 ++
            Ev.outbData pin :: q3.2.2 ++ [Ev.unlock])
      else
        let chk := (d.inbData q3.2.1).1
        let s4 := (d.inbData q3.2.1).2
        if chk = 0xff then
          (-1, data, s4,
            Ev.lock :: q1.2.2 ++ Ev.outbCmd EC_GPIO_INDEX_WRITE :: q2.2.2 ++
              Ev.outbData pin :: q3.2.2 ++ [Ev.inbData chk, Ev.unlock])
        else
          let q4 := ec_wait_write d EC_MAX_TIMEOUT_COUNT s4
          if q4.1 ≠ 0 then
            (q4.1, data, q4.2.1,
              Ev.lock :: q1.2.2 ++ Ev.outbCmd EC_GPIO_INDEX_WRITE :: q2.2.2 ++
                Ev.outbData pin :: q3.2.2 ++ Ev.inbData chk :: q4.2.2 ++ [Ev.unlock])
          else
            let s5 := d.outbCmd EC_GPIO_DIR_READ q4.2.1
            let q5 := ec_wait_read d EC_MAX_TIMEOUT_COUNT s5
            if q5.1 ≠ 0 then
              (q5.1, data, q5.2.1,
                Ev.lock :: q1.2.2 ++ Ev.outbCmd EC_GPIO_INDEX_WRITE :: q2.2.2 ++
                  Ev.outbData pin :: q3.2.2 ++ Ev.inbData chk :: q4.2.2 ++
                    Ev.outbCmd EC_GPIO_DIR_READ :: q5.2.2 ++ [Ev.unlock])
            else
              let v := (d.inbData q5.2.1).1
              let s6 := (d.inbData q5.2.1).2
              (0, v, s6,
                Ev.lock :: q1.2.2 ++ Ev.outbCmd EC_GPIO_INDEX_WRITE :: q2.2.2 ++
                  Ev.outbData pin :: q3.2.2 ++ Ev.inbData chk :: q4.2.2 ++
                    Ev.outbCmd EC_GPIO_DIR_READ :: q5.2.2 ++ [Ev.inbData v, Ev.unlock])

/-- write_gpio_dir: like write_gpio_status with opcode EC_GPIO_DIR_WRITE. -/
def write_gpio_dir {σ : Type} (d : Dev σ) (pin value : Nat) (s : σ) :
    Int × σ × List Ev :=
  let q1 := ec_wait_write d EC_MAX_TIMEOUT_COUNT s
  if q1.1 ≠ 0 then (q1.1, q1.2.1, Ev.lock :: q1.2.2 ++ [Ev.unlock])
  else
    let s2 := d.outbCmd EC_GPIO_INDEX_WRITE q1.2.1
    let q2 := ec_wait_write d EC_MAX_TIMEOUT_COUNT s2
    if q2.1 ≠ 0 then
      (q2.1, q2.2.1,
        Ev.lock :: q1.2.2 ++ Ev.outbCmd EC_GPIO_INDEX_WRITE :: q2.2.2 ++ [Ev.unlock])
    else
      let s3 := d.outbData pin q2.2.1
      let q3 := ec_wait_read d EC_MAX_TIMEOUT_COUNT s3
      if q3.1 ≠ 0 then
        (q3.1, q3.2.1,
          Ev.lock :: q1.2.2 ++ Ev.outbCmd EC_GPIO_INDEX_WRITE :: q2.2.2 ++
            Ev.outbData pin :: q3.2.2 ++ [Ev.unlock])
      else
        let chk := (d.inbData q3.2.1).1
        let s4 := (d.inbData q3.2.1).2
        if chk = 0xff then
          (-1, s4,
            Ev.lock :: q1.2.2 ++ Ev.outbCmd EC_GPIO_INDEX_WRITE :: q2.2.2 ++
              Ev.outbData pin :: q3.2.2 ++ [Ev.inbData chk, Ev.unlock])
        else
          let q4 := ec_wait_write d EC_MAX_TIMEOUT_COUNT s4
          if q4.1 ≠ 0 then
            (q4.1, q4.2.1,
              Ev.lock :: q1.2.2 ++ Ev.outbCmd EC_GPIO_INDEX_WRITE :: q2.2.2 ++
                Ev.outbData pin :: q3.2.2 ++ Ev.inbData chk :: q4.2.2 ++ [Ev.unlock])
          else
            let s5 := d.outbCmd EC_GPIO_DIR_WRITE q4.2.1
            let q5 := ec_wait_write d EC_MAX_TIMEOUT_COUNT s5
            if q5.1 ≠ 0 then
              (q5.1, q5.2.1,
                Ev.lock :: q1.2.2 ++ Ev.outbCmd EC_GPIO_INDEX_WRITE :: q2.2.2 ++
                  Ev.outbData pin :: q3.2.2 ++ Ev.inbData chk :: q4.2.2 ++
                    Ev.outbCmd EC_GPIO_DIR_WRITE :: q5.2.2 ++ [Ev.unlock])
            else
              let s6 := d.outbData value q5.2.1
              (0, s6,
                Ev.lock :: q1.2.2 ++ Ev.outbCmd EC_GPIO_INDEX_WRITE :: q2.2.2 ++
                  Ev.outbData pin :: q3.2.2 ++ Ev.inbData chk :: q4.2.2 ++
                    Ev.outbCmd EC_GPIO_DIR_WRITE :: q5.2.2 ++
                      [Ev.outbData value, Ev.unlock])

/-- read_ad_value: select the ADC pin via EC_AD_INDEX_WRITE (sentinel 0xff
readback returns -1), then read the LSB and MSB bytes via EC_AD_LSB_READ and
EC_AD_MSB_READ and return ((MSB <<< 8) ||| LSB) &&& 0x3FF, scaled by
multi * 100. -/
def read_ad_value {σ : Type} (d : Dev σ) (hwpin multi : Nat) (s : σ) :
    Int × σ × List Ev :=
  let q1 := ec_wait_write d EC_MAX_TIMEOUT_COUNT s
  if q1.1 ≠ 0 then (q1.1, q1.2.1, Ev.lock :: q1.2.2 ++ [Ev.unlock])
  else
    let s2 := d.outbCmd EC_AD_INDEX_WRITE q1.2.1
    let q2 := ec_wait_write d EC_MAX_TIMEOUT_COUNT s2
    if q2.1 ≠ 0 then
      (q2.1, q2.2.1,
        Ev.lock :: q1.2.2 ++ Ev.outbCmd EC_AD_INDEX_WRITE :: q2.2.2 ++ [Ev.unlock])
    else
      let s3 := d.outbData hwpin q2.2.1
      let q3 := ec_wait_read d EC_MAX_TIMEOUT_COUNT s3
      if q3.1 ≠ 0 then
        (q3.1, q3.2.1,
          Ev.lock :: q1.2.2 ++ Ev.outbCmd EC_AD_INDEX_WRITE :: q2.2.2 ++
            Ev.outbData hwpin :: q3.2.2 ++ [Ev.unlock])
      else
        let chk := (d.inbData q3.2.1).1
        let s4 := (d.inbData q3.2.1).2
        if chk = 0xff then
          (-1, s4,
            Ev.lock :: q1.2.2 ++ Ev.outbCmd EC_AD_INDEX_WRITE :: q2.2.2 ++
              Ev.outbData hwpin :: q3.2.2 ++ [Ev.inbData chk, Ev.unlock])
        else
          let q4 := ec_wait_write d EC_MAX_TIMEOUT_COUNT s4
          if q4.1 ≠ 0 then
            (q4.1, q4.2.1,
              Ev.lock :: q1.2.2 ++ Ev.outbCmd EC_AD_INDEX_WRITE :: q2.2.2 ++
                Ev.outbData hwpin :: q3.2.2 ++ Ev.inbData chk :: q4.2.2 ++ [Ev.unlock])
          else
            let s5 := d.outbCmd EC_AD_LSB_READ q4.2.1
            let q5 := ec_wait_read d EC_MAX_TIMEOUT_COUNT s5
            if q5.1 ≠ 0 then
              (q5.1, q5.2.1,
                Ev.lock :: q1.2.2 ++ Ev.outbCmd EC_AD_INDEX_WRITE :: q2.2.2 ++
                  Ev.outbData hwpin :: q3.2.2 ++ Ev.inbData chk :: q4.2.2 ++
                    Ev.outbCmd EC_AD_LSB_READ :: q5.2.2 ++ [Ev.unlock])
            else
              let lsb := (d.inbData q5.2.1).1
              let s6 := (d.inbData q5.2.1).2
              let q6 := ec_wait_write d EC_MAX_TIMEOUT_COUNT s6
              if q6.1 ≠ 0 then
                (q6.1, q6.2.1,
                  Ev.lock :: q1.2.2 ++ Ev.outbCmd EC_AD_INDEX_WRITE :: q2.2.2 ++
                    Ev.outbData hwpin :: q3.2.2 ++ Ev.inbData chk :: q4.2.2 ++
                      Ev.outbCmd EC_AD_LSB_READ :: q5.2.2 ++
                        Ev.inbData lsb :: q6.2.2 ++ [Ev.unlock])
              else
                let s7 := d.outbCmd EC_AD_MSB_READ q6.2.1
                let q7 := ec_wait_read d EC_MAX_TIMEOUT_COUNT s7
                if q7.1 ≠ 0 then
                  (q7.1, q7.2.1,
                    Ev.lock :: q1.2.2 ++ Ev.outbCmd EC_AD_INDEX_WRITE :: q2.2.2 ++
                      Ev.outbData hwpin :: q3.2.2 ++ Ev.inbData chk :: q4.2.2 ++
                        Ev.outbCmd EC_AD_LSB_READ :: q5.2.2 ++
                          Ev.inbData lsb :: q6.2.2 ++
                            Ev.outbCmd EC_AD_MSB_READ :: q7.2.2 ++ [Ev.unlock])
                else
                  let msb := (d.inbData q7.2.1).1
                  let s8 := (d.inbData q7.2.1).2
                  let ret_val := (((msb <<< 8) ||| lsb) &&& 0x03FF) * multi * 100
                  ((ret_val : Int), s8,
                    Ev.lock :: q1.2.2 ++ Ev.outbCmd EC_AD_INDEX_WRITE :: q2.2.2 ++
                      Ev.outbData hwpin :: q3.2.2 ++ Ev.inbData chk :: q4.2.2 ++
                        Ev.outbCmd EC_AD_LSB_READ :: q5.2.2 ++
                          Ev.inbData lsb :: q6.2.2 ++
                            Ev.outbCmd EC_AD_MSB_READ :: q7.2.2 ++
                              [Ev.inbData msb, Ev.unlock])

/-- write_hwram_command: lock; wait IBF; write the raw byte to the command
port; unlock; return 0. -/
def write_hwram_command {σ : Type} (d : Dev σ) (data : Nat) (s : σ) :
    Int × σ × List Ev :=
  let q1 := ec_wait_write d EC_MAX_TIMEOUT_COUNT s
  if q1.1 ≠ 0 then (q1.1, q1.2.1, Ev.lock :: q1.2.2 ++ [Ev.unlock])
  else
    let s2 := d.outbCmd data q1.2.1
    (0, s2, Ev.lock :: q1.2.2 ++ [Ev.outbCmd data, Ev.unlock])

/-- One slot of the dynamic control table (struct ec_dynamic_table). -/
structure ec_dynamic_table where
  device_id : Nat
  hw_pin_num : Nat
deriving DecidableEq, Repr

/-- The body of adv_get_dynamic_tab's discovery loop, from slot `i` with
`fuel` slots left (fuel = EC_MAX_TBL_NUM - i at entry).  For each slot:
select it via EC_TBL_WRITE_ITEM/outb i; a 0xff readback means the slot is
undefined and ends the whole scan (goto pass, result 0); otherwise fetch the
pin via EC_TBL_GET_PIN (0xff again ends the scan) and the device id via
EC_TBL_GET_DEVID and store both at slot i.  A wait timeout aborts with its
error.  Returns the result code, the table, the device state and the trace
of the loop (lock/unlock are added by the wrapper). -/
def adv_tab_loop {σ : Type} (d : Dev σ) :
    Nat → Nat → List ec_dynamic_table → σ →
      Int × List ec_dynamic_table × σ × List Ev
  | 0, _, tbl, s => (0, tbl, s, [])
  | fuel + 1, i, tbl, s =>
    let q1 := ec_wait_write d EC_MAX_TIMEOUT_COUNT s
    if q1.1 ≠ 0 then (q1.1, tbl, q1.2.1, q1.2.2)
    else
      let s2 := d.outbCmd EC_TBL_WRITE_ITEM q1.2.1
      let q2 := ec_wait_write d EC_MAX_TIMEOUT_COUNT s2
      if q2.1 ≠ 0 then
        (q2.1, tbl, q2.2.1, q1.2.2 ++ Ev.outbCmd EC_TBL_WRITE_ITEM :: q2.2.2)
      else
        let s3 := d.outbData i q2.2.1
        let q3 := ec_wait_read d EC_MAX_TIMEOUT_COUNT s3
        if q3.1 ≠ 0 then
          (q3.1, tbl, q3.2.1,
            q1.2.2 ++ Ev.outbCmd EC_TBL_WRITE_ITEM :: q2.2.2 ++
              Ev.outbData i :: q3.2.2)
        else
          let chk := (d.inbData q3.2.1).1
          let s4 := (d.inbData q3.2.1).2
          if chk = 0xff then
            (0, tbl, s4,
              q1.2.2 ++ Ev.outbCmd EC_TBL_WRITE_ITEM :: q2.2.2 ++
                Ev.outbData i :: q3.2.2 ++ [Ev.inbData chk])
          else
            let q4 := ec_wait_write d EC_MAX_TIMEOUT_COUNT s4
            if q4.1 ≠ 0 then
              (q4.1, tbl, q4.2.1,
                q1.2.2 ++ Ev.outbCmd EC_TBL_WRITE_ITEM :: q2.2.2 ++
                  Ev.outbData i :: q3.2.2 ++ Ev.inbData chk :: q4.2.2)
            else
              let s5 := d.outbCmd EC_TBL_GET_PIN q4.2.1
              let q5 := ec_wait_read d EC_MAX_TIMEOUT_COUNT s5
              if q5.1 ≠ 0 then
                (q5.1, tbl, q5.2.1,
                  q1.2.2 ++ Ev.outbCmd EC_TBL_WRITE_ITEM :: q2.2.2 ++
                    Ev.outbData i :: q3.2.2 ++ Ev.inbData chk :: q4.2.2 ++
                      Ev.outbCmd EC_TBL_GET_PIN :: q5.2.2)
              else
                let pv := (d.inbData q5.2.1).1
                let s6 := (d.inbData q5.2.1).2
                let pin := pv &&& 0xff
                if pin = 0xff then
                  (0, tbl, s6,
                    q1.2.2 ++ Ev.outbCmd EC_TBL_WRITE_ITEM :: q2.2.2 ++
                      Ev.outbData i :: q3.2.2 ++ Ev.inbData chk :: q4.2.2 ++
                        Ev.outbCmd EC_TBL_GET_PIN :: q5.2.2 ++ [Ev.inbData pv])
                else
                  let q6 := ec_wait_write d EC_MAX_TIMEOUT_COUNT s6
                  if q6.1 ≠ 0 then
                    (q6.1, tbl, q6.2.1,
                      q1.2.2 ++ Ev.outbCmd EC_TBL_WRITE_ITEM :: q2.2.2 ++
                        Ev.outbData i :: q3.2.2 ++ Ev.inbData chk :: q4.2.2 ++
                          Ev.outbCmd EC_TBL_GET_PIN :: q5.2.2 ++
                            Ev.inbData pv :: q6.2.2)
                  else
                    let s7 := d.outbCmd EC_TBL_GET_DEVID q6.2.1
                    let q7 := ec_wait_read d EC_MAX_TIMEOUT_COUNT s7
                    if q7.1 ≠ 0 then
                      (q7.1, tbl, q7.2.1,
                        q1.2.2 ++ Ev.outbCmd EC_TBL_WRITE_ITEM :: q2.2.2 ++
                          Ev.outbData i :: q3.2.2 ++ Ev.inbData chk :: q4.2.2 ++
                            Ev.outbCmd EC_TBL_GET_PIN :: q5.2.2 ++
                              Ev.inbData pv :: q6.2.2 ++
                                Ev.outbCmd EC_TBL_GET_DEVID :: q7.2.2)
                    else
                      let dv := (d.inbData q7.2.1).1
                      let s8 := (d.inbData q7.2.1).2
                      let device_id := dv &&& 0xff
                      let tbl2 := tbl.set i ⟨device_id, pin⟩
                      let rest := adv_tab_loop d fuel (i + 1) tbl2 s8
                      (rest.1, rest.2.1, rest.2.2.1,
                        q1.2.2 ++ Ev.outbCmd EC_TBL_WRITE_ITEM :: q2.2.2 ++
                          Ev.outbData i :: q3.2.2 ++ Ev.inbData chk :: q4.2.2 ++
                            Ev.outbCmd EC_TBL_GET_PIN :: q5.2.2 ++
                              Ev.inbData pv :: q6.2.2 ++
                                Ev.outbCmd EC_TBL_GET_DEVID :: q7.2.2 ++
                                  Ev.inbData dv :: rest.2.2.2)

/-- adv_get_dynamic_tab: take the lock, reset all EC_MAX_TBL_NUM slots to the
sentinel pair {0xff, 0xff}, run the discovery loop from slot 0, and unlock
(both the pass and the error label unlock exactly once before returning). -/
def adv_get_dynamic_tab {σ : Type} (d : Dev σ) (s : σ) :
    Int × List ec_dynamic_table × σ × List Ev :=
  let tbl0 := List.replicate EC_MAX_TBL_NUM (ec_dynamic_table.mk 0xff 0xff)
  let r := adv_tab_loop d EC_MAX_TBL_NUM 0 tbl0 s
  (r.1, r.2.1, r.2.2.1, Ev.lock :: r.2.2.2 ++ [Ev.unlock])

/-- adv_ec_init_ec_data / adv_ec_probe table handling: initialization runs
adv_get_dynamic_tab and propagates its error; on error the probe aborts, so
the (possibly partially written) table is discarded and never exposed to
consumers.  On success the discovered table is the one consumers read. -/
def adv_ec_init_ec_data {σ : Type} (d : Dev σ) (s : σ) :
    Except Int (List ec_dynamic_table) :=
  let r := adv_get_dynamic_tab d s
  if r.1 ≠ 0 then Except.error r.1 else Except.ok r.2.1

/-- Event classifiers over traces. -/
def isLock : Ev → Bool
  | Ev.lock => true
  | _ => false

/-- True exactly on the unlock event. -/
def isUnlock : Ev → Bool
  | Ev.unlock => true
  | _ => false

/-- True exactly on status polls (inb of the command port). -/
def isPoll : Ev → Bool
  | Ev.inbCmd _ => true
  | _ => false

/-- True on port accesses (everything except the mutex transitions). -/
def isPort : Ev → Bool
  | Ev.lock => false
  | Ev.unlock => false
  | _ => true

/-- True on data-port writes. -/
def isOutbData : Ev → Bool
  | Ev.outbData _ => true
  | _ => false

/-- True on writes to either port. -/
def isOutb : Ev → Bool
  | Ev.outbCmd _ => true
  | Ev.outbData _ => true
  | _ => false

/-- True on data-port reads. -/
def isInData : Ev → Bool
  | Ev.inbData _ => true
  | _ => false

/-- A poll that observed IBF clear: a write to either port may follow it. -/
def writeReady : Ev → Bool
  | Ev.inbCmd v => v &&& EC_COMMAND_BIT_IBF == 0
  | _ => false

/-- A poll that observed OBF set: a data-port read may follow it. -/
def readReady : Ev → Bool
  | Ev.inbCmd v => v &&& EC_COMMAND_BIT_OBF != 0
  | _ => false

/-- Adjacency discipline of the handshake: any write to the command or data
port must immediately follow a poll that observed IBF clear, and any read of
the data port must immediately follow a poll that observed OBF set. -/
def stepOK (a b : Ev) : Prop :=
  match b with
  | Ev.outbCmd _ => writeReady a = true
  | Ev.outbData _ => writeReady a = true
  | Ev.inbData _ => readReady a = true
  | _ => True

/-- Number of lock events in a trace. -/
def nLock (t : List Ev) : Nat := t.countP isLock

/-- Number of unlock events in a trace. -/
def nUnlock (t : List Ev) : Nat := t.countP isUnlock

/-- The held/free state of the transaction mutex after replaying a trace,
starting from `b`. -/
def lockAfter : List Ev → Bool → Bool
  | [], b => b
  | Ev.lock :: t, _ => lockAfter t true
  | Ev.unlock :: t, _ => lockAfter t false
  | _ :: t, b => lockAfter t b

/-- Lock discipline of one operation: the mutex is acquired exactly once and
released exactly once, and replaying the trace from the free state ends in
the free state. -/
def lockOK (t : List Ev) : Prop :=
  nLock t = 1 ∧ nUnlock t = 1 ∧ lockAfter t false = false

/-- The whole trace respects the busy-bit handshake discipline. -/
def seqOK (t : List Ev) : Prop := List.Chain' stepOK t

/-- Normal form of every operation trace: a lock, then port accesses only
(first one a status poll, respecting the handshake discipline), then one
unlock. -/
def TraceShape (t : List Ev) : Prop :=
  ∃ mid, t = Ev.lock :: mid ++ [Ev.unlock] ∧
    (∀ e ∈ mid, isPort e = true) ∧
    List.Chain' stepOK mid ∧
    (∀ x ∈ mid.head?, isPoll x = true)

/-- Mock EC that is never ready: IBF permanently set, OBF permanently clear,
so every wait primitive exhausts its budget. -/
def devBusy : Dev Unit where
  inbCmd := fun _ => (2, ())
  inbData := fun _ => (0, ())
  outbCmd := fun _ _ => ()
  outbData := fun _ _ => ()

/-- Mock EC that is always ready (status byte 1: IBF clear, OBF set) and
answers data-port reads from a scripted list of bytes. -/
def devScript : Dev (List Nat) where
  inbCmd := fun s => (1, s)
  inbData := fun s =>
    match s with
    | [] => (0, [])
    | v :: rest => (v, rest)
  outbCmd := fun _ s => s
  outbData := fun _ s => s

/-- State of the stateful mock EC implementing the HW-RAM protocol: the RAM
array, the last command byte, the latched address and whether the address
phase of a write already happened. -/
structure RamEC where
  ram : Nat → Nat
  cmd : Nat
  addr : Nat
  gotAddr : Bool

/-- Stateful mock EC for the HW-RAM sub-protocol: always ready; an
EC_HW_RAM_WRITE command latches the first data byte as the address and
stores the second at that address; an EC_HW_RAM_READ command latches the
data byte as the address and serves the addressed cell on the data port. -/
def devRam : Dev RamEC where
  inbCmd := fun s => (1, s)
  inbData := fun s => (if s.cmd = EC_HW_RAM_READ then s.ram s.addr else 0, s)
  outbCmd := fun c s => { s with cmd := c, gotAddr := false }
  outbData := fun v s =>
    if s.cmd = EC_HW_RAM_WRITE then
      if s.gotAddr then
        { s with ram := fun a => if a = s.addr then v else s.ram a, gotAddr := false }
      else
        { s with addr := v, gotAddr := true }
    else if s.cmd = EC_HW_RAM_READ then { s with addr := v }
    else s

/-- Mock transport whose command-port status on the i-th poll is `f i`; the
device state is the number of polls performed so far. -/
def pollDev (f : Nat → Nat) : Dev Nat where
  inbCmd := fun n => (f n, n + 1)
  inbData := fun n => (0, n)
  outbCmd := fun _ n => n
  outbData := fun _ n => n

/-- State of the dynamic-table mock EC: last command byte and selected slot. -/
structure TblEC where
  cmd : Nat
  slot : Nat
deriving DecidableEq, Repr

/-- Pin table of the dynamic-table mock EC: slots 0 and 1 defined, slot 2
onward undefined (sentinel 0xff). -/
def mockPin : Nat → Nat :=
  fun i => if i = 0 then 0x12 else if i = 1 then 0x34 else 0xff

/-- Device-id table of the dynamic-table mock EC. -/
def mockDevid : Nat → Nat :=
  fun i => if i = 0 then 0x28 else if i = 1 then 0x50 else 0xff

/-- Always-ready mock EC implementing the dynamic-table sub-protocol:
EC_TBL_WRITE_ITEM selects a slot (readback is the slot number, or 0xff if
the slot is undefined); EC_TBL_GET_PIN and EC_TBL_GET_DEVID serve the
selected slot's pin and device id. -/
def devTbl : Dev TblEC where
  inbCmd := fun s => (1, s)
  inbData := fun s =>
    if s.cmd = EC_TBL_WRITE_ITEM then
      (if mockPin s.slot = 0xff then 0xff else s.slot, s)
    else if s.cmd = EC_TBL_GET_PIN then (mockPin s.slot, s)
    else if s.cmd = EC_TBL_GET_DEVID then (mockDevid s.slot, s)
    else (0, s)
  outbCmd := fun c s => { s with cmd := c }
  outbData := fun v s => if s.cmd = EC_TBL_WRITE_ITEM then { s with slot := v } else s

/-- Concurrency model: each caller (thread) runs one protocol operation,
given by the sequence of events that operation produces.  A configuration
holds each thread's remaining script, the mutex owner, and the global trace
of (thread, event) pairs observed so far. -/
structure Conf where
  rem : Nat → List Ev
  owner : Option Nat
  tr : List (Nat × Ev)

/-- Pointwise update of the remaining-script map. -/
def updRem (rem : Nat → List Ev) (t : Nat) (l : List Ev) : Nat → List Ev :=
  fun u => if u = t then l else rem u

/-- Interleaving semantics.  Modelled from the spec: the kernel mutex
(linux/mutex.h, not part of this repository) blocks an acquirer while the
lock is held and admits exactly one holder; port accesses themselves are
unguarded by hardware.  A thread may perform its next event: taking the
lock requires the mutex to be free, releasing it frees the mutex, and port
accesses are unconstrained steps of whoever's script has them next. -/
inductive Step : Conf → Conf → Prop
  | lock {c : Conf} {t : Nat} {rest : List Ev} :
      c.rem t = Ev.lock :: rest → c.owner = none →
      Step c ⟨updRem c.rem t rest, some t, c.tr ++ [(t, Ev.lock)]⟩
  | unlock {c : Conf} {t : Nat} {rest : List Ev} :
      c.rem t = Ev.unlock :: rest →
      Step c ⟨updRem c.rem t rest, none, c.tr ++ [(t, Ev.unlock)]⟩
  | port {c : Conf} {t : Nat} {e : Ev} {rest : List Ev} :
      c.rem t = e :: rest → isPort e = true →
      Step c ⟨updRem c.rem t rest, c.owner, c.tr ++ [(t, e)]⟩

/-- Initial configuration: threads 0..n-1 each hold their full script, the
mutex is free, nothing has been observed. -/
def initConf (n : Nat) (script : Nat → List Ev) : Conf :=
  ⟨fun t => if t < n then script t else [], none, []⟩

/-- Reachability under the interleaving semantics. -/
def Reach (n : Nat) (script : Nat → List Ev) (c : Conf) : Prop :=
  Relation.ReflTransGen Step (initConf n script) c

/-- A thread's script tagged with its id. -/
def taggedScript (script : Nat → List Ev) (t : Nat) : List (Nat × Ev) :=
  (script t).map (fun e => (t, e))

/-- Well-formed caller script: one lock, then port accesses only, then one
unlock — the shape every protocol operation's trace has. -/
def ScriptWF (l : List Ev) : Prop :=
  ∃ mid, l = Ev.lock :: mid ++ [Ev.unlock] ∧ ∀ e ∈ mid, isPort e = true

/-- The trace of some run of one of the eleven protocol operations. -/
def OpTrace (t : List Ev) : Prop :=
  (∃ (σ : Type) (d : Dev σ) (s : σ) (a b : Nat), (read_hw_ram d a b s).2.2.2 = t) ∨
  (∃ (σ : Type) (d : Dev σ) (s : σ) (a b : Nat), (write_hw_ram d a b s).2.2 = t) ∨
  (∃ (σ : Type) (d : Dev σ) (s : σ) (a b : Nat), (read_acpi_value d a b s).2.2.2 = t) ∨
  (∃ (σ : Type) (d : Dev σ) (s : σ) (a b : Nat), (write_acpi_value d a b s).2.2 = t) ∨
  (∃ (σ : Type) (d : Dev σ) (s : σ) (a b : Nat), (read_gpio_status d a b s).2.2.2 = t) ∨
  (∃ (σ : Type) (d : Dev σ) (s : σ) (a b : Nat), (write_gpio_status d a b s).2.2 = t) ∨
  (∃ (σ : Type) (d : Dev σ) (s : σ) (a b : Nat), (read_gpio_dir d a b s).2.2.2 = t) ∨
  (∃ (σ : Type) (d : Dev σ) (s : σ) (a b : Nat), (write_gpio_dir d a b s).2.2 = t) ∨
  (∃ (σ : Type) (d : Dev σ) (s : σ) (a b : Nat), (read_ad_value d a b s).2.2 = t) ∨
  (∃ (σ : Type) (d : Dev σ) (s : σ) (a : Nat), (write_hwram_command d a s).2.2 = t) ∨
  (∃ (σ : Type) (d : Dev σ) (s : σ), (adv_get_dynamic_tab d s).2.2.2 = t)

/-- The invariant of the interleaving semantics: the trace decomposes into
whole tagged scripts of the already-finished threads (in completion order),
followed — when the mutex is held — by the tagged nonempty proper prefix
of the owner's script consumed so far; every other thread is either
untouched or finished. -/
def SchedInv (n : Nat) (script : Nat → List Ev) (c : Conf) : Prop :=
  ∃ done : List Nat,
    done.Nodup ∧ (∀ t ∈ done, t < n) ∧
    (∀ t, ¬ t < n → c.rem t = []) ∧
    (match c.owner with
     | none =>
        c.tr = (done.map (taggedScript script)).flatten ∧
        ∀ t, t < n → (if t ∈ done then c.rem t = [] else c.rem t = script t)
     | some u =>
        u < n ∧ u ∉ done ∧
        (∃ taken rem0, script u = taken ++ rem0 ∧ taken ≠ [] ∧ rem0 ≠ [] ∧
          c.tr = (done.map (taggedScript script)).flatten ++
            taken.map (fun e => (u, e)) ∧
          c.rem u = rem0) ∧
        ∀ t, t < n → t ≠ u → (if t ∈ done then c.rem t = [] else c.rem t = script t))

/-- Trace of one write_hwram_command(0x28) run over the always-ready script
device; used as a concrete caller script. -/
def wcTrace : List Ev := (write_hwram_command devScript 0x28 []).2.2

/-- Two concurrent callers, each issuing one write_hwram_command. -/
def twoScripts : Nat → List Ev := fun _ => wcTrace

/-! Basic facts about the wait primitives' traces and results. -/

theorem waitw_allPoll {σ : Type} (d : Dev σ) :
    ∀ (n : Nat) (s : σ), ∀ e ∈ (ec_wait_write d n s).2.2, isPoll e = true := by
  intro n
  induction n with
  | zero => intro s e he; simp [ec_wait_write] at he
  | succ n ih =>
    intro s e he
    by_cases hc : (d.inbCmd s).1 &&& EC_COMMAND_BIT_IBF = 0
    · simp only [ec_wait_write, if_pos hc] at he
      simp only [List.mem_singleton] at he
      subst he; rfl
    · simp only [ec_wait_write, if_neg hc] at he
      rcases List.mem_cons.mp he with h | h
      · subst h; rfl
      · exact ih _ e h

theorem waitr_allPoll {σ : Type} (d : Dev σ) :
    ∀ (n : Nat) (s : σ), ∀ e ∈ (ec_wait_read d n s).2.2, isPoll e = true := by
  intro n
  induction n with
  | zero => intro s e he; simp [ec_wait_read] at he
  | succ n ih =>
    intro s e he
    by_cases hc : (d.inbCmd s).1 &&& EC_COMMAND_BIT_OBF ≠ 0
    · simp only [ec_wait_read, if_pos hc] at he
      simp only [List.mem_singleton] at he
      subst he; rfl
    · simp only [ec_wait_read, if_neg hc] at he
      rcases List.mem_cons.mp he with h | h
      · subst h; rfl
      · exact ih _ e h

theorem waitw_last {σ : Type} (d : Dev σ) :
    ∀ (n : Nat) (s : σ), (ec_wait_write d n s).1 = 0 →
      ∃ w0 v, (ec_wait_write d n s).2.2 = w0 ++ [Ev.inbCmd v] ∧
        v &&& EC_COMMAND_BIT_IBF = 0 := by
  intro n
  induction n with
  | zero =>
    intro s h
    simp only [ec_wait_write] at h
    exact absurd h (by decide)
  | succ n ih =>
    intro s h
    by_cases hc : (d.inbCmd s).1 &&& EC_COMMAND_BIT_IBF = 0
    · exact ⟨[], (d.inbCmd s).1, by simp [ec_wait_write, hc], hc⟩
    · simp only [ec_wait_write, if_neg hc] at h
      obtain ⟨w0, v, hw, hv⟩ := ih (d.inbCmd s).2 h
      exact ⟨Ev.inbCmd (d.inbCmd s).1 :: w0, v, by simp [ec_wait_write, hc, hw], hv⟩

theorem waitr_last {σ : Type} (d : Dev σ) :
    ∀ (n : Nat) (s : σ), (ec_wait_read d n s).1 = 0 →
      ∃ w0 v, (ec_wait_read d n s).2.2 = w0 ++ [Ev.inbCmd v] ∧
        v &&& EC_COMMAND_BIT_OBF ≠ 0 := by
  intro n
  induction n with
  | zero =>
    intro s h
    simp only [ec_wait_read] at h
    exact absurd h (by decide)
  | succ n ih =>
    intro s h
    by_cases hc : (d.inbCmd s).1 &&& EC_COMMAND_BIT_OBF ≠ 0
    · exact ⟨[], (d.inbCmd s).1, by simp [ec_wait_read, hc], hc⟩
    · simp only [ec_wait_read, if_neg hc] at h
      obtain ⟨w0, v, hw, hv⟩ := ih (d.inbCmd s).2 h
      exact ⟨Ev.inbCmd (d.inbCmd s).1 :: w0, v, by simp [ec_wait_read, hc, hw], hv⟩

theorem waitw_res {σ : Type} (d : Dev σ) :
    ∀ (n : Nat) (s : σ),
      (ec_wait_write d n s).1 = 0 ∨ (ec_wait_write d n s).1 = -ETIMEDOUT := by
  intro n
  induction n with
  | zero => intro s; right; rfl
  | succ n ih =>
    intro s
    by_cases hc : (d.inbCmd s).1 &&& EC_COMMAND_BIT_IBF = 0
    · left; simp [ec_wait_write, hc]
    · simpa only [ec_wait_write, if_neg hc] using ih (d.inbCmd s).2

theorem waitr_res {σ : Type} (d : Dev σ) :
    ∀ (n : Nat) (s : σ),
      (ec_wait_read d n s).1 = 0 ∨ (ec_wait_read d n s).1 = -ETIMEDOUT := by
  intro n
  induction n with
  | zero => intro s; right; rfl
  | succ n ih =>
    intro s
    by_cases hc : (d.inbCmd s).1 &&& EC_COMMAND_BIT_OBF ≠ 0
    · left; simp [ec_wait_read, hc]
    · simpa only [ec_wait_read, if_neg hc] using ih (d.inbCmd s).2

/-! Small facts about the event classifiers. -/

theorem isPort_of_isPoll {e : Ev} (h : isPoll e = true) : isPort e = true := by
  cases e <;> simp_all [isPoll, isPort]

theorem stepOK_poll {a b : Ev} (h : isPoll b = true) : stepOK a b := by
  cases b <;> simp_all [isPoll, stepOK]

theorem stepOK_unlock (a : Ev) : stepOK a Ev.unlock := trivial

theorem stepOK_lock (a : Ev) : stepOK a Ev.lock := trivial

theorem writeReady_of_last {v : Nat} (h : v &&& EC_COMMAND_BIT_IBF = 0) :
    writeReady (Ev.inbCmd v) = true := by
  simp [writeReady, h]

theorem readReady_of_last {v : Nat} (h : v &&& EC_COMMAND_BIT_OBF ≠ 0) :
    readReady (Ev.inbCmd v) = true := by
  simp [readReady, h]

/-! Replay lemmas for the mutex state. -/

theorem lockAfter_append (t1 t2 : List Ev) (b : Bool) :
    lockAfter (t1 ++ t2) b = lockAfter t2 (lockAfter t1 b) := by
  induction t1 generalizing b with
  | nil => rfl
  | cons e t ih => cases e <;> simp [lockAfter, ih]

theorem lockAfter_port {t : List Ev} (h : ∀ e ∈ t, isPort e = true) (b : Bool) :
    lockAfter t b = b := by
  induction t with
  | nil => rfl
  | cons e t ih =>
    have he : isPort e = true := h e (List.mem_cons_self e t)
    have ht : ∀ x ∈ t, isPort x = true := fun x hx => h x (List.mem_cons_of_mem e hx)
    cases e <;> simp_all [lockAfter, isPort]

/-! Chain-composition helpers for the handshake discipline. -/

theorem chain_allPoll {w : List Ev} (h : ∀ e ∈ w, isPoll e = true) :
    List.Chain' stepOK w := by
  induction w with
  | nil => exact List.chain'_nil
  | cons a l ih =>
    refine List.chain'_cons'.mpr ⟨?_, ih fun x hx => h x (List.mem_cons_of_mem a hx)⟩
    intro y hy
    exact stepOK_poll (h y (List.mem_cons_of_mem a (List.mem_of_mem_head? hy)))

theorem chain_cons_allPoll {x : Ev} {w : List Ev} (h : ∀ e ∈ w, isPoll e = true) :
    List.Chain' stepOK (x :: w) := by
  refine List.chain'_cons'.mpr ⟨?_, chain_allPoll h⟩
  intro y hy
  exact stepOK_poll (h y (List.mem_of_mem_head? hy))

theorem chain_cons_poll_head {x : Ev} {w l : List Ev}
    (hw : ∀ e ∈ w, isPoll e = true) (hne : w ≠ [])
    (h : List.Chain' stepOK (w ++ l)) : List.Chain' stepOK (x :: (w ++ l)) := by
  cases w with
  | nil => exact absurd rfl hne
  | cons a w2 =>
    refine List.chain'_cons'.mpr ⟨?_, h⟩
    intro y hy
    simp only [List.cons_append, List.head?_cons, Option.mem_def, Option.some.injEq] at hy
    subst hy
    exact stepOK_poll (hw a (List.mem_cons_self a w2))

theorem chain_wait_write_cons {σ : Type} (d : Dev σ) (n : Nat) (s : σ) {e : Ev}
    {l : List Ev} (h0 : (ec_wait_write d n s).1 = 0) (he : isOutb e = true)
    (hl : List.Chain' stepOK (e :: l)) :
    List.Chain' stepOK ((ec_wait_write d n s).2.2 ++ e :: l) := by
  obtain ⟨w0, v, hw, hv⟩ := waitw_last d n s h0
  rw [hw, List.append_assoc]
  refine List.chain'_append.mpr ⟨?_, ?_, ?_⟩
  · exact chain_allPoll fun x hx =>
      waitw_allPoll d n s x (by rw [hw]; exact List.mem_append_left _ hx)
  · refine List.chain'_append.mpr ⟨List.chain'_singleton _, hl, ?_⟩
    intro x hx y hy
    simp only [List.getLast?_singleton, Option.mem_def, Option.some.injEq] at hx
    simp only [List.head?_cons, Option.mem_def, Option.some.injEq] at hy
    subst hx; subst hy
    cases e <;> simp_all [isOutb, stepOK, writeReady]
  · intro x hx y hy
    simp only [List.singleton_append, List.head?_cons, Option.mem_def,
      Option.some.injEq] at hy
    subst hy
    exact stepOK_poll rfl

theorem chain_wait_read_cons {σ : Type} (d : Dev σ) (n : Nat) (s : σ) {e : Ev}
    {l : List Ev} (h0 : (ec_wait_read d n s).1 = 0) (he : isInData e = true)
    (hl : List.Chain' stepOK (e :: l)) :
    List.Chain' stepOK ((ec_wait_read d n s).2.2 ++ e :: l) := by
  obtain ⟨w0, v, hw, hv⟩ := waitr_last d n s h0
  rw [hw, List.append_assoc]
  refine List.chain'_append.mpr ⟨?_, ?_, ?_⟩
  · exact chain_allPoll fun x hx =>
      waitr_allPoll d n s x (by rw [hw]; exact List.mem_append_left _ hx)
  · refine List.chain'_append.mpr ⟨List.chain'_singleton _, hl, ?_⟩
    intro x hx y hy
    simp only [List.getLast?_singleton, Option.mem_def, Option.some.injEq] at hx
    simp only [List.head?_cons, Option.mem_def, Option.some.injEq] at hy
    subst hx; subst hy
    cases e <;> simp_all [isInData, stepOK, readReady]
  · intro x hx y hy
    simp only [List.singleton_append, List.head?_cons, Option.mem_def,
      Option.some.injEq] at hy
    subst hy
    exact stepOK_poll rfl

theorem waitw_ne_nil {σ : Type} (d : Dev σ) (n : Nat) (s : σ)
    (h0 : (ec_wait_write d n s).1 = 0) : (ec_wait_write d n s).2.2 ≠ [] := by
  obtain ⟨w0, v, hw, _⟩ := waitw_last d n s h0
  rw [hw]
  simp

theorem waitr_ne_nil {σ : Type} (d : Dev σ) (n : Nat) (s : σ)
    (h0 : (ec_wait_read d n s).1 = 0) : (ec_wait_read d n s).2.2 ≠ [] := by
  obtain ⟨w0, v, hw, _⟩ := waitr_last d n s h0
  rw [hw]
  simp

theorem head_poll_append {w l : List Ev} (hw : ∀ e ∈ w, isPoll e = true)
    (hne : w ≠ []) : ∀ x ∈ (w ++ l).head?, isPoll x = true := by
  cases w with
  | nil => exact absurd rfl hne
  | cons a w2 =>
    intro x hx
    simp only [List.cons_append, List.head?_cons, Option.mem_def,
      Option.some.injEq] at hx
    subst hx
    exact hw a (List.mem_cons_self a w2)

theorem port_polls {w : List Ev} (hw : ∀ e ∈ w, isPoll e = true) :
    ∀ e ∈ w, isPort e = true :=
  fun e he => isPort_of_isPoll (hw e he)

theorem port_append {w l : List Ev} (hw : ∀ e ∈ w, isPoll e = true)
    (hl : ∀ e ∈ l, isPort e = true) : ∀ e ∈ w ++ l, isPort e = true := by
  intro e he
  rcases List.mem_append.mp he with h | h
  · exact isPort_of_isPoll (hw e h)
  · exact hl e h

theorem port_cons {x : Ev} {l : List Ev} (hx : isPort x = true)
    (hl : ∀ e ∈ l, isPort e = true) : ∀ e ∈ x :: l, isPort e = true := by
  intro e he
  rcases List.mem_cons.mp he with h | h
  · subst h; exact hx
  · exact hl e h

theorem port_nil : ∀ e ∈ ([] : List Ev), isPort e = true := by
  intro e he
  simp at he

/-- A trace of the canonical shape satisfies both the lock discipline and the
handshake discipline. -/
theorem shape_lock_seq {t : List Ev} (h : TraceShape t) : lockOK t ∧ seqOK t := by
  obtain ⟨mid, rfl, hport, hchain, hhead⟩ := h
  have hnl : mid.countP isLock = 0 := by
    rw [List.countP_eq_zero]
    intro e he
    have := hport e he
    cases e <;> simp_all [isPort, isLock]
  have hnu : mid.countP isUnlock = 0 := by
    rw [List.countP_eq_zero]
    intro e he
    have := hport e he
    cases e <;> simp_all [isPort, isUnlock]
  refine ⟨⟨?_, ?_, ?_⟩, ?_⟩
  · simp [nLock, List.countP_cons, List.countP_append, hnl, isLock]
  · simp [nUnlock, List.countP_cons, List.countP_append, hnu, isUnlock]
  · show lockAfter (Ev.lock :: mid ++ [Ev.unlock]) false = false
    have h2 : lockAfter (Ev.lock :: mid ++ [Ev.unlock]) false =
        lockAfter (mid ++ [Ev.unlock]) true := rfl
    rw [h2, lockAfter_append, lockAfter_port hport]
    rfl
  · show List.Chain' stepOK (Ev.lock :: mid ++ [Ev.unlock])
    refine List.chain'_cons'.mpr ⟨?_, ?_⟩
    · intro y hy
      cases mid with
      | nil =>
        have hy2 : some Ev.unlock = some y := hy
        have hy3 := Option.some.inj hy2
        subst hy3
        exact stepOK_unlock _
      | cons a l =>
        have hy2 : some a = some y := hy
        have hy3 := Option.some.inj hy2
        subst hy3
        exact stepOK_poll (hhead a rfl)
    · refine List.chain'_append.mpr ⟨hchain, List.chain'_singleton _, ?_⟩
      intro x hx y hy
      have hy2 : some Ev.unlock = some y := hy
      have hy3 := Option.some.inj hy2
      subst hy3
      exact stepOK_unlock x

/-! Equation-style wrappers of the wait-trace facts, convenient after
destructuring a wait's result. -/

theorem waitw_allPoll_eq {σ : Type} {d : Dev σ} {n : Nat} {s : σ} {r : Int}
    {s2 : σ} {w : List Ev} (h : ec_wait_write d n s = (r, s2, w)) :
    ∀ e ∈ w, isPoll e = true := by
  have h2 := waitw_allPoll d n s
  rw [h] at h2
  exact h2

theorem waitr_allPoll_eq {σ : Type} {d : Dev σ} {n : Nat} {s : σ} {r : Int}
    {s2 : σ} {w : List Ev} (h : ec_wait_read d n s = (r, s2, w)) :
    ∀ e ∈ w, isPoll e = true := by
  have h2 := waitr_allPoll d n s
  rw [h] at h2
  exact h2

theorem waitw_ne_nil_eq {σ : Type} {d : Dev σ} {n : Nat} {s : σ}
    {s2 : σ} {w : List Ev} (h : ec_wait_write d n s = (0, s2, w)) : w ≠ [] := by
  have h2 := waitw_ne_nil d n s (by rw [h])
  rw [h] at h2
  exact h2

theorem waitr_ne_nil_eq {σ : Type} {d : Dev σ} {n : Nat} {s : σ}
    {s2 : σ} {w : List Ev} (h : ec_wait_read d n s = (0, s2, w)) : w ≠ [] := by
  have h2 := waitr_ne_nil d n s (by rw [h])
  rw [h] at h2
  exact h2

theorem chain_ww {σ : Type} {d : Dev σ} {n : Nat} {s : σ} {s2 : σ} {w : List Ev}
    (h : ec_wait_write d n s = (0, s2, w)) {e : Ev} {l : List Ev}
    (he : isOutb e = true) (hl : List.Chain' stepOK (e :: l)) :
    List.Chain' stepOK (w ++ e :: l) := by
  have h2 := chain_wait_write_cons d n s (by rw [h]) he hl
  rw [h] at h2
  exact h2

theorem chain_wr {σ : Type} {d : Dev σ} {n : Nat} {s : σ} {s2 : σ} {w : List Ev}
    (h : ec_wait_read d n s = (0, s2, w)) {e : Ev} {l : List Ev}
    (he : isInData e = true) (hl : List.Chain' stepOK (e :: l)) :
    List.Chain' stepOK (w ++ e :: l) := by
  have h2 := chain_wait_read_cons d n s (by rw [h]) he hl
  rw [h] at h2
  exact h2

/-- Trace shape of read_hw_ram, for every device, state and arguments. -/
theorem shape_read_hw_ram {σ : Type} (d : Dev σ) (addr data : Nat) (s : σ) :
    TraceShape (read_hw_ram d addr data s).2.2.2 := by
  rcases hq1 : ec_wait_write d EC_MAX_TIMEOUT_COUNT s with ⟨r1, s1, w1⟩
  rcases hq2 : ec_wait_write d EC_MAX_TIMEOUT_COUNT (d.outbCmd EC_HW_RAM_READ s1)
    with ⟨r2, s2, w2⟩
  rcases hq3 : ec_wait_read d EC_MAX_TIMEOUT_COUNT (d.outbData addr s2)
    with ⟨r3, s3, w3⟩
  simp only [read_hw_ram, hq1, hq2, hq3]
  split_ifs with h1 h2 h3
  · exact ⟨w1, rfl, port_polls (waitw_allPoll_eq hq1),
      chain_allPoll (waitw_allPoll_eq hq1),
      fun x hx => waitw_allPoll_eq hq1 x (List.mem_of_mem_head? hx)⟩
  · rw [not_ne_iff.mp h1] at hq1
    refine ⟨w1 ++ Ev.outbCmd EC_HW_RAM_READ :: w2, by simp, ?_, ?_, ?_⟩
    · exact port_append (waitw_allPoll_eq hq1)
        (port_cons rfl (port_polls (waitw_allPoll_eq hq2)))
    · exact chain_ww hq1 rfl (chain_cons_allPoll (waitw_allPoll_eq hq2))
    · exact head_poll_append (waitw_allPoll_eq hq1) (waitw_ne_nil_eq hq1)
  · rw [not_ne_iff.mp h1] at hq1
    rw [not_ne_iff.mp h2] at hq2
    refine ⟨w1 ++ Ev.outbCmd EC_HW_RAM_READ :: (w2 ++ Ev.outbData addr :: w3),
      by simp, ?_, ?_, ?_⟩
    · exact port_append (waitw_allPoll_eq hq1)
        (port_cons rfl (port_append (waitw_allPoll_eq hq2)
          (port_cons rfl (port_polls (waitr_allPoll_eq hq3)))))
    · exact chain_ww hq1 rfl
        (chain_cons_poll_head (waitw_allPoll_eq hq2) (waitw_ne_nil_eq hq2)
          (chain_ww hq2 rfl (chain_cons_allPoll (waitr_allPoll_eq hq3))))
    · exact head_poll_append (waitw_allPoll_eq hq1) (waitw_ne_nil_eq hq1)
  · rw [not_ne_iff.mp h1] at hq1
    rw [not_ne_iff.mp h2] at hq2
    rw [not_ne_iff.mp h3] at hq3
    refine ⟨w1 ++ Ev.outbCmd EC_HW_RAM_READ :: (w2 ++ Ev.outbData addr ::
      (w3 ++ [Ev.inbData (d.inbData s3).1])), by simp, ?_, ?_, ?_⟩
    · exact port_append (waitw_allPoll_eq hq1)
        (port_cons rfl (port_append (waitw_allPoll_eq hq2)
          (port_cons rfl (port_append (waitr_allPoll_eq hq3)
            (port_cons rfl port_nil)))))
    · exact chain_ww hq1 rfl
        (chain_cons_poll_head (waitw_allPoll_eq hq2) (waitw_ne_nil_eq hq2)
          (chain_ww hq2 rfl
            (chain_cons_poll_head (waitr_allPoll_eq hq3) (waitr_ne_nil_eq hq3)
              (chain_wr hq3 rfl (List.chain'_singleton _)))))
    · exact head_poll_append (waitw_allPoll_eq hq1) (waitw_ne_nil_eq hq1)

/-- Trace shape of write_hw_ram. -/
theorem shape_write_hw_ram {σ : Type} (d : Dev σ) (addr data : Nat) (s : σ) :
    TraceShape (write_hw_ram d addr data s).2.2 := by
  rcases hq1 : ec_wait_write d EC_MAX_TIMEOUT_COUNT s with ⟨r1, s1, w1⟩
  rcases hq2 : ec_wait_write d EC_MAX_TIMEOUT_COUNT (d.outbCmd EC_HW_RAM_WRITE s1)
    with ⟨r2, s2, w2⟩
  rcases hq3 : ec_wait_write d EC_MAX_TIMEOUT_COUNT (d.outbData addr s2)
    with ⟨r3, s3, w3⟩
  simp only [write_hw_ram, hq1, hq2, hq3]
  split_ifs with h1 h2 h3
  · exact ⟨w1, rfl, port_polls (waitw_allPoll_eq hq1),
      chain_allPoll (waitw_allPoll_eq hq1),
      fun x hx => waitw_allPoll_eq hq1 x (List.mem_of_mem_head? hx)⟩
  · rw [not_ne_iff.mp h1] at hq1
    refine ⟨w1 ++ Ev.outbCmd EC_HW_RAM_WRITE :: w2, by simp, ?_, ?_, ?_⟩
    · exact port_append (waitw_allPoll_eq hq1)
        (port_cons rfl (port_polls (waitw_allPoll_eq hq2)))
    · exact chain_ww hq1 rfl (chain_cons_allPoll (waitw_allPoll_eq hq2))
    · exact head_poll_append (waitw_allPoll_eq hq1) (waitw_ne_nil_eq hq1)
  · rw [not_ne_iff.mp h1] at hq1
    rw [not_ne_iff.mp h2] at hq2
    refine ⟨w1 ++ Ev.outbCmd EC_HW_RAM_WRITE :: (w2 ++ Ev.outbData addr :: w3),
      by simp, ?_, ?_, ?_⟩
    · exact port_append (waitw_allPoll_eq hq1)
        (port_cons rfl (port_append (waitw_allPoll_eq hq2)
          (port_cons rfl (port_polls (waitw_allPoll_eq hq3)))))
    · exact chain_ww hq1 rfl
        (chain_cons_poll_head (waitw_allPoll_eq hq2) (waitw_ne_nil_eq hq2)
          (chain_ww hq2 rfl (chain_cons_allPoll (waitw_allPoll_eq hq3))))
    · exact head_poll_append (waitw_allPoll_eq hq1) (waitw_ne_nil_eq hq1)
  · rw [not_ne_iff.mp h1] at hq1
    rw [not_ne_iff.mp h2] at hq2
    rw [not_ne_iff.mp h3] at hq3
    refine ⟨w1 ++ Ev.outbCmd EC_HW_RAM_WRITE :: (w2 ++ Ev.outbData addr ::
      (w3 ++ [Ev.outbData data])), by simp, ?_, ?_, ?_⟩
    · exact port_append (waitw_allPoll_eq hq1)
        (port_cons rfl (port_append (waitw_allPoll_eq hq2)
          (port_cons rfl (port_append (waitw_allPoll_eq hq3)
            (port_cons rfl port_nil)))))
    · exact chain_ww hq1 rfl
        (chain_cons_poll_head (waitw_allPoll_eq hq2) (waitw_ne_nil_eq hq2)
          (chain_ww hq2 rfl
            (chain_cons_poll_head (waitw_allPoll_eq hq3) (waitw_ne_nil_eq hq3)
              (chain_ww hq3 rfl (List.chain'_singleton _)))))
    · exact head_poll_append (waitw_allPoll_eq hq1) (waitw_ne_nil_eq hq1)

/-- Trace shape of read_acpi_value. -/
theorem shape_read_acpi_value {σ : Type} (d : Dev σ) (addr data : Nat) (s : σ) :
    TraceShape (read_acpi_value d addr data s).2.2.2 := by
  rcases hq1 : ec_wait_write d EC_MAX_TIMEOUT_COUNT s with ⟨r1, s1, w1⟩
  rcases hq2 : ec_wait_write d EC_MAX_TIMEOUT_COUNT (d.outbCmd EC_ACPI_RAM_READ s1)
    with ⟨r2, s2, w2⟩
  rcases hq3 : ec_wait_read d EC_MAX_TIMEOUT_COUNT (d.outbData addr s2)
    with ⟨r3, s3, w3⟩
  simp only [read_acpi_value, hq1, hq2, hq3]
  split_ifs with h1 h2 h3
  · exact ⟨w1, rfl, port_polls (waitw_allPoll_eq hq1),
      chain_allPoll (waitw_allPoll_eq hq1),
      fun x hx => waitw_allPoll_eq hq1 x (List.mem_of_mem_head? hx)⟩
  · rw [not_ne_iff.mp h1] at hq1
    refine ⟨w1 ++ Ev.outbCmd EC_ACPI_RAM_READ :: w2, by simp, ?_, ?_, ?_⟩
    · exact port_append (waitw_allPoll_eq hq1)
        (port_cons rfl (port_polls (waitw_allPoll_eq hq2)))
    · exact chain_ww hq1 rfl (chain_cons_allPoll (waitw_allPoll_eq hq2))
    · exact head_poll_append (waitw_allPoll_eq hq1) (waitw_ne_nil_eq hq1)
  · rw [not_ne_iff.mp h1] at hq1
    rw [not_ne_iff.mp h2] at hq2
    refine ⟨w1 ++ Ev.outbCmd EC_ACPI_RAM_READ :: (w2 ++ Ev.outbData addr :: w3),
      by simp, ?_, ?_, ?_⟩
    · exact port_append (waitw_allPoll_eq hq1)
        (port_cons rfl (port_append (waitw_allPoll_eq hq2)
          (port_cons rfl (port_polls (waitr_allPoll_eq hq3)))))
    · exact chain_ww hq1 rfl
        (chain_cons_poll_head (waitw_allPoll_eq hq2) (waitw_ne_nil_eq hq2)
          (chain_ww hq2 rfl (chain_cons_allPoll (waitr_allPoll_eq hq3))))
    · exact head_poll_append (waitw_allPoll_eq hq1) (waitw_ne_nil_eq hq1)
  · rw [not_ne_iff.mp h1] at hq1
    rw [not_ne_iff.mp h2] at hq2
    rw [not_ne_iff.mp h3] at hq3
    refine ⟨w1 ++ Ev.outbCmd EC_ACPI_RAM_READ :: (w2 ++ Ev.outbData addr ::
      (w3 ++ [Ev.inbData (d.inbData s3).1])), by simp, ?_, ?_, ?_⟩
    · exact port_append (waitw_allPoll_eq hq1)
        (port_cons rfl (port_append (waitw_allPoll_eq hq2)
          (port_cons rfl (port_append (waitr_allPoll_eq hq3)
            (port_cons rfl port_nil)))))
    · exact chain_ww hq1 rfl
        (chain_cons_poll_head (waitw_allPoll_eq hq2) (waitw_ne_nil_eq hq2)
          (chain_ww hq2 rfl
            (chain_cons_poll_head (waitr_allPoll_eq hq3) (waitr_ne_nil_eq hq3)
              (chain_wr hq3 rfl (List.chain'_singleton _)))))
    · exact head_poll_append (waitw_allPoll_eq hq1) (waitw_ne_nil_eq hq1)

/-- Trace shape of write_acpi_value. -/
theorem shape_write_acpi_value {σ : Type} (d : Dev σ) (addr value : Nat) (s : σ) :
    TraceShape (write_acpi_value d addr value s).2.2 := by
  rcases hq1 : ec_wait_write d EC_MAX_TIMEOUT_COUNT s with ⟨r1, s1, w1⟩
  rcases hq2 : ec_wait_write d EC_MAX_TIMEOUT_COUNT (d.outbCmd EC_ACPI_DATA_WRITE s1)
    with ⟨r2, s2, w2⟩
  rcases hq3 : ec_wait_write d EC_MAX_TIMEOUT_COUNT (d.outbData addr s2)
    with ⟨r3, s3, w3⟩
  simp only [write_acpi_value, hq1, hq2, hq3]
  split_ifs with h1 h2 h3
  · exact ⟨w1, rfl, port_polls (waitw_allPoll_eq hq1),
      chain_allPoll (waitw_allPoll_eq hq1),
      fun x hx => waitw_allPoll_eq hq1 x (List.mem_of_mem_head? hx)⟩
  · rw [not_ne_iff.mp h1] at hq1
    refine ⟨w1 ++ Ev.outbCmd EC_ACPI_DATA_WRITE :: w2, by simp, ?_, ?_, ?_⟩
    · exact port_append (waitw_allPoll_eq hq1)
        (port_cons rfl (port_polls (waitw_allPoll_eq hq2)))
    · exact chain_ww hq1 rfl (chain_cons_allPoll (waitw_allPoll_eq hq2))
    · exact head_poll_append (waitw_allPoll_eq hq1) (waitw_ne_nil_eq hq1)
  · rw [not_ne_iff.mp h1] at hq1
    rw [not_ne_iff.mp h2] at hq2
    refine ⟨w1 ++ Ev.outbCmd EC_ACPI_DATA_WRITE :: (w2 ++ Ev.outbData addr :: w3),
      by simp, ?_, ?_, ?_⟩
    · exact port_append (waitw_allPoll_eq hq1)
        (port_cons rfl (port_append (waitw_allPoll_eq hq2)
          (port_cons rfl (port_polls (waitw_allPoll_eq hq3)))))
    · exact chain_ww hq1 rfl
        (chain_cons_poll_head (waitw_allPoll_eq hq2) (waitw_ne_nil_eq hq2)
          (chain_ww hq2 rfl (chain_cons_allPoll (waitw_allPoll_eq hq3))))
    · exact head_poll_append (waitw_allPoll_eq hq1) (waitw_ne_nil_eq hq1)
  · rw [not_ne_iff.mp h1] at hq1
    rw [not_ne_iff.mp h2] at hq2
    rw [not_ne_iff.mp h3] at hq3
    refine ⟨w1 ++ Ev.outbCmd EC_ACPI_DATA_WRITE :: (w2 ++ Ev.outbData addr ::
      (w3 ++ [Ev.outbData value])), by simp, ?_, ?_, ?_⟩
    · exact port_append (waitw_allPoll_eq hq1)
        (port_cons rfl (port_append (waitw_allPoll_eq hq2)
          (port_cons rfl (port_append (waitw_allPoll_eq hq3)
            (port_cons rfl port_nil)))))
    · exact chain_ww hq1 rfl
        (chain_cons_poll_head (waitw_allPoll_eq hq2) (waitw_ne_nil_eq hq2)
          (chain_ww hq2 rfl
            (chain_cons_poll_head (waitw_allPoll_eq hq3) (waitw_ne_nil_eq hq3)
              (chain_ww hq3 rfl (List.chain'_singleton _)))))
    · exact head_poll_append (waitw_allPoll_eq hq1) (waitw_ne_nil_eq hq1)

/-- Trace shape of write_hwram_command. -/
theorem shape_write_hwram_command {σ : Type} (d : Dev σ) (data : Nat) (s : σ) :
    TraceShape (write_hwram_command d data s).2.2 := by
  rcases hq1 : ec_wait_write d EC_MAX_TIMEOUT_COUNT s with ⟨r1, s1, w1⟩
  simp only [write_hwram_command, hq1]
  split_ifs with h1
  · exact ⟨w1, rfl, port_polls (waitw_allPoll_eq hq1),
      chain_allPoll (waitw_allPoll_eq hq1),
      fun x hx => waitw_allPoll_eq hq1 x (List.mem_of_mem_head? hx)⟩
  · rw [not_ne_iff.mp h1] at hq1
    refine ⟨w1 ++ [Ev.outbCmd data], by simp, ?_, ?_, ?_⟩
    · exact port_append (waitw_allPoll_eq hq1) (port_cons rfl port_nil)
    · exact chain_ww hq1 rfl (List.chain'_singleton _)
    · exact head_poll_append (waitw_allPoll_eq hq1) (waitw_ne_nil_eq hq1)

/-- Trace shape of read_gpio_status. -/
theorem shape_read_gpio_status {σ : Type} (d : Dev σ) (pin data : Nat) (s : σ) :
    TraceShape (read_gpio_status d pin data s).2.2.2 := by
  rcases hq1 : ec_wait_write d EC_MAX_TIMEOUT_COUNT s with ⟨r1, s1, w1⟩
  rcases hq2 : ec_wait_write d EC_MAX_TIMEOUT_COUNT (d.outbCmd EC_GPIO_INDEX_WRITE s1)
    with ⟨r2, s2, w2⟩
  rcases hq3 : ec_wait_read d EC_MAX_TIMEOUT_COUNT (d.outbData pin s2)
    with ⟨r3, s3, w3⟩
  rcases hd1 : d.inbData s3 with ⟨chk, s4⟩
  rcases hq4 : ec_wait_write d EC_MAX_TIMEOUT_COUNT s4 with ⟨r4, s5, w4⟩
  rcases hq5 : ec_wait_read d EC_MAX_TIMEOUT_COUNT (d.outbCmd EC_GPIO_STATUS_READ s5)
    with ⟨r5, s6, w5⟩
  simp only [read_gpio_status, hq1, hq2, hq3, hd1, hq4, hq5]
  split_ifs with h1 h2 h3 h4 h5 h6
  · exact ⟨w1, rfl, port_polls (waitw_allPoll_eq hq1),
      chain_allPoll (waitw_allPoll_eq hq1),
      fun x hx => waitw_allPoll_eq hq1 x (List.mem_of_mem_head? hx)⟩
  · rw [not_ne_iff.mp h1] at hq1
    refine ⟨w1 ++ Ev.outbCmd EC_GPIO_INDEX_WRITE :: w2, by simp, ?_, ?_, ?_⟩
    · exact port_append (waitw_allPoll_eq hq1)
        (port_cons rfl (port_polls (waitw_allPoll_eq hq2)))
    · exact chain_ww hq1 rfl (chain_cons_allPoll (waitw_allPoll_eq hq2))
    · exact head_poll_append (waitw_allPoll_eq hq1) (waitw_ne_nil_eq hq1)
  · rw [not_ne_iff.mp h1] at hq1
    rw [not_ne_iff.mp h2] at hq2
    refine ⟨w1 ++ Ev.outbCmd EC_GPIO_INDEX_WRITE :: (w2 ++ Ev.outbData pin :: w3),
      by simp, ?_, ?_, ?_⟩
    · exact port_append (waitw_allPoll_eq hq1)
        (port_cons rfl (port_append (waitw_allPoll_eq hq2)
          (port_cons rfl (port_polls (waitr_allPoll_eq hq3)))))
    · exact chain_ww hq1 rfl
        (chain_cons_poll_head (waitw_allPoll_eq hq2) (waitw_ne_nil_eq hq2)
          (chain_ww hq2 rfl (chain_cons_allPoll (waitr_allPoll_eq hq3))))
    · exact head_poll_append (waitw_allPoll_eq hq1) (waitw_ne_nil_eq hq1)
  · rw [not_ne_iff.mp h1] at hq1
    rw [not_ne_iff.mp h2] at hq2
    rw [not_ne_iff.mp h3] at hq3
    refine ⟨w1 ++ Ev.outbCmd EC_GPIO_INDEX_WRITE :: (w2 ++ Ev.outbData pin ::
      (w3 ++ [Ev.inbData chk])), by simp, ?_, ?_, ?_⟩
    · exact port_append (waitw_allPoll_eq hq1)
        (port_cons rfl (port_append (waitw_allPoll_eq hq2)
          (port_cons rfl (port_append (waitr_allPoll_eq hq3)
            (port_cons rfl port_nil)))))
    · exact chain_ww hq1 rfl
        (chain_cons_poll_head (waitw_allPoll_eq hq2) (waitw_ne_nil_eq hq2)
          (chain_ww hq2 rfl
            (chain_cons_poll_head (waitr_allPoll_eq hq3) (waitr_ne_nil_eq hq3)
              (chain_wr hq3 rfl (List.chain'_singleton _)))))
    · exact head_poll_append (waitw_allPoll_eq hq1) (waitw_ne_nil_eq hq1)
  · rw [not_ne_iff.mp h1] at hq1
    rw [not_ne_iff.mp h2] at hq2
    rw [not_ne_iff.mp h3] at hq3
    refine ⟨w1 ++ Ev.outbCmd EC_GPIO_INDEX_WRITE :: (w2 ++ Ev.outbData pin ::
      (w3 ++ Ev.inbData chk :: w4)), by simp, ?_, ?_, ?_⟩
    · exact port_append (waitw_allPoll_eq hq1)
        (port_cons rfl (port_append (waitw_allPoll_eq hq2)
          (port_cons rfl (port_append (waitr_allPoll_eq hq3)
            (port_cons rfl (port_polls (waitw_allPoll_eq hq4)))))))
    · exact chain_ww hq1 rfl
        (chain_cons_poll_head (waitw_allPoll_eq hq2) (waitw_ne_nil_eq hq2)
          (chain_ww hq2 rfl
            (chain_cons_poll_head (waitr_allPoll_eq hq3) (waitr_ne_nil_eq hq3)
              (chain_wr hq3 rfl (chain_cons_allPoll (waitw_allPoll_eq hq4))))))
    · exact head_poll_append (waitw_allPoll_eq hq1) (waitw_ne_nil_eq hq1)
  · rw [not_ne_iff.mp h1] at hq1
    rw [not_ne_iff.mp h2] at hq2
    rw [not_ne_iff.mp h3] at hq3
    rw [not_ne_iff.mp h5] at hq4
    refine ⟨w1 ++ Ev.outbCmd EC_GPIO_INDEX_WRITE :: (w2 ++ Ev.outbData pin ::
      (w3 ++ Ev.inbData chk :: (w4 ++ Ev.outbCmd EC_GPIO_STATUS_READ :: w5))),
      by simp, ?_, ?_, ?_⟩
    · exact port_append (waitw_allPoll_eq hq1)
        (port_cons rfl (port_append (waitw_allPoll_eq hq2)
          (port_cons rfl (port_append (waitr_allPoll_eq hq3)
            (port_cons rfl (port_append (waitw_allPoll_eq hq4)
              (port_cons rfl (port_polls (waitr_allPoll_eq hq5)))))))))
    · exact chain_ww hq1 rfl
        (chain_cons_poll_head (waitw_allPoll_eq hq2) (waitw_ne_nil_eq hq2)
          (chain_ww hq2 rfl
            (chain_cons_poll_head (waitr_allPoll_eq hq3) (waitr_ne_nil_eq hq3)
              (chain_wr hq3 rfl
                (chain_cons_poll_head (waitw_allPoll_eq hq4) (waitw_ne_nil_eq hq4)
                  (chain_ww hq4 rfl (chain_cons_allPoll (waitr_allPoll_eq hq5))))))))
    · exact head_poll_append (waitw_allPoll_eq hq1) (waitw_ne_nil_eq hq1)
  · rw [not_ne_iff.mp h1] at hq1
    rw [not_ne_iff.mp h2] at hq2
    rw [not_ne_iff.mp h3] at hq3
    rw [not_ne_iff.mp h5] at hq4
    rw [not_ne_iff.mp h6] at hq5
    refine ⟨w1 ++ Ev.outbCmd EC_GPIO_INDEX_WRITE :: (w2 ++ Ev.outbData pin ::
      (w3 ++ Ev.inbData chk :: (w4 ++ Ev.outbCmd EC_GPIO_STATUS_READ ::
        (w5 ++ [Ev.inbData (d.inbData s6).1])))), by simp, ?_, ?_, ?_⟩
    · exact port_append (waitw_allPoll_eq hq1)
        (port_cons rfl (port_append (waitw_allPoll_eq hq2)
          (port_cons rfl (port_append (waitr_allPoll_eq hq3)
            (port_cons rfl (port_append (waitw_allPoll_eq hq4)
              (port_cons rfl (port_append (waitr_allPoll_eq hq5)
                (port_cons rfl port_nil)))))))))
    · exact chain_ww hq1 rfl
        (chain_cons_poll_head (waitw_allPoll_eq hq2) (waitw_ne_nil_eq hq2)
          (chain_ww hq2 rfl
            (chain_cons_poll_head (waitr_allPoll_eq hq3) (waitr_ne_nil_eq hq3)
              (chain_wr hq3 rfl
                (chain_cons_poll_head (waitw_allPoll_eq hq4) (waitw_ne_nil_eq hq4)
                  (chain_ww hq4 rfl
                    (chain_cons_poll_head (waitr_allPoll_eq hq5) (waitr_ne_nil_eq hq5)
                      (chain_wr hq5 rfl (List.chain'_singleton _)))))))))
    · exact head_poll_append (waitw_allPoll_eq hq1) (waitw_ne_nil_eq hq1)

/-- Trace shape of write_gpio_status. -/
theorem shape_write_gpio_status {σ : Type} (d : Dev σ) (pin value : Nat) (s : σ) :
    TraceShape (write_gpio_status d pin value s).2.2 := by
  rcases hq1 : ec_wait_write d EC_MAX_TIMEOUT_COUNT s with ⟨r1, s1, w1⟩
  rcases hq2 : ec_wait_write d EC_MAX_TIMEOUT_COUNT (d.outbCmd EC_GPIO_INDEX_WRITE s1)
    with ⟨r2, s2, w2⟩
  rcases hq3 : ec_wait_read d EC_MAX_TIMEOUT_COUNT (d.outbData pin s2)
    with ⟨r3, s3, w3⟩
  rcases hd1 : d.inbData s3 with ⟨chk, s4⟩
  rcases hq4 : ec_wait_write d EC_MAX_TIMEOUT_COUNT s4 with ⟨r4, s5, w4⟩
  rcases hq5 : ec_wait_write d EC_MAX_TIMEOUT_COUNT (d.outbCmd EC_GPIO_STATUS_WRITE s5)
    with ⟨r5, s6, w5⟩
  simp only [write_gpio_status, hq1, hq2, hq3, hd1, hq4, hq5]
  split_ifs with h1 h2 h3 h4 h5 h6
  · exact ⟨w1, rfl, port_polls (waitw_allPoll_eq hq1),
      chain_allPoll (waitw_allPoll_eq hq1),
      fun x hx => waitw_allPoll_eq hq1 x (List.mem_of_mem_head? hx)⟩
  · rw [not_ne_iff.mp h1] at hq1
    refine ⟨w1 ++ Ev.outbCmd EC_GPIO_INDEX_WRITE :: w2, by simp, ?_, ?_, ?_⟩
    · exact port_append (waitw_allPoll_eq hq1)
        (port_cons rfl (port_polls (waitw_allPoll_eq hq2)))
    · exact chain_ww hq1 rfl (chain_cons_allPoll (waitw_allPoll_eq hq2))
    · exact head_poll_append (waitw_allPoll_eq hq1) (waitw_ne_nil_eq hq1)
  · rw [not_ne_iff.mp h1] at hq1
    rw [not_ne_iff.mp h2] at hq2
    refine ⟨w1 ++ Ev.outbCmd EC_GPIO_INDEX_WRITE :: (w2 ++ Ev.outbData pin :: w3),
      by simp, ?_, ?_, ?_⟩
    · exact port_append (waitw_allPoll_eq hq1)
        (port_cons rfl (port_append (waitw_allPoll_eq hq2)
          (port_cons rfl (port_polls (waitr_allPoll_eq hq3)))))
    · exact chain_ww hq1 rfl
        (chain_cons_poll_head (waitw_allPoll_eq hq2) (waitw_ne_nil_eq hq2)
          (chain_ww hq2 rfl (chain_cons_allPoll (waitr_allPoll_eq hq3))))
    · exact head_poll_append (waitw_allPoll_eq hq1) (waitw_ne_nil_eq hq1)
  · rw [not_ne_iff.mp h1] at hq1
    rw [not_ne_iff.mp h2] at hq2
    rw [not_ne_iff.mp h3] at hq3
    refine ⟨w1 ++ Ev.outbCmd EC_GPIO_INDEX_WRITE :: (w2 ++ Ev.outbData pin ::
      (w3 ++ [Ev.inbData chk])), by simp, ?_, ?_, ?_⟩
    · exact port_append (waitw_allPoll_eq hq1)
        (port_cons rfl (port_append (waitw_allPoll_eq hq2)
          (port_cons rfl (port_append (waitr_allPoll_eq hq3)
            (port_cons rfl port_nil)))))
    · exact chain_ww hq1 rfl
        (chain_cons_poll_head (waitw_allPoll_eq hq2) (waitw_ne_nil_eq hq2)
          (chain_ww hq2 rfl
            (chain_cons_poll_head (waitr_allPoll_eq hq3) (waitr_ne_nil_eq hq3)
              (chain_wr hq3 rfl (List.chain'_singleton _)))))
    · exact head_poll_append (waitw_allPoll_eq hq1) (waitw_ne_nil_eq hq1)
  · rw [not_ne_iff.mp h1] at hq1
    rw [not_ne_iff.mp h2] at hq2
    rw [not_ne_iff.mp h3] at hq3
    refine ⟨w1 ++ Ev.outbCmd EC_GPIO_INDEX_WRITE :: (w2 ++ Ev.outbData pin ::
      (w3 ++ Ev.inbData chk :: w4)), by simp, ?_, ?_, ?_⟩
    · exact port_append (waitw_allPoll_eq hq1)
        (port_cons rfl (port_append (waitw_allPoll_eq hq2)
          (port_cons rfl (port_append (waitr_allPoll_eq hq3)
            (port_cons rfl (port_polls (waitw_allPoll_eq hq4)))))))
    · exact chain_ww hq1 rfl
        (chain_cons_poll_head (waitw_allPoll_eq hq2) (waitw_ne_nil_eq hq2)
          (chain_ww hq2 rfl
            (chain_cons_poll_head (waitr_allPoll_eq hq3) (waitr_ne_nil_eq hq3)
              (chain_wr hq3 rfl (chain_cons_allPoll (waitw_allPoll_eq hq4))))))
    · exact head_poll_append (waitw_allPoll_eq hq1) (waitw_ne_nil_eq hq1)
  · rw [not_ne_iff.mp h1] at hq1
    rw [not_ne_iff.mp h2] at hq2
    rw [not_ne_iff.mp h3] at hq3
    rw [not_ne_iff.mp h5] at hq4
    refine ⟨w1 ++ Ev.outbCmd EC_GPIO_INDEX_WRITE :: (w2 ++ Ev.outbData pin ::
      (w3 ++ Ev.inbData chk :: (w4 ++ Ev.outbCmd EC_GPIO_STATUS_WRITE :: w5))),
      by simp, ?_, ?_, ?_⟩
    · exact port_append (waitw_allPoll_eq hq1)
        (port_cons rfl (port_append (waitw_allPoll_eq hq2)
          (port_cons rfl (port_append (waitr_allPoll_eq hq3)
            (port_cons rfl (port_append (waitw_allPoll_eq hq4)
              (port_cons rfl (port_polls (waitw_allPoll_eq hq5)))))))))
    · exact chain_ww hq1 rfl
        (chain_cons_poll_head (waitw_allPoll_eq hq2) (waitw_ne_nil_eq hq2)
          (chain_ww hq2 rfl
            (chain_cons_poll_head (waitr_allPoll_eq hq3) (waitr_ne_nil_eq hq3)
              (chain_wr hq3 rfl
                (chain_cons_poll_head (waitw_allPoll_eq hq4) (waitw_ne_nil_eq hq4)
                  (chain_ww hq4 rfl (chain_cons_allPoll (waitw_allPoll_eq hq5))))))))
    · exact head_poll_append (waitw_allPoll_eq hq1) (waitw_ne_nil_eq hq1)
  · rw [not_ne_iff.mp h1] at hq1
    rw [not_ne_iff.mp h2] at hq2
    rw [not_ne_iff.mp h3] at hq3
    rw [not_ne_iff.mp h5] at hq4
    rw [not_ne_iff.mp h6] at hq5
    refine ⟨w1 ++ Ev.outbCmd EC_GPIO_INDEX_WRITE :: (w2 ++ Ev.outbData pin ::
      (w3 ++ Ev.inbData chk :: (w4 ++ Ev.outbCmd EC_GPIO_STATUS_WRITE ::
        (w5 ++ [Ev.outbData value])))), by simp, ?_, ?_, ?_⟩
    · exact port_append (waitw_allPoll_eq hq1)
        (port_cons rfl (port_append (waitw_allPoll_eq hq2)
          (port_cons rfl (port_append (waitr_allPoll_eq hq3)
            (port_cons rfl (port_append (waitw_allPoll_eq hq4)
              (port_cons rfl (port_append (waitw_allPoll_eq hq5)
                (port_cons rfl port_nil)))))))))
    · exact chain_ww hq1 rfl
        (chain_cons_poll_head (waitw_allPoll_eq hq2) (waitw_ne_nil_eq hq2)
          (chain_ww hq2 rfl
            (chain_cons_poll_head (waitr_allPoll_eq hq3) (waitr_ne_nil_eq hq3)
              (chain_wr hq3 rfl
                (chain_cons_poll_head (waitw_allPoll_eq hq4) (waitw_ne_nil_eq hq4)
                  (chain_ww hq4 rfl
                    (chain_cons_poll_head (waitw_allPoll_eq hq5) (waitw_ne_nil_eq hq5)
                      (chain_ww hq5 rfl (List.chain'_singleton _)))))))))
    · exact head_poll_append (waitw_allPoll_eq hq1) (waitw_ne_nil_eq hq1)

/-- Trace shape of read_gpio_dir. -/
theorem shape_read_gpio_dir {σ : Type} (d : Dev σ) (pin data : Nat) (s : σ) :
    TraceShape (read_gpio_dir d pin data s).2.2.2 := by
  rcases hq1 : ec_wait_write d EC_MAX_TIMEOUT_COUNT s with ⟨r1, s1, w1⟩
  rcases hq2 : ec_wait_write d EC_MAX_TIMEOUT_COUNT (d.outbCmd EC_GPIO_INDEX_WRITE s1)
    with ⟨r2, s2, w2⟩
  rcases hq3 : ec_wait_read d EC_MAX_TIMEOUT_COUNT (d.outbData pin s2)
    with ⟨r3, s3, w3⟩
  rcases hd1 : d.inbData s3 with ⟨chk, s4⟩
  rcases hq4 : ec_wait_write d EC_MAX_TIMEOUT_COUNT s4 with ⟨r4, s5, w4⟩
  rcases hq5 : ec_wait_read d EC_MAX_TIMEOUT_COUNT (d.outbCmd EC_GPIO_DIR_READ s5)
    with ⟨r5, s6, w5⟩
  simp only [read_gpio_dir, hq1, hq2, hq3, hd1, hq4, hq5]
  split_ifs with h1 h2 h3 h4 h5 h6
  · exact ⟨w1, rfl, port_polls (waitw_allPoll_eq hq1),
      chain_allPoll (waitw_allPoll_eq hq1),
      fun x hx => waitw_allPoll_eq hq1 x (List.mem_of_mem_head? hx)⟩
  · rw [not_ne_iff.mp h1] at hq1
    refine ⟨w1 ++ Ev.outbCmd EC_GPIO_INDEX_WRITE :: w2, by simp, ?_, ?_, ?_⟩
    · exact port_append (waitw_allPoll_eq hq1)
        (port_cons rfl (port_polls (waitw_allPoll_eq hq2)))
    · exact chain_ww hq1 rfl (chain_cons_allPoll (waitw_allPoll_eq hq2))
    · exact head_poll_append (waitw_allPoll_eq hq1) (waitw_ne_nil_eq hq1)
  · rw [not_ne_iff.mp h1] at hq1
    rw [not_ne_iff.mp h2] at hq2
    refine ⟨w1 ++ Ev.outbCmd EC_GPIO_INDEX_WRITE :: (w2 ++ Ev.outbData pin :: w3),
      by simp, ?_, ?_, ?_⟩
    · exact port_append (waitw_allPoll_eq hq1)
        (port_cons rfl (port_append (waitw_allPoll_eq hq2)
          (port_cons rfl (port_polls (waitr_allPoll_eq hq3)))))
    · exact chain_ww hq1 rfl
        (chain_cons_poll_head (waitw_allPoll_eq hq2) (waitw_ne_nil_eq hq2)
          (chain_ww hq2 rfl (chain_cons_allPoll (waitr_allPoll_eq hq3))))
    · exact head_poll_append (waitw_allPoll_eq hq1) (waitw_ne_nil_eq hq1)
  · rw [not_ne_iff.mp h1] at hq1
    rw [not_ne_iff.mp h2] at hq2
    rw [not_ne_iff.mp h3] at hq3
    refine ⟨w1 ++ Ev.outbCmd EC_GPIO_INDEX_WRITE :: (w2 ++ Ev.outbData pin ::
      (w3 ++ [Ev.inbData chk])), by simp, ?_, ?_, ?_⟩
    · exact port_append (waitw_allPoll_eq hq1)
        (port_cons rfl (port_append (waitw_allPoll_eq hq2)
          (port_cons rfl (port_append (waitr_allPoll_eq hq3)
            (port_cons rfl port_nil)))))
    · exact chain_ww hq1 rfl
        (chain_cons_poll_head (waitw_allPoll_eq hq2) (waitw_ne_nil_eq hq2)
          (chain_ww hq2 rfl
            (chain_cons_poll_head (waitr_allPoll_eq hq3) (waitr_ne_nil_eq hq3)
              (chain_wr hq3 rfl (List.chain'_singleton _)))))
    · exact head_poll_append (waitw_allPoll_eq hq1) (waitw_ne_nil_eq hq1)
  · rw [not_ne_iff.mp h1] at hq1
    rw [not_ne_iff.mp h2] at hq2
    rw [not_ne_iff.mp h3] at hq3
    refine ⟨w1 ++ Ev.outbCmd EC_GPIO_INDEX_WRITE :: (w2 ++ Ev.outbData pin ::
      (w3 ++ Ev.inbData chk :: w4)), by simp, ?_, ?_, ?_⟩
    · exact port_append (waitw_allPoll_eq hq1)
        (port_cons rfl (port_append (waitw_allPoll_eq hq2)
          (port_cons rfl (port_append (waitr_allPoll_eq hq3)
            (port_cons rfl (port_polls (waitw_allPoll_eq hq4)))))))
    · exact chain_ww hq1 rfl
        (chain_cons_poll_head (waitw_allPoll_eq hq2) (waitw_ne_nil_eq hq2)
          (chain_ww hq2 rfl
            (chain_cons_poll_head (waitr_allPoll_eq hq3) (waitr_ne_nil_eq hq3)
              (chain_wr hq3 rfl (chain_cons_allPoll (waitw_allPoll_eq hq4))))))
    · exact head_poll_append (waitw_allPoll_eq hq1) (waitw_ne_nil_eq hq1)
  · rw [not_ne_iff.mp h1] at hq1
    rw [not_ne_iff.mp h2] at hq2
    rw [not_ne_iff.mp h3] at hq3
    rw [not_ne_iff.mp h5] at hq4
    refine ⟨w1 ++ Ev.outbCmd EC_GPIO_INDEX_WRITE :: (w2 ++ Ev.outbData pin ::
      (w3 ++ Ev.inbData chk :: (w4 ++ Ev.outbCmd EC_GPIO_DIR_READ :: w5))),
      by simp, ?_, ?_, ?_⟩
    · exact port_append (waitw_allPoll_eq hq1)
        (port_cons rfl (port_append (waitw_allPoll_eq hq2)
          (port_cons rfl (port_append (waitr_allPoll_eq hq3)
            (port_cons rfl (port_append (waitw_allPoll_eq hq4)
              (port_cons rfl (port_polls (waitr_allPoll_eq hq5)))))))))
    · exact chain_ww hq1 rfl
        (chain_cons_poll_head (waitw_allPoll_eq hq2) (waitw_ne_nil_eq hq2)
          (chain_ww hq2 rfl
            (chain_cons_poll_head (waitr_allPoll_eq hq3) (waitr_ne_nil_eq hq3)
              (chain_wr hq3 rfl
                (chain_cons_poll_head (waitw_allPoll_eq hq4) (waitw_ne_nil_eq hq4)
                  (chain_ww hq4 rfl (chain_cons_allPoll (waitr_allPoll_eq hq5))))))))
    · exact head_poll_append (waitw_allPoll_eq hq1) (waitw_ne_nil_eq hq1)
  · rw [not_ne_iff.mp h1] at hq1
    rw [not_ne_iff.mp h2] at hq2
    rw [not_ne_iff.mp h3] at hq3
    rw [not_ne_iff.mp h5] at hq4
    rw [not_ne_iff.mp h6] at hq5
    refine ⟨w1 ++ Ev.outbCmd EC_GPIO_INDEX_WRITE :: (w2 ++ Ev.outbData pin ::
      (w3 ++ Ev.inbData chk :: (w4 ++ Ev.outbCmd EC_GPIO_DIR_READ ::
        (w5 ++ [Ev.inbData (d.inbData s6).1])))), by simp, ?_, ?_, ?_⟩
    · exact port_append (waitw_allPoll_eq hq1)
        (port_cons rfl (port_append (waitw_allPoll_eq hq2)
          (port_cons rfl (port_append (waitr_allPoll_eq hq3)
            (port_cons rfl (port_append (waitw_allPoll_eq hq4)
              (port_cons rfl (port_append (waitr_allPoll_eq hq5)
                (port_cons rfl port_nil)))))))))
    · exact chain_ww hq1 rfl
        (chain_cons_poll_head (waitw_allPoll_eq hq2) (waitw_ne_nil_eq hq2)
          (chain_ww hq2 rfl
            (chain_cons_poll_head (waitr_allPoll_eq hq3) (waitr_ne_nil_eq hq3)
              (chain_wr hq3 rfl
                (chain_cons_poll_head (waitw_allPoll_eq hq4) (waitw_ne_nil_eq hq4)
                  (chain_ww hq4 rfl
                    (chain_cons_poll_head (waitr_allPoll_eq hq5) (waitr_ne_nil_eq hq5)
                      (chain_wr hq5 rfl (List.chain'_singleton _)))))))))
    · exact head_poll_append (waitw_allPoll_eq hq1) (waitw_ne_nil_eq hq1)

/-- Trace shape of write_gpio_dir. -/
theorem shape_write_gpio_dir {σ : Type} (d : Dev σ) (pin value : Nat) (s : σ) :
    TraceShape (write_gpio_dir d pin value s).2.2 := by
  rcases hq1 : ec_wait_write d EC_MAX_TIMEOUT_COUNT s with ⟨r1, s1, w1⟩
  rcases hq2 : ec_wait_write d EC_MAX_TIMEOUT_COUNT (d.outbCmd EC_GPIO_INDEX_WRITE s1)
    with ⟨r2, s2, w2⟩
  rcases hq3 : ec_wait_read d EC_MAX_TIMEOUT_COUNT (d.outbData pin s2)
    with ⟨r3, s3, w3⟩
  rcases hd1 : d.inbData s3 with ⟨chk, s4⟩
  rcases hq4 : ec_wait_write d EC_MAX_TIMEOUT_COUNT s4 with ⟨r4, s5, w4⟩
  rcases hq5 : ec_wait_write d EC_MAX_TIMEOUT_COUNT (d.outbCmd EC_GPIO_DIR_WRITE s5)
    with ⟨r5, s6, w5⟩
  simp only [write_gpio_dir, hq1, hq2, hq3, hd1, hq4, hq5]
  split_ifs with h1 h2 h3 h4 h5 h6
  · exact ⟨w1, rfl, port_polls (waitw_allPoll_eq hq1),
      chain_allPoll (waitw_allPoll_eq hq1),
      fun x hx => waitw_allPoll_eq hq1 x (List.mem_of_mem_head? hx)⟩
  · rw [not_ne_iff.mp h1] at hq1
    refine ⟨w1 ++ Ev.outbCmd EC_GPIO_INDEX_WRITE :: w2, by simp, ?_, ?_, ?_⟩
    · exact port_append (waitw_allPoll_eq hq1)
        (port_cons rfl (port_polls (waitw_allPoll_eq hq2)))
    · exact chain_ww hq1 rfl (chain_cons_allPoll (waitw_allPoll_eq hq2))
    · exact head_poll_append (waitw_allPoll_eq hq1) (waitw_ne_nil_eq hq1)
  · rw [not_ne_iff.mp h1] at hq1
    rw [not_ne_iff.mp h2] at hq2
    refine ⟨w1 ++ Ev.outbCmd EC_GPIO_INDEX_WRITE :: (w2 ++ Ev.outbData pin :: w3),
      by simp, ?_, ?_, ?_⟩
    · exact port_append (waitw_allPoll_eq hq1)
        (port_cons rfl (port_append (waitw_allPoll_eq hq2)
          (port_cons rfl (port_polls (waitr_allPoll_eq hq3)))))
    · exact chain_ww hq1 rfl
        (chain_cons_poll_head (waitw_allPoll_eq hq2) (waitw_ne_nil_eq hq2)
          (chain_ww hq2 rfl (chain_cons_allPoll (waitr_allPoll_eq hq3))))
    · exact head_poll_append (waitw_allPoll_eq hq1) (waitw_ne_nil_eq hq1)
  · rw [not_ne_iff.mp h1] at hq1
    rw [not_ne_iff.mp h2] at hq2
    rw [not_ne_iff.mp h3] at hq3
    refine ⟨w1 ++ Ev.outbCmd EC_GPIO_INDEX_WRITE :: (w2 ++ Ev.outbData pin ::
      (w3 ++ [Ev.inbData chk])), by simp, ?_, ?_, ?_⟩
    · exact port_append (waitw_allPoll_eq hq1)
        (port_cons rfl (port_append (waitw_allPoll_eq hq2)
          (port_cons rfl (port_append (waitr_allPoll_eq hq3)
            (port_cons rfl port_nil)))))
    · exact chain_ww hq1 rfl
        (chain_cons_poll_head (waitw_allPoll_eq hq2) (waitw_ne_nil_eq hq2)
          (chain_ww hq2 rfl
            (chain_cons_poll_head (waitr_allPoll_eq hq3) (waitr_ne_nil_eq hq3)
              (chain_wr hq3 rfl (List.chain'_singleton _)))))
    · exact head_poll_append (waitw_allPoll_eq hq1) (waitw_ne_nil_eq hq1)
  · rw [not_ne_iff.mp h1] at hq1
    rw [not_ne_iff.mp h2] at hq2
    rw [not_ne_iff.mp h3] at hq3
    refine ⟨w1 ++ Ev.outbCmd EC_GPIO_INDEX_WRITE :: (w2 ++ Ev.outbData pin ::
      (w3 ++ Ev.inbData chk :: w4)), by simp, ?_, ?_, ?_⟩
    · exact port_append (waitw_allPoll_eq hq1)
        (port_cons rfl (port_append (waitw_allPoll_eq hq2)
          (port_cons rfl (port_append (waitr_allPoll_eq hq3)
            (port_cons rfl (port_polls (waitw_allPoll_eq hq4)))))))
    · exact chain_ww hq1 rfl
        (chain_cons_poll_head (waitw_allPoll_eq hq2) (waitw_ne_nil_eq hq2)
          (chain_ww hq2 rfl
            (chain_cons_poll_head (waitr_allPoll_eq hq3) (waitr_ne_nil_eq hq3)
              (chain_wr hq3 rfl (chain_cons_allPoll (waitw_allPoll_eq hq4))))))
    · exact head_poll_append (waitw_allPoll_eq hq1) (waitw_ne_nil_eq hq1)
  · rw [not_ne_iff.mp h1] at hq1
    rw [not_ne_iff.mp h2] at hq2
    rw [not_ne_iff.mp h3] at hq3
    rw [not_ne_iff.mp h5] at hq4
    refine ⟨w1 ++ Ev.outbCmd EC_GPIO_INDEX_WRITE :: (w2 ++ Ev.outbData pin ::
      (w3 ++ Ev.inbData chk :: (w4 ++ Ev.outbCmd EC_GPIO_DIR_WRITE :: w5))),
      by simp, ?_, ?_, ?_⟩
    · exact port_append (waitw_allPoll_eq hq1)
        (port_cons rfl (port_append (waitw_allPoll_eq hq2)
          (port_cons rfl (port_append (waitr_allPoll_eq hq3)
            (port_cons rfl (port_append (waitw_allPoll_eq hq4)
              (port_cons rfl (port_polls (waitw_allPoll_eq hq5)))))))))
    · exact chain_ww hq1 rfl
        (chain_cons_poll_head (waitw_allPoll_eq hq2) (waitw_ne_nil_eq hq2)
          (chain_ww hq2 rfl
            (chain_cons_poll_head (waitr_allPoll_eq hq3) (waitr_ne_nil_eq hq3)
              (chain_wr hq3 rfl
                (chain_cons_poll_head (waitw_allPoll_eq hq4) (waitw_ne_nil_eq hq4)
                  (chain_ww hq4 rfl (chain_cons_allPoll (waitw_allPoll_eq hq5))))))))
    · exact head_poll_append (waitw_allPoll_eq hq1) (waitw_ne_nil_eq hq1)
  · rw [not_ne_iff.mp h1] at hq1
    rw [not_ne_iff.mp h2] at hq2
    rw [not_ne_iff.mp h3] at hq3
    rw [not_ne_iff.mp h5] at hq4
    rw [not_ne_iff.mp h6] at hq5
    refine ⟨w1 ++ Ev.outbCmd EC_GPIO_INDEX_WRITE :: (w2 ++ Ev.outbData pin ::
      (w3 ++ Ev.inbData chk :: (w4 ++ Ev.outbCmd EC_GPIO_DIR_WRITE ::
        (w5 ++ [Ev.outbData value])))), by simp, ?_, ?_, ?_⟩
    · exact port_append (waitw_allPoll_eq hq1)
        (port_cons rfl (port_append (waitw_allPoll_eq hq2)
          (port_cons rfl (port_append (waitr_allPoll_eq hq3)
            (port_cons rfl (port_append (waitw_allPoll_eq hq4)
              (port_cons rfl (port_append (waitw_allPoll_eq hq5)
                (port_cons rfl port_nil)))))))))
    · exact chain_ww hq1 rfl
        (chain_cons_poll_head (waitw_allPoll_eq hq2) (waitw_ne_nil_eq hq2)
          (chain_ww hq2 rfl
            (chain_cons_poll_head (waitr_allPoll_eq hq3) (waitr_ne_nil_eq hq3)
              (chain_wr hq3 rfl
                (chain_cons_poll_head (waitw_allPoll_eq hq4) (waitw_ne_nil_eq hq4)
                  (chain_ww hq4 rfl
                    (chain_cons_poll_head (waitw_allPoll_eq hq5) (waitw_ne_nil_eq hq5)
                      (chain_ww hq5 rfl (List.chain'_singleton _)))))))))
    · exact head_poll_append (waitw_allPoll_eq hq1) (waitw_ne_nil_eq hq1)


set_option maxHeartbeats 3200000 in
/-- Trace shape of read_ad_value. -/
theorem shape_read_ad_value {σ : Type} (d : Dev σ) (hwpin multi : Nat) (s : σ) :
    TraceShape (read_ad_value d hwpin multi s).2.2 := by
  rcases hq1 : ec_wait_write d EC_MAX_TIMEOUT_COUNT s with ⟨r1, s1, w1⟩
  rcases hq2 : ec_wait_write d EC_MAX_TIMEOUT_COUNT (d.outbCmd EC_AD_INDEX_WRITE s1)
    with ⟨r2, s2, w2⟩
  rcases hq3 : ec_wait_read d EC_MAX_TIMEOUT_COUNT (d.outbData hwpin s2)
    with ⟨r3, s3, w3⟩
  rcases hd1 : d.inbData s3 with ⟨chk, s4⟩
  rcases hq4 : ec_wait_write d EC_MAX_TIMEOUT_COUNT s4 with ⟨r4, s5, w4⟩
  rcases hq5 : ec_wait_read d EC_MAX_TIMEOUT_COUNT (d.outbCmd EC_AD_LSB_READ s5)
    with ⟨r5, s6, w5⟩
  rcases hd2 : d.inbData s6 with ⟨lsb, s7⟩
  rcases hq6 : ec_wait_write d EC_MAX_TIMEOUT_COUNT s7 with ⟨r6, s8, w6⟩
  rcases hq7 : ec_wait_read d EC_MAX_TIMEOUT_COUNT (d.outbCmd EC_AD_MSB_READ s8)
    with ⟨r7, s9, w7⟩
  simp only [read_ad_value]
  simp only [hq1, hq2, hq3]
  simp only [hd1, hq4, hq5]
  simp only [hd2, hq6, hq7]
  by_cases h1 : r1 ≠ 0
  · rw [if_pos h1]
    exact ⟨w1, rfl, port_polls (waitw_allPoll_eq hq1),
      chain_allPoll (waitw_allPoll_eq hq1),
      fun x hx => waitw_allPoll_eq hq1 x (List.mem_of_mem_head? hx)⟩
  · rw [if_neg h1]
    rw [not_ne_iff.mp h1] at hq1
    by_cases h2 : r2 ≠ 0
    · rw [if_pos h2]
      refine ⟨w1 ++ Ev.outbCmd EC_AD_INDEX_WRITE :: (w2), by simp, ?_, ?_, ?_⟩
      · exact port_append (waitw_allPoll_eq hq1) (port_cons rfl (port_polls (waitw_allPoll_eq hq2)))
      · exact chain_ww hq1 rfl (chain_cons_allPoll (waitw_allPoll_eq hq2))
      · exact head_poll_append (waitw_allPoll_eq hq1) (waitw_ne_nil_eq hq1)
    · rw [if_neg h2]
      rw [not_ne_iff.mp h2] at hq2
      by_cases h3 : r3 ≠ 0
      · rw [if_pos h3]
        refine ⟨w1 ++ Ev.outbCmd EC_AD_INDEX_WRITE :: (w2 ++ Ev.outbData hwpin :: (w3)), by simp, ?_, ?_, ?_⟩
        · exact port_append (waitw_allPoll_eq hq1) (port_cons rfl (port_append (waitw_allPoll_eq hq2) (port_cons rfl (port_polls (waitr_allPoll_eq hq3)))))
        · exact chain_ww hq1 rfl (chain_cons_poll_head (waitw_allPoll_eq hq2) (waitw_ne_nil_eq hq2) (chain_ww hq2 rfl (chain_cons_allPoll (waitr_allPoll_eq hq3))))
        · exact head_poll_append (waitw_allPoll_eq hq1) (waitw_ne_nil_eq hq1)
      · rw [if_neg h3]
        rw [not_ne_iff.mp h3] at hq3
        by_cases h4 : chk = 0xff
        · rw [if_pos h4]
          refine ⟨w1 ++ Ev.outbCmd EC_AD_INDEX_WRITE :: (w2 ++ Ev.outbData hwpin :: (w3 ++ [Ev.inbData chk])), by simp, ?_, ?_, ?_⟩
          · exact port_append (waitw_allPoll_eq hq1) (port_cons rfl (port_append (waitw_allPoll_eq hq2) (port_cons rfl (port_append (waitr_allPoll_eq hq3) (port_cons rfl port_nil)))))
          · exact chain_ww hq1 rfl (chain_cons_poll_head (waitw_allPoll_eq hq2) (waitw_ne_nil_eq hq2) (chain_ww hq2 rfl (chain_cons_poll_head (waitr_allPoll_eq hq3) (waitr_ne_nil_eq hq3) (chain_wr hq3 rfl (List.chain'_singleton _)))))
          · exact head_poll_append (waitw_allPoll_eq hq1) (waitw_ne_nil_eq hq1)
        · rw [if_neg h4]
          by_cases h5 : r4 ≠ 0
          · rw [if_pos h5]
            refine ⟨w1 ++ Ev.outbCmd EC_AD_INDEX_WRITE :: (w2 ++ Ev.outbData hwpin :: (w3 ++ Ev.inbData chk :: (w4))), by simp, ?_, ?_, ?_⟩
            · exact port_append (waitw_allPoll_eq hq1) (port_cons rfl (port_append (waitw_allPoll_eq hq2) (port_cons rfl (port_append (waitr_allPoll_eq hq3) (port_cons rfl (port_polls (waitw_allPoll_eq hq4)))))))
            · exact chain_ww hq1 rfl (chain_cons_poll_head (waitw_allPoll_eq hq2) (waitw_ne_nil_eq hq2) (chain_ww hq2 rfl (chain_cons_poll_head (waitr_allPoll_eq hq3) (waitr_ne_nil_eq hq3) (chain_wr hq3 rfl (chain_cons_allPoll (waitw_allPoll_eq hq4))))))
            · exact head_poll_append (waitw_allPoll_eq hq1) (waitw_ne_nil_eq hq1)
          · rw [if_neg h5]
            rw [not_ne_iff.mp h5] at hq4
            by_cases h6 : r5 ≠ 0
            · rw [if_pos h6]
              refine ⟨w1 ++ Ev.outbCmd EC_AD_INDEX_WRITE :: (w2 ++ Ev.outbData hwpin :: (w3 ++ Ev.inbData chk :: (w4 ++ Ev.outbCmd EC_AD_LSB_READ :: (w5)))), by simp, ?_, ?_, ?_⟩
              · exact port_append (waitw_allPoll_eq hq1) (port_cons rfl (port_append (waitw_allPoll_eq hq2) (port_cons rfl (port_append (waitr_allPoll_eq hq3) (port_cons rfl (port_append (waitw_allPoll_eq hq4) (port_cons rfl (port_polls (waitr_allPoll_eq hq5)))))))))
              · exact chain_ww hq1 rfl (chain_cons_poll_head (waitw_allPoll_eq hq2) (waitw_ne_nil_eq hq2) (chain_ww hq2 rfl (chain_cons_poll_head (waitr_allPoll_eq hq3) (waitr_ne_nil_eq hq3) (chain_wr hq3 rfl (chain_cons_poll_head (waitw_allPoll_eq hq4) (waitw_ne_nil_eq hq4) (chain_ww hq4 rfl (chain_cons_allPoll (waitr_allPoll_eq hq5))))))))
              · exact head_poll_append (waitw_allPoll_eq hq1) (waitw_ne_nil_eq hq1)
            · rw [if_neg h6]
              rw [not_ne_iff.mp h6] at hq5
              by_cases h7 : r6 ≠ 0
              · rw [if_pos h7]
                refine ⟨w1 ++ Ev.outbCmd EC_AD_INDEX_WRITE :: (w2 ++ Ev.outbData hwpin :: (w3 ++ Ev.inbData chk :: (w4 ++ Ev.outbCmd EC_AD_LSB_READ :: (w5 ++ Ev.inbData lsb :: (w6))))), by simp, ?_, ?_, ?_⟩
                · exact port_append (waitw_allPoll_eq hq1) (port_cons rfl (port_append (waitw_allPoll_eq hq2) (port_cons rfl (port_append (waitr_allPoll_eq hq3) (port_cons rfl (port_append (waitw_allPoll_eq hq4) (port_cons rfl (port_append (waitr_allPoll_eq hq5) (port_cons rfl (port_polls (waitw_allPoll_eq hq6)))))))))))
                · exact chain_ww hq1 rfl (chain_cons_poll_head (waitw_allPoll_eq hq2) (waitw_ne_nil_eq hq2) (chain_ww hq2 rfl (chain_cons_poll_head (waitr_allPoll_eq hq3) (waitr_ne_nil_eq hq3) (chain_wr hq3 rfl (chain_cons_poll_head (waitw_allPoll_eq hq4) (waitw_ne_nil_eq hq4) (chain_ww hq4 rfl (chain_cons_poll_head (waitr_allPoll_eq hq5) (waitr_ne_nil_eq hq5) (chain_wr hq5 rfl (chain_cons_allPoll (waitw_allPoll_eq hq6))))))))))
                · exact head_poll_append (waitw_allPoll_eq hq1) (waitw_ne_nil_eq hq1)
              · rw [if_neg h7]
                rw [not_ne_iff.mp h7] at hq6
                by_cases h8 : r7 ≠ 0
                · rw [if_pos h8]
                  refine ⟨w1 ++ Ev.outbCmd EC_AD_INDEX_WRITE :: (w2 ++ Ev.outbData hwpin :: (w3 ++ Ev.inbData chk :: (w4 ++ Ev.outbCmd EC_AD_LSB_READ :: (w5 ++ Ev.inbData lsb :: (w6 ++ Ev.outbCmd EC_AD_MSB_READ :: (w7)))))), by simp, ?_, ?_, ?_⟩
                  · exact port_append (waitw_allPoll_eq hq1) (port_cons rfl (port_append (waitw_allPoll_eq hq2) (port_cons rfl (port_append (waitr_allPoll_eq hq3) (port_cons rfl (port_append (waitw_allPoll_eq hq4) (port_cons rfl (port_append (waitr_allPoll_eq hq5) (port_cons rfl (port_append (waitw_allPoll_eq hq6) (port_cons rfl (port_polls (waitr_allPoll_eq hq7)))))))))))))
                  · exact chain_ww hq1 rfl (chain_cons_poll_head (waitw_allPoll_eq hq2) (waitw_ne_nil_eq hq2) (chain_ww hq2 rfl (chain_cons_poll_head (waitr_allPoll_eq hq3) (waitr_ne_nil_eq hq3) (chain_wr hq3 rfl (chain_cons_poll_head (waitw_allPoll_eq hq4) (waitw_ne_nil_eq hq4) (chain_ww hq4 rfl (chain_cons_poll_head (waitr_allPoll_eq hq5) (waitr_ne_nil_eq hq5) (chain_wr hq5 rfl (chain_cons_poll_head (waitw_allPoll_eq hq6) (waitw_ne_nil_eq hq6) (chain_ww hq6 rfl (chain_cons_allPoll (waitr_allPoll_eq hq7))))))))))))
                  · exact head_poll_append (waitw_allPoll_eq hq1) (waitw_ne_nil_eq hq1)
                · rw [if_neg h8]
                  rw [not_ne_iff.mp h8] at hq7
                  refine ⟨w1 ++ Ev.outbCmd EC_AD_INDEX_WRITE :: (w2 ++ Ev.outbData hwpin :: (w3 ++ Ev.inbData chk :: (w4 ++ Ev.outbCmd EC_AD_LSB_READ :: (w5 ++ Ev.inbData lsb :: (w6 ++ Ev.outbCmd EC_AD_MSB_READ :: (w7 ++ [Ev.inbData (d.inbData s9).1])))))), by simp, ?_, ?_, ?_⟩
                  · exact port_append (waitw_allPoll_eq hq1) (port_cons rfl (port_append (waitw_allPoll_eq hq2) (port_cons rfl (port_append (waitr_allPoll_eq hq3) (port_cons rfl (port_append (waitw_allPoll_eq hq4) (port_cons rfl (port_append (waitr_allPoll_eq hq5) (port_cons rfl (port_append (waitw_allPoll_eq hq6) (port_cons rfl (port_append (waitr_allPoll_eq hq7) (port_cons rfl port_nil)))))))))))))
                  · exact chain_ww hq1 rfl (chain_cons_poll_head (waitw_allPoll_eq hq2) (waitw_ne_nil_eq hq2) (chain_ww hq2 rfl (chain_cons_poll_head (waitr_allPoll_eq hq3) (waitr_ne_nil_eq hq3) (chain_wr hq3 rfl (chain_cons_poll_head (waitw_allPoll_eq hq4) (waitw_ne_nil_eq hq4) (chain_ww hq4 rfl (chain_cons_poll_head (waitr_allPoll_eq hq5) (waitr_ne_nil_eq hq5) (chain_wr hq5 rfl (chain_cons_poll_head (waitw_allPoll_eq hq6) (waitw_ne_nil_eq hq6) (chain_ww hq6 rfl (chain_cons_poll_head (waitr_allPoll_eq hq7) (waitr_ne_nil_eq hq7) (chain_wr hq7 rfl (List.chain'_singleton _)))))))))))))
                  · exact head_poll_append (waitw_allPoll_eq hq1) (waitw_ne_nil_eq hq1)

/-- Add-on chain helper: prepend any event before a chain whose head, if any,
is a status poll. -/
theorem chain_cons_poll_opt {x : Ev} {l : List Ev} (hl : List.Chain' stepOK l)
    (hh : ∀ y ∈ l.head?, isPoll y = true) : List.Chain' stepOK (x :: l) :=
  List.chain'_cons'.mpr ⟨fun y hy => stepOK_poll (hh y hy), hl⟩


set_option maxHeartbeats 3200000 in
/-- The first event of a discovery-loop trace, if any, is a status poll. -/
theorem tab_loop_head {σ : Type} (d : Dev σ) :
    ∀ (fuel i : Nat) (tbl : List ec_dynamic_table) (s : σ),
      ∀ x ∈ (adv_tab_loop d fuel i tbl s).2.2.2.head?, isPoll x = true := by
  intro fuel
  induction fuel with
  | zero =>
    intro i tbl s
    simp [adv_tab_loop]
  | succ fuel ih =>
    intro i tbl s
    rcases hq1 : ec_wait_write d EC_MAX_TIMEOUT_COUNT s with ⟨r1, s1, w1⟩
    rcases hq2 : ec_wait_write d EC_MAX_TIMEOUT_COUNT (d.outbCmd EC_TBL_WRITE_ITEM s1)
      with ⟨r2, s2, w2⟩
    rcases hq3 : ec_wait_read d EC_MAX_TIMEOUT_COUNT (d.outbData i s2)
      with ⟨r3, s3, w3⟩
    rcases hd1 : d.inbData s3 with ⟨chk, s4⟩
    rcases hq4 : ec_wait_write d EC_MAX_TIMEOUT_COUNT s4 with ⟨r4, s5, w4⟩
    rcases hq5 : ec_wait_read d EC_MAX_TIMEOUT_COUNT (d.outbCmd EC_TBL_GET_PIN s5)
      with ⟨r5, s6, w5⟩
    rcases hd2 : d.inbData s6 with ⟨pv, s7⟩
    rcases hq6 : ec_wait_write d EC_MAX_TIMEOUT_COUNT s7 with ⟨r6, s8, w6⟩
    rcases hq7 : ec_wait_read d EC_MAX_TIMEOUT_COUNT (d.outbCmd EC_TBL_GET_DEVID s8)
      with ⟨r7, s9, w7⟩
    rcases hd3 : d.inbData s9 with ⟨dv, s10⟩
    simp only [adv_tab_loop]
    simp only [hq1, hq2, hq3]
    simp only [hd1, hq4, hq5]
    simp only [hd2, hq6, hq7]
    simp only [hd3]
    by_cases h1 : r1 ≠ 0
    · rw [if_pos h1]
      simp only [List.append_assoc, List.cons_append]
      exact fun x hx => waitw_allPoll_eq hq1 x (List.mem_of_mem_head? hx)
    · rw [if_neg h1]
      rw [not_ne_iff.mp h1] at hq1
      by_cases h2 : r2 ≠ 0
      · rw [if_pos h2]
        simp only [List.append_assoc, List.cons_append]
        exact head_poll_append (waitw_allPoll_eq hq1) (waitw_ne_nil_eq hq1)
      · rw [if_neg h2]
        rw [not_ne_iff.mp h2] at hq2
        by_cases h3 : r3 ≠ 0
        · rw [if_pos h3]
          simp only [List.append_assoc, List.cons_append]
          exact head_poll_append (waitw_allPoll_eq hq1) (waitw_ne_nil_eq hq1)
        · rw [if_neg h3]
          rw [not_ne_iff.mp h3] at hq3
          by_cases h4 : chk = 0xff
          · rw [if_pos h4]
            simp only [List.append_assoc, List.cons_append]
            exact head_poll_append (waitw_allPoll_eq hq1) (waitw_ne_nil_eq hq1)
          · rw [if_neg h4]
            by_cases h5 : r4 ≠ 0
            · rw [if_pos h5]
              simp only [List.append_assoc, List.cons_append]
              exact head_poll_append (waitw_allPoll_eq hq1) (waitw_ne_nil_eq hq1)
            · rw [if_neg h5]
              rw [not_ne_iff.mp h5] at hq4
              by_cases h6 : r5 ≠ 0
              · rw [if_pos h6]
                simp only [List.append_assoc, List.cons_append]
                exact head_poll_append (waitw_allPoll_eq hq1) (waitw_ne_nil_eq hq1)
              · rw [if_neg h6]
                rw [not_ne_iff.mp h6] at hq5
                by_cases h7 : pv &&& 0xff = 0xff
                · rw [if_pos h7]
                  simp only [List.append_assoc, List.cons_append]
                  exact head_poll_append (waitw_allPoll_eq hq1) (waitw_ne_nil_eq hq1)
                · rw [if_neg h7]
                  by_cases h8 : r6 ≠ 0
                  · rw [if_pos h8]
                    simp only [List.append_assoc, List.cons_append]
                    exact head_poll_append (waitw_allPoll_eq hq1) (waitw_ne_nil_eq hq1)
                  · rw [if_neg h8]
                    rw [not_ne_iff.mp h8] at hq6
                    by_cases h9 : r7 ≠ 0
                    · rw [if_pos h9]
                      simp only [List.append_assoc, List.cons_append]
                      exact head_poll_append (waitw_allPoll_eq hq1) (waitw_ne_nil_eq hq1)
                    · rw [if_neg h9]
                      rw [not_ne_iff.mp h9] at hq7
                      simp only [List.append_assoc, List.cons_append]
                      exact head_poll_append (waitw_allPoll_eq hq1) (waitw_ne_nil_eq hq1)

set_option maxHeartbeats 3200000 in
/-- Discovery-loop traces consist of port accesses only. -/
theorem tab_loop_port {σ : Type} (d : Dev σ) :
    ∀ (fuel i : Nat) (tbl : List ec_dynamic_table) (s : σ),
      ∀ e ∈ (adv_tab_loop d fuel i tbl s).2.2.2, isPort e = true := by
  intro fuel
  induction fuel with
  | zero =>
    intro i tbl s
    simp [adv_tab_loop]
  | succ fuel ih =>
    intro i tbl s
    rcases hq1 : ec_wait_write d EC_MAX_TIMEOUT_COUNT s with ⟨r1, s1, w1⟩
    rcases hq2 : ec_wait_write d EC_MAX_TIMEOUT_COUNT (d.outbCmd EC_TBL_WRITE_ITEM s1)
      with ⟨r2, s2, w2⟩
    rcases hq3 : ec_wait_read d EC_MAX_TIMEOUT_COUNT (d.outbData i s2)
      with ⟨r3, s3, w3⟩
    rcases hd1 : d.inbData s3 with ⟨chk, s4⟩
    rcases hq4 : ec_wait_write d EC_MAX_TIMEOUT_COUNT s4 with ⟨r4, s5, w4⟩
    rcases hq5 : ec_wait_read d EC_MAX_TIMEOUT_COUNT (d.outbCmd EC_TBL_GET_PIN s5)
      with ⟨r5, s6, w5⟩
    rcases hd2 : d.inbData s6 with ⟨pv, s7⟩
    rcases hq6 : ec_wait_write d EC_MAX_TIMEOUT_COUNT s7 with ⟨r6, s8, w6⟩
    rcases hq7 : ec_wait_read d EC_MAX_TIMEOUT_COUNT (d.outbCmd EC_TBL_GET_DEVID s8)
      with ⟨r7, s9, w7⟩
    rcases hd3 : d.inbData s9 with ⟨dv, s10⟩
    simp only [adv_tab_loop]
    simp only [hq1, hq2, hq3]
    simp only [hd1, hq4, hq5]
    simp only [hd2, hq6, hq7]
    simp only [hd3]
    by_cases h1 : r1 ≠ 0
    · rw [if_pos h1]
      simp only [List.append_assoc, List.cons_append]
      exact port_polls (waitw_allPoll_eq hq1)
    · rw [if_neg h1]
      rw [not_ne_iff.mp h1] at hq1
      by_cases h2 : r2 ≠ 0
      · rw [if_pos h2]
        simp only [List.append_assoc, List.cons_append]
        exact port_append (waitw_allPoll_eq hq1) (port_cons rfl (port_polls (waitw_allPoll_eq hq2)))
      · rw [if_neg h2]
        rw [not_ne_iff.mp h2] at hq2
        by_cases h3 : r3 ≠ 0
        · rw [if_pos h3]
          simp only [List.append_assoc, List.cons_append]
          exact port_append (waitw_allPoll_eq hq1) (port_cons rfl (port_append (waitw_allPoll_eq hq2) (port_cons rfl (port_polls (waitr_allPoll_eq hq3)))))
        · rw [if_neg h3]
          rw [not_ne_iff.mp h3] at hq3
          by_cases h4 : chk = 0xff
          · rw [if_pos h4]
            simp only [List.append_assoc, List.cons_append]
            exact port_append (waitw_allPoll_eq hq1) (port_cons rfl (port_append (waitw_allPoll_eq hq2) (port_cons rfl (port_append (waitr_allPoll_eq hq3) (port_cons rfl port_nil)))))
          · rw [if_neg h4]
            by_cases h5 : r4 ≠ 0
            · rw [if_pos h5]
              simp only [List.append_assoc, List.cons_append]
              exact port_append (waitw_allPoll_eq hq1) (port_cons rfl (port_append (waitw_allPoll_eq hq2) (port_cons rfl (port_append (waitr_allPoll_eq hq3) (port_cons rfl (port_polls (waitw_allPoll_eq hq4)))))))
            · rw [if_neg h5]
              rw [not_ne_iff.mp h5] at hq4
              by_cases h6 : r5 ≠ 0
              · rw [if_pos h6]
                simp only [List.append_assoc, List.cons_append]
                exact port_append (waitw_allPoll_eq hq1) (port_cons rfl (port_append (waitw_allPoll_eq hq2) (port_cons rfl (port_append (waitr_allPoll_eq hq3) (port_cons rfl (port_append (waitw_allPoll_eq hq4) (port_cons rfl (port_polls (waitr_allPoll_eq hq5)))))))))
              · rw [if_neg h6]
                rw [not_ne_iff.mp h6] at hq5
                by_cases h7 : pv &&& 0xff = 0xff
                · rw [if_pos h7]
                  simp only [List.append_assoc, List.cons_append]
                  exact port_append (waitw_allPoll_eq hq1) (port_cons rfl (port_append (waitw_allPoll_eq hq2) (port_cons rfl (port_append (waitr_allPoll_eq hq3) (port_cons rfl (port_append (waitw_allPoll_eq hq4) (port_cons rfl (port_append (waitr_allPoll_eq hq5) (port_cons rfl port_nil)))))))))
                · rw [if_neg h7]
                  by_cases h8 : r6 ≠ 0
                  · rw [if_pos h8]
                    simp only [List.append_assoc, List.cons_append]
                    exact port_append (waitw_allPoll_eq hq1) (port_cons rfl (port_append (waitw_allPoll_eq hq2) (port_cons rfl (port_append (waitr_allPoll_eq hq3) (port_cons rfl (port_append (waitw_allPoll_eq hq4) (port_cons rfl (port_append (waitr_allPoll_eq hq5) (port_cons rfl (port_polls (waitw_allPoll_eq hq6)))))))))))
                  · rw [if_neg h8]
                    rw [not_ne_iff.mp h8] at hq6
                    by_cases h9 : r7 ≠ 0
                    · rw [if_pos h9]
                      simp only [List.append_assoc, List.cons_append]
                      exact port_append (waitw_allPoll_eq hq1) (port_cons rfl (port_append (waitw_allPoll_eq hq2) (port_cons rfl (port_append (waitr_allPoll_eq hq3) (port_cons rfl (port_append (waitw_allPoll_eq hq4) (port_cons rfl (port_append (waitr_allPoll_eq hq5) (port_cons rfl (port_append (waitw_allPoll_eq hq6) (port_cons rfl (port_polls (waitr_allPoll_eq hq7)))))))))))))
                    · rw [if_neg h9]
                      rw [not_ne_iff.mp h9] at hq7
                      simp only [List.append_assoc, List.cons_append]
                      exact port_append (waitw_allPoll_eq hq1) (port_cons rfl (port_append (waitw_allPoll_eq hq2) (port_cons rfl (port_append (waitr_allPoll_eq hq3) (port_cons rfl (port_append (waitw_allPoll_eq hq4) (port_cons rfl (port_append (waitr_allPoll_eq hq5) (port_cons rfl (port_append (waitw_allPoll_eq hq6) (port_cons rfl (port_append (waitr_allPoll_eq hq7) (port_cons rfl (ih (i + 1) (tbl.set i ⟨dv &&& 0xff, pv &&& 0xff⟩) s10))))))))))))))

set_option maxHeartbeats 3200000 in
/-- Discovery-loop traces respect the handshake discipline. -/
theorem tab_loop_chain {σ : Type} (d : Dev σ) :
    ∀ (fuel i : Nat) (tbl : List ec_dynamic_table) (s : σ),
      List.Chain' stepOK (adv_tab_loop d fuel i tbl s).2.2.2 := by
  intro fuel
  induction fuel with
  | zero =>
    intro i tbl s
    simp [adv_tab_loop]
  | succ fuel ih =>
    intro i tbl s
    rcases hq1 : ec_wait_write d EC_MAX_TIMEOUT_COUNT s with ⟨r1, s1, w1⟩
    rcases hq2 : ec_wait_write d EC_MAX_TIMEOUT_COUNT (d.outbCmd EC_TBL_WRITE_ITEM s1)
      with ⟨r2, s2, w2⟩
    rcases hq3 : ec_wait_read d EC_MAX_TIMEOUT_COUNT (d.outbData i s2)
      with ⟨r3, s3, w3⟩
    rcases hd1 : d.inbData s3 with ⟨chk, s4⟩
    rcases hq4 : ec_wait_write d EC_MAX_TIMEOUT_COUNT s4 with ⟨r4, s5, w4⟩
    rcases hq5 : ec_wait_read d EC_MAX_TIMEOUT_COUNT (d.outbCmd EC_TBL_GET_PIN s5)
      with ⟨r5, s6, w5⟩
    rcases hd2 : d.inbData s6 with ⟨pv, s7⟩
    rcases hq6 : ec_wait_write d EC_MAX_TIMEOUT_COUNT s7 with ⟨r6, s8, w6⟩
    rcases hq7 : ec_wait_read d EC_MAX_TIMEOUT_COUNT (d.outbCmd EC_TBL_GET_DEVID s8)
      with ⟨r7, s9, w7⟩
    rcases hd3 : d.inbData s9 with ⟨dv, s10⟩
    simp only [adv_tab_loop]
    simp only [hq1, hq2, hq3]
    simp only [hd1, hq4, hq5]
    simp only [hd2, hq6, hq7]
    simp only [hd3]
    by_cases h1 : r1 ≠ 0
    · rw [if_pos h1]
      simp only [List.append_assoc, List.cons_append]
      exact chain_allPoll (waitw_allPoll_eq hq1)
    · rw [if_neg h1]
      rw [not_ne_iff.mp h1] at hq1
      by_cases h2 : r2 ≠ 0
      · rw [if_pos h2]
        simp only [List.append_assoc, List.cons_append]
        exact chain_ww hq1 rfl (chain_cons_allPoll (waitw_allPoll_eq hq2))
      · rw [if_neg h2]
        rw [not_ne_iff.mp h2] at hq2
        by_cases h3 : r3 ≠ 0
        · rw [if_pos h3]
          simp only [List.append_assoc, List.cons_append]
          exact chain_ww hq1 rfl (chain_cons_poll_head (waitw_allPoll_eq hq2) (waitw_ne_nil_eq hq2) (chain_ww hq2 rfl (chain_cons_allPoll (waitr_allPoll_eq hq3))))
        · rw [if_neg h3]
          rw [not_ne_iff.mp h3] at hq3
          by_cases h4 : chk = 0xff
          · rw [if_pos h4]
            simp only [List.append_assoc, List.cons_append]
            exact chain_ww hq1 rfl (chain_cons_poll_head (waitw_allPoll_eq hq2) (waitw_ne_nil_eq hq2) (chain_ww hq2 rfl (chain_cons_poll_head (waitr_allPoll_eq hq3) (waitr_ne_nil_eq hq3) (chain_wr hq3 rfl (List.chain'_singleton _)))))
          · rw [if_neg h4]
            by_cases h5 : r4 ≠ 0
            · rw [if_pos h5]
              simp only [List.append_assoc, List.cons_append]
              exact chain_ww hq1 rfl (chain_cons_poll_head (waitw_allPoll_eq hq2) (waitw_ne_nil_eq hq2) (chain_ww hq2 rfl (chain_cons_poll_head (waitr_allPoll_eq hq3) (waitr_ne_nil_eq hq3) (chain_wr hq3 rfl (chain_cons_allPoll (waitw_allPoll_eq hq4))))))
            · rw [if_neg h5]
              rw [not_ne_iff.mp h5] at hq4
              by_cases h6 : r5 ≠ 0
              · rw [if_pos h6]
                simp only [List.append_assoc, List.cons_append]
                exact chain_ww hq1 rfl (chain_cons_poll_head (waitw_allPoll_eq hq2) (waitw_ne_nil_eq hq2) (chain_ww hq2 rfl (chain_cons_poll_head (waitr_allPoll_eq hq3) (waitr_ne_nil_eq hq3) (chain_wr hq3 rfl (chain_cons_poll_head (waitw_allPoll_eq hq4) (waitw_ne_nil_eq hq4) (chain_ww hq4 rfl (chain_cons_allPoll (waitr_allPoll_eq hq5))))))))
              · rw [if_neg h6]
                rw [not_ne_iff.mp h6] at hq5
                by_cases h7 : pv &&& 0xff = 0xff
                · rw [if_pos h7]
                  simp only [List.append_assoc, List.cons_append]
                  exact chain_ww hq1 rfl (chain_cons_poll_head (waitw_allPoll_eq hq2) (waitw_ne_nil_eq hq2) (chain_ww hq2 rfl (chain_cons_poll_head (waitr_allPoll_eq hq3) (waitr_ne_nil_eq hq3) (chain_wr hq3 rfl (chain_cons_poll_head (waitw_allPoll_eq hq4) (waitw_ne_nil_eq hq4) (chain_ww hq4 rfl (chain_cons_poll_head (waitr_allPoll_eq hq5) (waitr_ne_nil_eq hq5) (chain_wr hq5 rfl (List.chain'_singleton _)))))))))
                · rw [if_neg h7]
                  by_cases h8 : r6 ≠ 0
                  · rw [if_pos h8]
                    simp only [List.append_assoc, List.cons_append]
                    exact chain_ww hq1 rfl (chain_cons_poll_head (waitw_allPoll_eq hq2) (waitw_ne_nil_eq hq2) (chain_ww hq2 rfl (chain_cons_poll_head (waitr_allPoll_eq hq3) (waitr_ne_nil_eq hq3) (chain_wr hq3 rfl (chain_cons_poll_head (waitw_allPoll_eq hq4) (waitw_ne_nil_eq hq4) (chain_ww hq4 rfl (chain_cons_poll_head (waitr_allPoll_eq hq5) (waitr_ne_nil_eq hq5) (chain_wr hq5 rfl (chain_cons_allPoll (waitw_allPoll_eq hq6))))))))))
                  · rw [if_neg h8]
                    rw [not_ne_iff.mp h8] at hq6
                    by_cases h9 : r7 ≠ 0
                    · rw [if_pos h9]
                      simp only [List.append_assoc, List.cons_append]
                      exact chain_ww hq1 rfl (chain_cons_poll_head (waitw_allPoll_eq hq2) (waitw_ne_nil_eq hq2) (chain_ww hq2 rfl (chain_cons_poll_head (waitr_allPoll_eq hq3) (waitr_ne_nil_eq hq3) (chain_wr hq3 rfl (chain_cons_poll_head (waitw_allPoll_eq hq4) (waitw_ne_nil_eq hq4) (chain_ww hq4 rfl (chain_cons_poll_head (waitr_allPoll_eq hq5) (waitr_ne_nil_eq hq5) (chain_wr hq5 rfl (chain_cons_poll_head (waitw_allPoll_eq hq6) (waitw_ne_nil_eq hq6) (chain_ww hq6 rfl (chain_cons_allPoll (waitr_allPoll_eq hq7))))))))))))
                    · rw [if_neg h9]
                      rw [not_ne_iff.mp h9] at hq7
                      simp only [List.append_assoc, List.cons_append]
                      exact chain_ww hq1 rfl (chain_cons_poll_head (waitw_allPoll_eq hq2) (waitw_ne_nil_eq hq2) (chain_ww hq2 rfl (chain_cons_poll_head (waitr_allPoll_eq hq3) (waitr_ne_nil_eq hq3) (chain_wr hq3 rfl (chain_cons_poll_head (waitw_allPoll_eq hq4) (waitw_ne_nil_eq hq4) (chain_ww hq4 rfl (chain_cons_poll_head (waitr_allPoll_eq hq5) (waitr_ne_nil_eq hq5) (chain_wr hq5 rfl (chain_cons_poll_head (waitw_allPoll_eq hq6) (waitw_ne_nil_eq hq6) (chain_ww hq6 rfl (chain_cons_poll_head (waitr_allPoll_eq hq7) (waitr_ne_nil_eq hq7) (chain_wr hq7 rfl (chain_cons_poll_opt (ih (i + 1) (tbl.set i ⟨dv &&& 0xff, pv &&& 0xff⟩) s10) (tab_loop_head d fuel (i + 1) (tbl.set i ⟨dv &&& 0xff, pv &&& 0xff⟩) s10))))))))))))))

/-- Trace shape of adv_get_dynamic_tab. -/
theorem shape_adv_get_dynamic_tab {σ : Type} (d : Dev σ) (s : σ) :
    TraceShape (adv_get_dynamic_tab d s).2.2.2 := by
  exact ⟨_, rfl,
    tab_loop_port d EC_MAX_TBL_NUM 0
      (List.replicate EC_MAX_TBL_NUM (ec_dynamic_table.mk 0xff 0xff)) s,
    tab_loop_chain d EC_MAX_TBL_NUM 0
      (List.replicate EC_MAX_TBL_NUM (ec_dynamic_table.mk 0xff 0xff)) s,
    tab_loop_head d EC_MAX_TBL_NUM 0
      (List.replicate EC_MAX_TBL_NUM (ec_dynamic_table.mk 0xff 0xff)) s⟩

/-- C1: for every public protocol operation (read_hw_ram, write_hw_ram,
read_acpi_value, write_acpi_value, read_gpio_status, write_gpio_status,
read_gpio_dir, write_gpio_dir, read_ad_value, write_hwram_command,
adv_get_dynamic_tab) over any device and state, and hence on every outcome
(success, poll timeout, or sentinel invalid-pin), the transaction mutex is
acquired exactly once at entry and released exactly once before the
operation returns, so replaying the operation's trace from the free lock
state ends in the free lock state. -/
theorem c1_lock_released_every_path :
    ∀ (σ : Type) (d : Dev σ) (s : σ) (a b : Nat),
      lockOK (read_hw_ram d a b s).2.2.2 ∧
      lockOK (write_hw_ram d a b s).2.2 ∧
      lockOK (read_acpi_value d a b s).2.2.2 ∧
      lockOK (write_acpi_value d a b s).2.2 ∧
      lockOK (read_gpio_status d a b s).2.2.2 ∧
      lockOK (write_gpio_status d a b s).2.2 ∧
      lockOK (read_gpio_dir d a b s).2.2.2 ∧
      lockOK (write_gpio_dir d a b s).2.2 ∧
      lockOK (read_ad_value d a b s).2.2 ∧
      lockOK (write_hwram_command d a s).2.2 ∧
      lockOK (adv_get_dynamic_tab d s).2.2.2 :=
  fun σ d s a b =>
    ⟨(shape_lock_seq (shape_read_hw_ram d a b s)).1,
     (shape_lock_seq (shape_write_hw_ram d a b s)).1,
     (shape_lock_seq (shape_read_acpi_value d a b s)).1,
     (shape_lock_seq (shape_write_acpi_value d a b s)).1,
     (shape_lock_seq (shape_read_gpio_status d a b s)).1,
     (shape_lock_seq (shape_write_gpio_status d a b s)).1,
     (shape_lock_seq (shape_read_gpio_dir d a b s)).1,
     (shape_lock_seq (shape_write_gpio_dir d a b s)).1,
     (shape_lock_seq (shape_read_ad_value d a b s)).1,
     (shape_lock_seq (shape_write_hwram_command d a s)).1,
     (shape_lock_seq (shape_adv_get_dynamic_tab d s)).1⟩

/-- C7: in the port-access trace of every protocol operation, every write to
the command or data port immediately follows a status poll that observed
IBF clear, and every read of the data port immediately follows a status
poll that observed OBF set (List.Chain' stepOK over the trace); a write
after an observed-busy IBF, or a data read before an observed OBF, never
occurs. -/
theorem c7_handshake_discipline :
    ∀ (σ : Type) (d : Dev σ) (s : σ) (a b : Nat),
      seqOK (read_hw_ram d a b s).2.2.2 ∧
      seqOK (write_hw_ram d a b s).2.2 ∧
      seqOK (read_acpi_value d a b s).2.2.2 ∧
      seqOK (write_acpi_value d a b s).2.2 ∧
      seqOK (read_gpio_status d a b s).2.2.2 ∧
      seqOK (write_gpio_status d a b s).2.2 ∧
      seqOK (read_gpio_dir d a b s).2.2.2 ∧
      seqOK (write_gpio_dir d a b s).2.2 ∧
      seqOK (read_ad_value d a b s).2.2 ∧
      seqOK (write_hwram_command d a s).2.2 ∧
      seqOK (adv_get_dynamic_tab d s).2.2.2 :=
  fun σ d s a b =>
    ⟨(shape_lock_seq (shape_read_hw_ram d a b s)).2,
     (shape_lock_seq (shape_write_hw_ram d a b s)).2,
     (shape_lock_seq (shape_read_acpi_value d a b s)).2,
     (shape_lock_seq (shape_write_acpi_value d a b s)).2,
     (shape_lock_seq (shape_read_gpio_status d a b s)).2,
     (shape_lock_seq (shape_write_gpio_status d a b s)).2,
     (shape_lock_seq (shape_read_gpio_dir d a b s)).2,
     (shape_lock_seq (shape_write_gpio_dir d a b s)).2,
     (shape_lock_seq (shape_read_ad_value d a b s)).2,
     (shape_lock_seq (shape_write_hwram_command d a s)).2,
     (shape_lock_seq (shape_adv_get_dynamic_tab d s)).2⟩

/-- C4: for every pin-indexed operation (read_gpio_status, write_gpio_status,
read_gpio_dir, write_gpio_dir, read_ad_value), if the readback after the
index-write sub-step is the sentinel 0xff, the operation fails with the
invalid-pin error -1 and its trace ends immediately after that readback
with the unlock: the subsequent opcode and data steps issue no further port
reads or writes. -/
theorem c4_sentinel_invalid_pin :
    ∀ (σ : Type) (d : Dev σ) (s : σ) (pin val multi : Nat)
      (s1 : σ) (w1 : List Ev) (s2 : σ) (w2 : List Ev) (s3 : σ) (w3 : List Ev)
      (s4 : σ) (u2 : σ) (x2 : List Ev) (u3 : σ) (x3 : List Ev) (u4 : σ),
      ec_wait_write d EC_MAX_TIMEOUT_COUNT s = (0, s1, w1) →
      ec_wait_write d EC_MAX_TIMEOUT_COUNT (d.outbCmd EC_GPIO_INDEX_WRITE s1) =
        (0, s2, w2) →
      ec_wait_read d EC_MAX_TIMEOUT_COUNT (d.outbData pin s2) = (0, s3, w3) →
      d.inbData s3 = (0xff, s4) →
      ec_wait_write d EC_MAX_TIMEOUT_COUNT (d.outbCmd EC_AD_INDEX_WRITE s1) =
        (0, u2, x2) →
      ec_wait_read d EC_MAX_TIMEOUT_COUNT (d.outbData pin u2) = (0, u3, x3) →
      d.inbData u3 = (0xff, u4) →
      read_gpio_status d pin val s = (-1, val, s4,
        Ev.lock :: w1 ++ Ev.outbCmd EC_GPIO_INDEX_WRITE :: w2 ++
          Ev.outbData pin :: w3 ++ [Ev.inbData 0xff, Ev.unlock]) ∧
      write_gpio_status d pin val s = (-1, s4,
        Ev.lock :: w1 ++ Ev.outbCmd EC_GPIO_INDEX_WRITE :: w2 ++
          Ev.outbData pin :: w3 ++ [Ev.inbData 0xff, Ev.unlock]) ∧
      read_gpio_dir d pin val s = (-1, val, s4,
        Ev.lock :: w1 ++ Ev.outbCmd EC_GPIO_INDEX_WRITE :: w2 ++
          Ev.outbData pin :: w3 ++ [Ev.inbData 0xff, Ev.unlock]) ∧
      write_gpio_dir d pin val s = (-1, s4,
        Ev.lock :: w1 ++ Ev.outbCmd EC_GPIO_INDEX_WRITE :: w2 ++
          Ev.outbData pin :: w3 ++ [Ev.inbData 0xff, Ev.unlock]) ∧
      read_ad_value d pin multi s = (-1, u4,
        Ev.lock :: w1 ++ Ev.outbCmd EC_AD_INDEX_WRITE :: x2 ++
          Ev.outbData pin :: x3 ++ [Ev.inbData 0xff, Ev.unlock]) := by
  intro σ d s pin val multi s1 w1 s2 w2 s3 w3 s4 u2 x2 u3 x3 u4
  intro h1 h2 h3 h4 h5 h6 h7
  refine ⟨?_, ?_, ?_, ?_, ?_⟩
  · simp [read_gpio_status, h1, h2, h3, h4]
  · simp [write_gpio_status, h1, h2, h3, h4]
  · simp [read_gpio_dir, h1, h2, h3, h4]
  · simp [write_gpio_dir, h1, h2, h3, h4]
  · simp [read_ad_value, h1, h5, h6, h7]

/-- C4 witness: over the always-ready script device whose data-port readback
is 0xff, each pin-indexed operation at pin 3 returns -1 and its trace stops
right after the sentinel readback. -/
theorem c4_sentinel_invalid_pin_witness :
    read_gpio_status devScript 3 7 [0xff] = (-1, 7, [],
      [Ev.lock, Ev.inbCmd 1, Ev.outbCmd EC_GPIO_INDEX_WRITE, Ev.inbCmd 1,
        Ev.outbData 3, Ev.inbCmd 1, Ev.inbData 0xff, Ev.unlock]) ∧
    write_gpio_status devScript 3 7 [0xff] = (-1, [],
      [Ev.lock, Ev.inbCmd 1, Ev.outbCmd EC_GPIO_INDEX_WRITE, Ev.inbCmd 1,
        Ev.outbData 3, Ev.inbCmd 1, Ev.inbData 0xff, Ev.unlock]) ∧
    read_gpio_dir devScript 3 7 [0xff] = (-1, 7, [],
      [Ev.lock, Ev.inbCmd 1, Ev.outbCmd EC_GPIO_INDEX_WRITE, Ev.inbCmd 1,
        Ev.outbData 3, Ev.inbCmd 1, Ev.inbData 0xff, Ev.unlock]) ∧
    write_gpio_dir devScript 3 7 [0xff] = (-1, [],
      [Ev.lock, Ev.inbCmd 1, Ev.outbCmd EC_GPIO_INDEX_WRITE, Ev.inbCmd 1,
        Ev.outbData 3, Ev.inbCmd 1, Ev.inbData 0xff, Ev.unlock]) ∧
    read_ad_value devScript 3 7 [0xff] = (-1, [],
      [Ev.lock, Ev.inbCmd 1, Ev.outbCmd EC_AD_INDEX_WRITE, Ev.inbCmd 1,
        Ev.outbData 3, Ev.inbCmd 1, Ev.inbData 0xff, Ev.unlock]) :=
  c4_sentinel_invalid_pin (List Nat) devScript [0xff] 3 7 7
    [0xff] [Ev.inbCmd 1] [0xff] [Ev.inbCmd 1] [0xff] [Ev.inbCmd 1] []
    [0xff] [Ev.inbCmd 1] [0xff] [Ev.inbCmd 1] []
    rfl rfl rfl rfl rfl rfl rfl

/-- C3: whenever read_ad_value runs to success against a device that answers
the pin readback with a non-sentinel byte and serves `low` and `high` for
the LSB and MSB reads, the returned value is exactly
(((high <<< 8) ||| low) &&& 0x03FF) * multi * 100. -/
theorem c3_ad_value_formula :
    ∀ (σ : Type) (d : Dev σ) (s : σ) (pin multi low high p : Nat)
      (s1 : σ) (w1 : List Ev) (s2 : σ) (w2 : List Ev) (s3 : σ) (w3 : List Ev)
      (s4 : σ) (s5 : σ) (w4 : List Ev) (s6 : σ) (w5 : List Ev) (s7 : σ)
      (s8 : σ) (w6 : List Ev) (s9 : σ) (w7 : List Ev) (s10 : σ),
      low ≤ 0xff → high ≤ 0xff → multi ≤ 0xff →
      ec_wait_write d EC_MAX_TIMEOUT_COUNT s = (0, s1, w1) →
      ec_wait_write d EC_MAX_TIMEOUT_COUNT (d.outbCmd EC_AD_INDEX_WRITE s1) =
        (0, s2, w2) →
      ec_wait_read d EC_MAX_TIMEOUT_COUNT (d.outbData pin s2) = (0, s3, w3) →
      d.inbData s3 = (p, s4) →
      p ≠ 0xff →
      ec_wait_write d EC_MAX_TIMEOUT_COUNT s4 = (0, s5, w4) →
      ec_wait_read d EC_MAX_TIMEOUT_COUNT (d.outbCmd EC_AD_LSB_READ s5) =
        (0, s6, w5) →
      d.inbData s6 = (low, s7) →
      ec_wait_write d EC_MAX_TIMEOUT_COUNT s7 = (0, s8, w6) →
      ec_wait_read d EC_MAX_TIMEOUT_COUNT (d.outbCmd EC_AD_MSB_READ s8) =
        (0, s9, w7) →
      d.inbData s9 = (high, s10) →
      (read_ad_value d pin multi s).1 =
        Int.ofNat ((((high <<< 8) ||| low) &&& 0x03FF) * multi * 100) := by
  intro σ d s pin multi low high p s1 w1 s2 w2 s3 w3 s4 s5 w4 s6 w5 s7 s8 w6 s9 w7 s10
  intro hlow hhigh hmulti h1 h2 h3 hp hpne h4 h5 hlsb h6 h7 hmsb
  simp [read_ad_value, h1, h2, h3, hp, hpne, h4, h5, hlsb, h6, h7, hmsb]

/-- C3 witness: low=0x34, high=0x01, multiplier=2 yields 61600, over the
script device serving readback 0, then 0x34, then 0x01. -/
theorem c3_ad_value_formula_witness :
    (read_ad_value devScript 5 2 [0, 0x34, 0x01]).1 = 61600 := by
  have h := c3_ad_value_formula (List Nat) devScript [0, 0x34, 0x01] 5 2 0x34 0x01 0
    [0, 0x34, 0x01] [Ev.inbCmd 1] [0, 0x34, 0x01] [Ev.inbCmd 1]
    [0, 0x34, 0x01] [Ev.inbCmd 1] [0x34, 0x01]
    [0x34, 0x01] [Ev.inbCmd 1] [0x34, 0x01] [Ev.inbCmd 1] [0x01]
    [0x01] [Ev.inbCmd 1] [0x01] [Ev.inbCmd 1] []
    (by decide) (by decide) (by decide)
    rfl rfl rfl rfl (by decide) rfl rfl rfl rfl rfl rfl
  exact h.trans (by decide)

theorem waitr_poll_timeout (f : Nat → Nat) :
    ∀ (n c : Nat), (∀ i, c ≤ i → i < c + n → f i &&& EC_COMMAND_BIT_OBF = 0) →
      (ec_wait_read (pollDev f) n c).1 = -ETIMEDOUT ∧
      (ec_wait_read (pollDev f) n c).2.1 = c + n ∧
      (ec_wait_read (pollDev f) n c).2.2.length = n := by
  intro n
  induction n with
  | zero =>
    intro c h
    refine ⟨rfl, rfl, rfl⟩
  | succ n ih =>
    intro c h
    have hc : f c &&& EC_COMMAND_BIT_OBF = 0 := h c (le_refl c) (by omega)
    have hcond : ¬ (f c &&& EC_COMMAND_BIT_OBF ≠ 0) := by simp [hc]
    obtain ⟨ih1, ih2, ih3⟩ := ih (c + 1) (fun i hi1 hi2 => h i (by omega) (by omega))
    have hstep : ec_wait_read (pollDev f) (n + 1) c =
        ((ec_wait_read (pollDev f) n (c + 1)).1,
          (ec_wait_read (pollDev f) n (c + 1)).2.1,
          Ev.inbCmd (f c) :: (ec_wait_read (pollDev f) n (c + 1)).2.2) := by
      simp [ec_wait_read, pollDev, hcond]
    rw [hstep]
    refine ⟨ih1, ?_, ?_⟩
    · simp only [ih2]
      omega
    · simp [ih3]

theorem waitr_poll_hit (f : Nat → Nat) :
    ∀ (j n c : Nat), j < n →
      (∀ i, c ≤ i → i < c + j → f i &&& EC_COMMAND_BIT_OBF = 0) →
      f (c + j) &&& EC_COMMAND_BIT_OBF ≠ 0 →
      (ec_wait_read (pollDev f) n c).1 = 0 ∧
      (ec_wait_read (pollDev f) n c).2.1 = c + j + 1 ∧
      (ec_wait_read (pollDev f) n c).2.2.length = j + 1 := by
  intro j
  induction j with
  | zero =>
    intro n c hn hpre hhit
    cases n with
    | zero => omega
    | succ n =>
      have hset : f c &&& EC_COMMAND_BIT_OBF ≠ 0 := by simpa using hhit
      refine ⟨?_, ?_, ?_⟩ <;> simp [ec_wait_read, pollDev, hset]
  | succ j ih =>
    intro n c hn hpre hhit
    cases n with
    | zero => omega
    | succ n =>
      have hc : f c &&& EC_COMMAND_BIT_OBF = 0 := hpre c (le_refl c) (by omega)
      have hcond : ¬ (f c &&& EC_COMMAND_BIT_OBF ≠ 0) := by simp [hc]
      have hhit2 : f (c + 1 + j) &&& EC_COMMAND_BIT_OBF ≠ 0 := by
        have he : c + 1 + j = c + (j + 1) := by omega
        rw [he]
        exact hhit
      obtain ⟨ih1, ih2, ih3⟩ := ih n (c + 1) (by omega)
        (fun i hi1 hi2 => hpre i (by omega) (by omega)) hhit2
      have hstep : ec_wait_read (pollDev f) (n + 1) c =
          ((ec_wait_read (pollDev f) n (c + 1)).1,
            (ec_wait_read (pollDev f) n (c + 1)).2.1,
            Ev.inbCmd (f c) :: (ec_wait_read (pollDev f) n (c + 1)).2.2) := by
        simp [ec_wait_read, pollDev, hcond]
      rw [hstep]
      refine ⟨ih1, ?_, ?_⟩
      · simp only [ih2]
        omega
      · simp [ih3]

/-- C5: over the counting mock transport pollDev, if OBF is never observed
set, ec_wait_read returns -ETIMEDOUT after exactly
EC_MAX_TIMEOUT_COUNT = 5000 polls of the command port (final poll counter
and trace length both 5000, not fewer and not more); and if OBF is first
observed set at 0-based poll index j < 5000, it returns 0 at that poll,
after exactly j+1 polls. -/
theorem c5_wait_read_poll_count :
    ∀ (g f : Nat → Nat) (j : Nat),
      ((∀ i, g i &&& EC_COMMAND_BIT_OBF = 0) →
        (ec_wait_read (pollDev g) EC_MAX_TIMEOUT_COUNT 0).1 = -ETIMEDOUT ∧
        (ec_wait_read (pollDev g) EC_MAX_TIMEOUT_COUNT 0).2.1 = EC_MAX_TIMEOUT_COUNT ∧
        (ec_wait_read (pollDev g) EC_MAX_TIMEOUT_COUNT 0).2.2.length =
          EC_MAX_TIMEOUT_COUNT) ∧
      (j < EC_MAX_TIMEOUT_COUNT →
        (∀ i, i < j → f i &&& EC_COMMAND_BIT_OBF = 0) →
        f j &&& EC_COMMAND_BIT_OBF ≠ 0 →
        (ec_wait_read (pollDev f) EC_MAX_TIMEOUT_COUNT 0).1 = 0 ∧
        (ec_wait_read (pollDev f) EC_MAX_TIMEOUT_COUNT 0).2.1 = j + 1 ∧
        (ec_wait_read (pollDev f) EC_MAX_TIMEOUT_COUNT 0).2.2.length = j + 1) := by
  intro g f j
  constructor
  · intro hg
    have h := waitr_poll_timeout g EC_MAX_TIMEOUT_COUNT 0 (fun i _ _ => hg i)
    simpa using h
  · intro hj hpre hhit
    have h := waitr_poll_hit f j EC_MAX_TIMEOUT_COUNT 0 hj
      (fun i _ hi2 => hpre i (by omega)) (by simpa using hhit)
    simpa using h

/-- C5 witness: the all-zero status stream times out after exactly 5000
polls, and a status stream that first shows OBF on the fourth poll
(0-based index 3) succeeds after exactly 4 polls. -/
theorem c5_wait_read_poll_count_witness :
    ((ec_wait_read (pollDev (fun _ => 0)) EC_MAX_TIMEOUT_COUNT 0).1 = -ETIMEDOUT ∧
      (ec_wait_read (pollDev (fun _ => 0)) EC_MAX_TIMEOUT_COUNT 0).2.1 =
        EC_MAX_TIMEOUT_COUNT ∧
      (ec_wait_read (pollDev (fun _ => 0)) EC_MAX_TIMEOUT_COUNT 0).2.2.length =
        EC_MAX_TIMEOUT_COUNT) ∧
    ((ec_wait_read (pollDev (fun i => if i < 3 then 0 else 1)) EC_MAX_TIMEOUT_COUNT 0).1 = 0 ∧
      (ec_wait_read (pollDev (fun i => if i < 3 then 0 else 1)) EC_MAX_TIMEOUT_COUNT 0).2.1 = 4 ∧
      (ec_wait_read (pollDev (fun i => if i < 3 then 0 else 1)) EC_MAX_TIMEOUT_COUNT 0).2.2.length = 4) := by
  have h := c5_wait_read_poll_count (fun _ => 0) (fun i => if i < 3 then 0 else 1) 3
  exact ⟨h.1 (fun i => by decide),
    h.2 (by decide) (fun i hi => by rw [if_pos hi]; decide) (by decide)⟩

theorem frame_read_hw_ram {σ : Type} (d : Dev σ) (addr data : Nat) (s : σ) :
    ((read_hw_ram d addr data s).1 ≠ 0 → (read_hw_ram d addr data s).2.1 = data) ∧
    ((read_hw_ram d addr data s).1 = 0 → ∃ t0, (read_hw_ram d addr data s).2.2.2 =
      t0 ++ [Ev.inbData ((read_hw_ram d addr data s).2.1), Ev.unlock]) := by
  rcases hq1 : ec_wait_write d EC_MAX_TIMEOUT_COUNT s with ⟨r1, s1, w1⟩
  rcases hq2 : ec_wait_write d EC_MAX_TIMEOUT_COUNT (d.outbCmd EC_HW_RAM_READ s1)
    with ⟨r2, s2, w2⟩
  rcases hq3 : ec_wait_read d EC_MAX_TIMEOUT_COUNT (d.outbData addr s2)
    with ⟨r3, s3, w3⟩
  simp only [read_hw_ram, hq1, hq2, hq3]
  split_ifs with h1 h2 h3
  · exact ⟨fun _ => rfl, fun h0 => absurd h0 h1⟩
  · exact ⟨fun _ => rfl, fun h0 => absurd h0 h2⟩
  · exact ⟨fun _ => rfl, fun h0 => absurd h0 h3⟩
  · have h3z := not_ne_iff.mp h3
    subst h3z
    exact ⟨fun hne => absurd rfl hne, fun _ =>
      ⟨Ev.lock :: (w1 ++ Ev.outbCmd EC_HW_RAM_READ :: (w2 ++ Ev.outbData addr :: w3)),
        by simp⟩⟩

theorem frame_read_acpi_value {σ : Type} (d : Dev σ) (addr data : Nat) (s : σ) :
    ((read_acpi_value d addr data s).1 ≠ 0 → (read_acpi_value d addr data s).2.1 = data) ∧
    ((read_acpi_value d addr data s).1 = 0 → ∃ t0, (read_acpi_value d addr data s).2.2.2 =
      t0 ++ [Ev.inbData ((read_acpi_value d addr data s).2.1), Ev.unlock]) := by
  rcases hq1 : ec_wait_write d EC_MAX_TIMEOUT_COUNT s with ⟨r1, s1, w1⟩
  rcases hq2 : ec_wait_write d EC_MAX_TIMEOUT_COUNT (d.outbCmd EC_ACPI_RAM_READ s1)
    with ⟨r2, s2, w2⟩
  rcases hq3 : ec_wait_read d EC_MAX_TIMEOUT_COUNT (d.outbData addr s2)
    with ⟨r3, s3, w3⟩
  simp only [read_acpi_value, hq1, hq2, hq3]
  split_ifs with h1 h2 h3
  · exact ⟨fun _ => rfl, fun h0 => absurd h0 h1⟩
  · exact ⟨fun _ => rfl, fun h0 => absurd h0 h2⟩
  · exact ⟨fun _ => rfl, fun h0 => absurd h0 h3⟩
  · exact ⟨fun hne => absurd rfl hne, fun _ =>
      ⟨Ev.lock :: (w1 ++ Ev.outbCmd EC_ACPI_RAM_READ :: (w2 ++ Ev.outbData addr :: w3)),
        by simp⟩⟩

theorem frame_read_gpio_status {σ : Type} (d : Dev σ) (pin data : Nat) (s : σ) :
    ((read_gpio_status d pin data s).1 ≠ 0 → (read_gpio_status d pin data s).2.1 = data) ∧
    ((read_gpio_status d pin data s).1 = 0 → ∃ t0, (read_gpio_status d pin data s).2.2.2 =
      t0 ++ [Ev.inbData ((read_gpio_status d pin data s).2.1), Ev.unlock]) := by
  rcases hq1 : ec_wait_write d EC_MAX_TIMEOUT_COUNT s with ⟨r1, s1, w1⟩
  rcases hq2 : ec_wait_write d EC_MAX_TIMEOUT_COUNT (d.outbCmd EC_GPIO_INDEX_WRITE s1)
    with ⟨r2, s2, w2⟩
  rcases hq3 : ec_wait_read d EC_MAX_TIMEOUT_COUNT (d.outbData pin s2)
    with ⟨r3, s3, w3⟩
  rcases hd1 : d.inbData s3 with ⟨chk, s4⟩
  rcases hq4 : ec_wait_write d EC_MAX_TIMEOUT_COUNT s4 with ⟨r4, s5, w4⟩
  rcases hq5 : ec_wait_read d EC_MAX_TIMEOUT_COUNT (d.outbCmd EC_GPIO_STATUS_READ s5)
    with ⟨r5, s6, w5⟩
  simp only [read_gpio_status, hq1, hq2, hq3, hd1, hq4, hq5]
  split_ifs with h1 h2 h3 h4 h5 h6
  · exact ⟨fun _ => rfl, fun h0 => absurd h0 h1⟩
  · exact ⟨fun _ => rfl, fun h0 => absurd h0 h2⟩
  · exact ⟨fun _ => rfl, fun h0 => absurd h0 h3⟩
  · exact ⟨fun _ => rfl, fun h0 => absurd h0 (by simp)⟩
  · exact ⟨fun _ => rfl, fun h0 => absurd h0 h5⟩
  · exact ⟨fun _ => rfl, fun h0 => absurd h0 h6⟩
  · exact ⟨fun hne => absurd rfl hne, fun _ =>
      ⟨Ev.lock :: (w1 ++ Ev.outbCmd EC_GPIO_INDEX_WRITE :: (w2 ++ Ev.outbData pin ::
        (w3 ++ Ev.inbData chk :: (w4 ++ Ev.outbCmd EC_GPIO_STATUS_READ :: w5)))),
        by simp⟩⟩

theorem frame_read_gpio_dir {σ : Type} (d : Dev σ) (pin data : Nat) (s : σ) :
    ((read_gpio_dir d pin data s).1 ≠ 0 → (read_gpio_dir d pin data s).2.1 = data) ∧
    ((read_gpio_dir d pin data s).1 = 0 → ∃ t0, (read_gpio_dir d pin data s).2.2.2 =
      t0 ++ [Ev.inbData ((read_gpio_dir d pin data s).2.1), Ev.unlock]) := by
  rcases hq1 : ec_wait_write d EC_MAX_TIMEOUT_COUNT s with ⟨r1, s1, w1⟩
  rcases hq2 : ec_wait_write d EC_MAX_TIMEOUT_COUNT (d.outbCmd EC_GPIO_INDEX_WRITE s1)
    with ⟨r2, s2, w2⟩
  rcases hq3 : ec_wait_read d EC_MAX_TIMEOUT_COUNT (d.outbData pin s2)
    with ⟨r3, s3, w3⟩
  rcases hd1 : d.inbData s3 with ⟨chk, s4⟩
  rcases hq4 : ec_wait_write d EC_MAX_TIMEOUT_COUNT s4 with ⟨r4, s5, w4⟩
  rcases hq5 : ec_wait_read d EC_MAX_TIMEOUT_COUNT (d.outbCmd EC_GPIO_DIR_READ s5)
    with ⟨r5, s6, w5⟩
  simp only [read_gpio_dir, hq1, hq2, hq3, hd1, hq4, hq5]
  split_ifs with h1 h2 h3 h4 h5 h6
  · exact ⟨fun _ => rfl, fun h0 => absurd h0 h1⟩
  · exact ⟨fun _ => rfl, fun h0 => absurd h0 h2⟩
  · exact ⟨fun _ => rfl, fun h0 => absurd h0 h3⟩
  · exact ⟨fun _ => rfl, fun h0 => absurd h0 (by simp)⟩
  · exact ⟨fun _ => rfl, fun h0 => absurd h0 h5⟩
  · exact ⟨fun _ => rfl, fun h0 => absurd h0 h6⟩
  · exact ⟨fun hne => absurd rfl hne, fun _ =>
      ⟨Ev.lock :: (w1 ++ Ev.outbCmd EC_GPIO_INDEX_WRITE :: (w2 ++ Ev.outbData pin ::
        (w3 ++ Ev.inbData chk :: (w4 ++ Ev.outbCmd EC_GPIO_DIR_READ :: w5)))),
        by simp⟩⟩

/-- C10: for every byte-returning read operation (read_hw_ram,
read_acpi_value, read_gpio_status, read_gpio_dir), any execution that ends
in an error (poll timeout or sentinel invalid-pin) leaves the caller's
output cell untouched; when the operation returns success, the cell holds
the byte read from the data port in the operation's final read, just
before the unlock. -/
theorem c10_output_frame :
    ∀ (σ : Type) (d : Dev σ) (s : σ) (addr pin data : Nat),
      (((read_hw_ram d addr data s).1 ≠ 0 → (read_hw_ram d addr data s).2.1 = data) ∧
        ((read_hw_ram d addr data s).1 = 0 → ∃ t0, (read_hw_ram d addr data s).2.2.2 =
          t0 ++ [Ev.inbData ((read_hw_ram d addr data s).2.1), Ev.unlock])) ∧
      (((read_acpi_value d addr data s).1 ≠ 0 →
          (read_acpi_value d addr data s).2.1 = data) ∧
        ((read_acpi_value d addr data s).1 = 0 → ∃ t0,
          (read_acpi_value d addr data s).2.2.2 =
            t0 ++ [Ev.inbData ((read_acpi_value d addr data s).2.1), Ev.unlock])) ∧
      (((read_gpio_status d pin data s).1 ≠ 0 →
          (read_gpio_status d pin data s).2.1 = data) ∧
        ((read_gpio_status d pin data s).1 = 0 → ∃ t0,
          (read_gpio_status d pin data s).2.2.2 =
            t0 ++ [Ev.inbData ((read_gpio_status d pin data s).2.1), Ev.unlock])) ∧
      (((read_gpio_dir d pin data s).1 ≠ 0 → (read_gpio_dir d pin data s).2.1 = data) ∧
        ((read_gpio_dir d pin data s).1 = 0 → ∃ t0, (read_gpio_dir d pin data s).2.2.2 =
          t0 ++ [Ev.inbData ((read_gpio_dir d pin data s).2.1), Ev.unlock])) :=
  fun σ d s addr pin data =>
    ⟨frame_read_hw_ram d addr data s, frame_read_acpi_value d addr data s,
     frame_read_gpio_status d pin data s, frame_read_gpio_dir d pin data s⟩

/-- C10 witness: a sentinel invalid-pin failure of read_gpio_status leaves
the output cell at 7; a successful read_hw_ram puts the byte read from the
data port just before the unlock into the cell. -/
theorem c10_output_frame_witness :
    (read_gpio_status devScript 3 7 [0xff]).2.1 = 7 ∧
    (∃ t0, (read_hw_ram devScript 3 7 [0x42]).2.2.2 =
      t0 ++ [Ev.inbData ((read_hw_ram devScript 3 7 [0x42]).2.1), Ev.unlock]) := by
  refine ⟨((c10_output_frame (List Nat) devScript [0xff] 3 3 7).2.2.1).1 ?_,
    ((c10_output_frame (List Nat) devScript [0x42] 3 5 7).1).2 ?_⟩
  · decide
  · decide

theorem waitw_ready_first {σ : Type} (d : Dev σ) (s : σ)
    (h : (d.inbCmd s).1 &&& EC_COMMAND_BIT_IBF = 0) :
    ec_wait_write d EC_MAX_TIMEOUT_COUNT s =
      (0, (d.inbCmd s).2, [Ev.inbCmd (d.inbCmd s).1]) := by
  have hN : EC_MAX_TIMEOUT_COUNT = 4999 + 1 := rfl
  rw [hN]
  simp [ec_wait_write, h]

theorem waitr_ready_first {σ : Type} (d : Dev σ) (s : σ)
    (h : (d.inbCmd s).1 &&& EC_COMMAND_BIT_OBF ≠ 0) :
    ec_wait_read d EC_MAX_TIMEOUT_COUNT s =
      (0, (d.inbCmd s).2, [Ev.inbCmd (d.inbCmd s).1]) := by
  have hN : EC_MAX_TIMEOUT_COUNT = 4999 + 1 := rfl
  rw [hN]
  simp [ec_wait_read, h]

/-- C8: writing byte v at RAM address addr via write_hw_ram and then reading
the same address via read_hw_ram, against the stateful mock EC devRam that
stores the written byte at the addressed cell, both succeed and the read
delivers v through the output cell. -/
theorem c8_hw_ram_round_trip :
    ∀ (ram : Nat → Nat) (c0 a0 : Nat) (g0 : Bool) (addr v data : Nat),
      (write_hw_ram devRam addr v ⟨ram, c0, a0, g0⟩).1 = 0 ∧
      (read_hw_ram devRam addr data
        (write_hw_ram devRam addr v ⟨ram, c0, a0, g0⟩).2.1).1 = 0 ∧
      (read_hw_ram devRam addr data
        (write_hw_ram devRam addr v ⟨ram, c0, a0, g0⟩).2.1).2.1 = v := by
  intro ram c0 a0 g0 addr v data
  have hw : ∀ s : RamEC, ec_wait_write devRam EC_MAX_TIMEOUT_COUNT s =
      (0, s, [Ev.inbCmd 1]) := by
    intro s
    have h := waitw_ready_first devRam s
      (by simp [devRam, EC_COMMAND_BIT_IBF])
    simpa [devRam] using h
  have hr : ∀ s : RamEC, ec_wait_read devRam EC_MAX_TIMEOUT_COUNT s =
      (0, s, [Ev.inbCmd 1]) := by
    intro s
    have h := waitr_ready_first devRam s
      (by simp [devRam, EC_COMMAND_BIT_OBF])
    simpa [devRam] using h
  have hwr : write_hw_ram devRam addr v ⟨ram, c0, a0, g0⟩ =
      (0, ⟨fun a => if a = addr then v else ram a, EC_HW_RAM_WRITE, addr, false⟩,
        [Ev.lock, Ev.inbCmd 1, Ev.outbCmd EC_HW_RAM_WRITE, Ev.inbCmd 1,
          Ev.outbData addr, Ev.inbCmd 1, Ev.outbData v, Ev.unlock]) := by
    simp only [write_hw_ram, hw]
    simp [devRam, EC_HW_RAM_WRITE, EC_HW_RAM_READ]
  rw [hwr]
  refine ⟨rfl, ?_, ?_⟩
  all_goals
    simp only [read_hw_ram, hw, hr]
    simp [devRam, EC_HW_RAM_WRITE, EC_HW_RAM_READ]

/-- C6: discovery against the mock EC devTbl, which defines slots 0 and 1
and reports the sentinel for slot 2, terminates successfully with exactly
the two populated entries at indices 0 and 1 (all other slots sentinel
{0xff, 0xff}), and the slot-select writes on the data port are exactly
0, 1, 2: the scan attempts slot 2, halts there, and never selects slot 3
or beyond. -/
theorem c6_discovery_halts_at_first_undefined :
    (adv_get_dynamic_tab devTbl ⟨0, 0⟩).1 = 0 ∧
    (adv_get_dynamic_tab devTbl ⟨0, 0⟩).2.1 =
      (((List.replicate EC_MAX_TBL_NUM (ec_dynamic_table.mk 0xff 0xff)).set 0
        ⟨0x28, 0x12⟩).set 1 ⟨0x50, 0x34⟩) ∧
    (adv_get_dynamic_tab devTbl ⟨0, 0⟩).2.2.2.filter isOutbData =
      [Ev.outbData 0, Ev.outbData 1, Ev.outbData 2] := by
  decide

theorem waitw_res_eq {σ : Type} {d : Dev σ} {n : Nat} {s : σ} {r : Int}
    {s2 : σ} {w : List Ev} (h : ec_wait_write d n s = (r, s2, w)) :
    r = 0 ∨ r = -ETIMEDOUT := by
  have h2 := waitw_res d n s
  rw [h] at h2
  exact h2

theorem waitr_res_eq {σ : Type} {d : Dev σ} {n : Nat} {s : σ} {r : Int}
    {s2 : σ} {w : List Ev} (h : ec_wait_read d n s = (r, s2, w)) :
    r = 0 ∨ r = -ETIMEDOUT := by
  have h2 := waitr_res d n s
  rw [h] at h2
  exact h2

set_option maxHeartbeats 3200000 in
/-- The discovery loop returns either success or the wait primitives'
timeout error: no other result is possible. -/
theorem tab_loop_res {σ : Type} (d : Dev σ) :
    ∀ (fuel i : Nat) (tbl : List ec_dynamic_table) (s : σ),
      (adv_tab_loop d fuel i tbl s).1 = 0 ∨
      (adv_tab_loop d fuel i tbl s).1 = -ETIMEDOUT := by
  intro fuel
  induction fuel with
  | zero =>
    intro i tbl s
    left
    rfl
  | succ fuel ih =>
    intro i tbl s
    rcases hq1 : ec_wait_write d EC_MAX_TIMEOUT_COUNT s with ⟨r1, s1, w1⟩
    rcases hq2 : ec_wait_write d EC_MAX_TIMEOUT_COUNT (d.outbCmd EC_TBL_WRITE_ITEM s1)
      with ⟨r2, s2, w2⟩
    rcases hq3 : ec_wait_read d EC_MAX_TIMEOUT_COUNT (d.outbData i s2)
      with ⟨r3, s3, w3⟩
    rcases hd1 : d.inbData s3 with ⟨chk, s4⟩
    rcases hq4 : ec_wait_write d EC_MAX_TIMEOUT_COUNT s4 with ⟨r4, s5, w4⟩
    rcases hq5 : ec_wait_read d EC_MAX_TIMEOUT_COUNT (d.outbCmd EC_TBL_GET_PIN s5)
      with ⟨r5, s6, w5⟩
    rcases hd2 : d.inbData s6 with ⟨pv, s7⟩
    rcases hq6 : ec_wait_write d EC_MAX_TIMEOUT_COUNT s7 with ⟨r6, s8, w6⟩
    rcases hq7 : ec_wait_read d EC_MAX_TIMEOUT_COUNT (d.outbCmd EC_TBL_GET_DEVID s8)
      with ⟨r7, s9, w7⟩
    rcases hd3 : d.inbData s9 with ⟨dv, s10⟩
    simp only [adv_tab_loop]
    simp only [hq1, hq2, hq3]
    simp only [hd1, hq4, hq5]
    simp only [hd2, hq6, hq7]
    simp only [hd3]
    by_cases h1 : r1 ≠ 0
    · rw [if_pos h1]
      exact waitw_res_eq hq1
    · rw [if_neg h1]
      by_cases h2 : r2 ≠ 0
      · rw [if_pos h2]
        exact waitw_res_eq hq2
      · rw [if_neg h2]
        by_cases h3 : r3 ≠ 0
        · rw [if_pos h3]
          exact waitr_res_eq hq3
        · rw [if_neg h3]
          by_cases h4 : chk = 0xff
          · rw [if_pos h4]
            exact Or.inl rfl
          · rw [if_neg h4]
            by_cases h5 : r4 ≠ 0
            · rw [if_pos h5]
              exact waitw_res_eq hq4
            · rw [if_neg h5]
              by_cases h6 : r5 ≠ 0
              · rw [if_pos h6]
                exact waitr_res_eq hq5
              · rw [if_neg h6]
                by_cases h7 : pv &&& 0xff = 0xff
                · rw [if_pos h7]
                  exact Or.inl rfl
                · rw [if_neg h7]
                  by_cases h8 : r6 ≠ 0
                  · rw [if_pos h8]
                    exact waitw_res_eq hq6
                  · rw [if_neg h8]
                    by_cases h9 : r7 ≠ 0
                    · rw [if_pos h9]
                      exact waitr_res_eq hq7
                    · rw [if_neg h9]
                      exact ih (i + 1) (tbl.set i ⟨dv &&& 0xff, pv &&& 0xff⟩) s10

/-- C2: whenever a run of adv_get_dynamic_tab fails (some poll step timed
out), the result is the timeout error -ETIMEDOUT, and initialization
(adv_ec_init_ec_data, whose error aborts the probe) surfaces that error
and exposes no table to consumers: the partially-built table is discarded. -/
theorem c2_timeout_aborts_discovery :
    ∀ (σ : Type) (d : Dev σ) (s : σ),
      (adv_get_dynamic_tab d s).1 ≠ 0 →
      (adv_get_dynamic_tab d s).1 = -ETIMEDOUT ∧
      adv_ec_init_ec_data d s = Except.error (adv_get_dynamic_tab d s).1 := by
  intro σ d s hne
  have hres : (adv_get_dynamic_tab d s).1 =
      (adv_tab_loop d EC_MAX_TBL_NUM 0
        (List.replicate EC_MAX_TBL_NUM (ec_dynamic_table.mk 0xff 0xff)) s).1 := rfl
  have h := tab_loop_res d EC_MAX_TBL_NUM 0
    (List.replicate EC_MAX_TBL_NUM (ec_dynamic_table.mk 0xff 0xff)) s
  rw [← hres] at h
  refine ⟨h.resolve_left hne, ?_⟩
  simp [adv_ec_init_ec_data, hne]

theorem devBusy_waitw_eq : ∀ (n : Nat) (s : Unit),
    ec_wait_write devBusy n s = (-ETIMEDOUT, (), List.replicate n (Ev.inbCmd 2)) := by
  intro n
  induction n with
  | zero => intro s; rfl
  | succ n ih =>
    intro s
    have hc : ¬ ((devBusy.inbCmd s).1 &&& EC_COMMAND_BIT_IBF = 0) := by
      simp [devBusy, EC_COMMAND_BIT_IBF]
    have hs2 : (devBusy.inbCmd s).2 = () := rfl
    have hs1 : (devBusy.inbCmd s).1 = 2 := rfl
    simp only [ec_wait_write]
    rw [if_neg hc, hs2, hs1, ih ()]
    simp [List.replicate_succ]

set_option maxHeartbeats 3200000 in
theorem adv_tab_first_timeout {σ : Type} (d : Dev σ) (s : σ) {s1 : σ} {w1 : List Ev}
    (hq1 : ec_wait_write d EC_MAX_TIMEOUT_COUNT s = (-ETIMEDOUT, s1, w1)) :
    (adv_get_dynamic_tab d s).1 = -ETIMEDOUT := by
  obtain ⟨m, hm⟩ : ∃ m, EC_MAX_TBL_NUM = m + 1 := ⟨31, rfl⟩
  have hproj : (adv_get_dynamic_tab d s).1 =
      (adv_tab_loop d EC_MAX_TBL_NUM 0
        (List.replicate EC_MAX_TBL_NUM (ec_dynamic_table.mk 0xff 0xff)) s).1 := rfl
  rw [hproj, hm]
  simp only [adv_tab_loop]
  simp only [hq1]
  rw [if_pos (show (-ETIMEDOUT : Int) ≠ 0 by decide)]

theorem devBusy_tab_timeout : (adv_get_dynamic_tab devBusy ()).1 = -ETIMEDOUT :=
  adv_tab_first_timeout devBusy () (devBusy_waitw_eq EC_MAX_TIMEOUT_COUNT ())

/-- C2 witness: against the never-ready device every poll times out, the
discovery run returns -ETIMEDOUT and initialization propagates the error,
discarding the table. -/
theorem c2_timeout_aborts_discovery_witness :
    (adv_get_dynamic_tab devBusy ()).1 = -ETIMEDOUT ∧
    adv_ec_init_ec_data devBusy () = Except.error (adv_get_dynamic_tab devBusy ()).1 :=
  c2_timeout_aborts_discovery Unit devBusy ()
    (by rw [devBusy_tab_timeout]; decide)

/-! C9: serialization of concurrent protocol operations.  Every caller's
observable behaviour is one of the eleven operation traces (OpTrace); under
the interleaving semantics Step the mutex forces the global trace of any
completed run to be a concatenation of whole per-operation traces. -/

theorem scriptWF_of_traceShape {t : List Ev} (h : TraceShape t) : ScriptWF t := by
  obtain ⟨mid, h1, h2, -, -⟩ := h
  exact ⟨mid, h1, h2⟩

theorem scriptWF_of_opTrace {t : List Ev} (h : OpTrace t) : ScriptWF t := by
  rcases h with ⟨σ, d, s, a, b, ht⟩ | ⟨σ, d, s, a, b, ht⟩ | ⟨σ, d, s, a, b, ht⟩ |
    ⟨σ, d, s, a, b, ht⟩ | ⟨σ, d, s, a, b, ht⟩ | ⟨σ, d, s, a, b, ht⟩ |
    ⟨σ, d, s, a, b, ht⟩ | ⟨σ, d, s, a, b, ht⟩ | ⟨σ, d, s, a, b, ht⟩ |
    ⟨σ, d, s, a, ht⟩ | ⟨σ, d, s, ht⟩
  · exact ht ▸ scriptWF_of_traceShape (shape_read_hw_ram d a b s)
  · exact ht ▸ scriptWF_of_traceShape (shape_write_hw_ram d a b s)
  · exact ht ▸ scriptWF_of_traceShape (shape_read_acpi_value d a b s)
  · exact ht ▸ scriptWF_of_traceShape (shape_write_acpi_value d a b s)
  · exact ht ▸ scriptWF_of_traceShape (shape_read_gpio_status d a b s)
  · exact ht ▸ scriptWF_of_traceShape (shape_write_gpio_status d a b s)
  · exact ht ▸ scriptWF_of_traceShape (shape_read_gpio_dir d a b s)
  · exact ht ▸ scriptWF_of_traceShape (shape_write_gpio_dir d a b s)
  · exact ht ▸ scriptWF_of_traceShape (shape_read_ad_value d a b s)
  · exact ht ▸ scriptWF_of_traceShape (shape_write_hwram_command d a s)
  · exact ht ▸ scriptWF_of_traceShape (shape_adv_get_dynamic_tab d s)

theorem wf_head_lock {l : List Ev} (h : ScriptWF l) {e : Ev} {rest : List Ev}
    (he : l = e :: rest) : e = Ev.lock := by
  obtain ⟨mid, hl, -⟩ := h
  rw [hl] at he
  injection he with h1 _
  exact h1.symm

theorem wf_tail_ne_nil {l : List Ev} (h : ScriptWF l) {rest : List Ev}
    (he : l = Ev.lock :: rest) : rest ≠ [] := by
  obtain ⟨mid, hl, -⟩ := h
  rw [hl, List.cons_append] at he
  injection he with _ h2
  intro hnil
  rw [hnil] at h2
  exact absurd h2 (by simp)

theorem wf_suffix_port {l taken rem0 : List Ev} (h : ScriptWF l)
    (hsplit : l = taken ++ rem0) {e : Ev} {rest : List Ev}
    (hrem : rem0 = e :: rest) (he : isPort e = true) : rest ≠ [] := by
  intro hnil
  subst hnil
  obtain ⟨mid, hl, hmid⟩ := h
  have h1 : l.getLast? = some e := by
    rw [hsplit, hrem]
    simp
  have h2 : l.getLast? = some Ev.unlock := by
    rw [hl]
    exact List.getLast?_concat _
  rw [h1] at h2
  injection h2 with h3
  subst h3
  simp [isPort] at he

theorem wf_suffix_unlock {l taken rem0 : List Ev} (h : ScriptWF l)
    (hsplit : l = taken ++ rem0) {rest : List Ev}
    (hrem : rem0 = Ev.unlock :: rest) : rest = [] := by
  obtain ⟨mid, hl, hmid⟩ := h
  by_contra hne
  have hcount : l.count Ev.unlock = 1 := by
    rw [hl]
    have hm : mid.count Ev.unlock = 0 := by
      rw [List.count_eq_zero]
      intro hmem
      have := hmid _ hmem
      simp [isPort] at this
    simp [List.count_cons, List.count_append, hm]
  have hmem : Ev.unlock ∈ rest := by
    have h1 : l.getLast? = some Ev.unlock := by
      rw [hl]
      exact List.getLast?_concat _
    rw [hsplit, hrem,
      show Ev.unlock :: rest = [Ev.unlock] ++ rest from rfl,
      ← List.append_assoc, List.getLast?_append_of_ne_nil _ hne] at h1
    exact List.mem_of_getLast?_eq_some h1
  have : 2 ≤ l.count Ev.unlock := by
    rw [hsplit, hrem]
    have h2 : 1 ≤ rest.count Ev.unlock := List.one_le_count_iff.mpr hmem
    simp [List.count_append, List.count_cons]
    omega
  omega

theorem schedInv_init (n : Nat) (script : Nat → List Ev) :
    SchedInv n script (initConf n script) := by
  refine ⟨[], List.nodup_nil, ?_, ?_, ?_, ?_⟩
  · intro t ht
    exact absurd ht (List.not_mem_nil t)
  · intro t ht
    simp [initConf, ht]
  · rfl
  · intro t ht
    simp [initConf, ht]

theorem schedInv_step {n : Nat} {script : Nat → List Ev}
    (hwf : ∀ t, t < n → ScriptWF (script t)) {c c2 : Conf}
    (hinv : SchedInv n script c) (hstep : Step c c2) : SchedInv n script c2 := by
  obtain ⟨done, hnd, hdlt, hout, hmatch⟩ := hinv
  cases hstep with
  | @lock t rest hrt hown =>
    rw [hown] at hmatch
    obtain ⟨htr, hrem⟩ := hmatch
    have htn : t < n := by
      by_contra hlt
      rw [hout t hlt] at hrt
      exact List.noConfusion hrt
    have htd : t ∉ done := by
      intro hmem
      have h1 := hrem t htn
      rw [if_pos hmem] at h1
      rw [h1] at hrt
      exact List.noConfusion hrt
    have hscript : script t = Ev.lock :: rest := by
      have h1 := hrem t htn
      rw [if_neg htd] at h1
      rw [← h1, hrt]
    refine ⟨done, hnd, hdlt, ?_, htn, htd, ⟨[Ev.lock], rest, ?_, ?_, ?_, ?_, ?_⟩, ?_⟩
    · intro u hu
      have hut : u ≠ t := fun h => hu (h ▸ htn)
      simp only [updRem, if_neg hut]
      exact hout u hu
    · rw [hscript]; rfl
    · simp
    · exact wf_tail_ne_nil (hwf t htn) hscript
    · simp [htr]
    · simp [updRem]
    · intro v hv hvt
      have h1 := hrem v hv
      simpa [updRem, hvt] using h1
  | @unlock t rest hrt =>
    have htn : t < n := by
      by_contra hlt
      rw [hout t hlt] at hrt
      exact List.noConfusion hrt
    rcases hval : c.owner with _ | u
    · rw [hval] at hmatch
      obtain ⟨htr, hrem⟩ := hmatch
      have h1 := hrem t htn
      by_cases htd : t ∈ done
      · rw [if_pos htd] at h1
        rw [h1] at hrt
        exact List.noConfusion hrt
      · rw [if_neg htd] at h1
        have h2 := wf_head_lock (hwf t htn) (h1.symm.trans hrt)
        exact Ev.noConfusion h2
    · rw [hval] at hmatch
      obtain ⟨hun, hud, ⟨taken, rem0, hsplit, htne, hrne, htr, hru⟩, hrem⟩ := hmatch
      have htu : t = u := by
        by_contra htu
        have h1 := hrem t htn htu
        by_cases htd : t ∈ done
        · rw [if_pos htd] at h1
          rw [h1] at hrt
          exact List.noConfusion hrt
        · rw [if_neg htd] at h1
          have h2 := wf_head_lock (hwf t htn) (h1.symm.trans hrt)
          exact Ev.noConfusion h2
      subst htu
      have hrem0 : rem0 = Ev.unlock :: rest := hru.symm.trans hrt
      have hrest : rest = [] := wf_suffix_unlock (hwf t htn) hsplit hrem0
      subst hrest
      refine ⟨done ++ [t], ?_, ?_, ?_, ?_, ?_⟩
      · rw [List.nodup_append]
        exact ⟨hnd, List.nodup_singleton t, by simpa using hud⟩
      · intro v hv
        rcases List.mem_append.mp hv with h | h
        · exact hdlt v h
        · rw [List.mem_singleton.mp h]
          exact htn
      · intro v hv
        have hvt : v ≠ t := fun h => hv (h ▸ htn)
        simp only [updRem, if_neg hvt]
        exact hout v hv
      · show c.tr ++ [(t, Ev.unlock)] = ((done ++ [t]).map (taggedScript script)).flatten
        rw [htr, List.map_append, List.flatten_append]
        have hsc : script t = taken ++ [Ev.unlock] := by
          rw [hsplit, hrem0]
        simp [taggedScript, hsc, List.append_assoc]
      · intro v hv
        by_cases hvt : v = t
        · subst hvt
          rw [if_pos (by simp)]
          simp [updRem]
        · have h1 := hrem v hv hvt
          by_cases hvd : v ∈ done
          · rw [if_pos (List.mem_append_left _ hvd)]
            rw [if_pos hvd] at h1
            simpa [updRem, hvt] using h1
          · rw [if_neg (by simp [hvd, hvt])]
            rw [if_neg hvd] at h1
            simpa [updRem, hvt] using h1
  | @port t e rest hrt hport =>
    have htn : t < n := by
      by_contra hlt
      rw [hout t hlt] at hrt
      exact List.noConfusion hrt
    rcases hval : c.owner with _ | u
    · rw [hval] at hmatch
      obtain ⟨htr, hrem⟩ := hmatch
      have h1 := hrem t htn
      by_cases htd : t ∈ done
      · rw [if_pos htd] at h1
        rw [h1] at hrt
        exact List.noConfusion hrt
      · rw [if_neg htd] at h1
        have h2 := wf_head_lock (hwf t htn) (h1.symm.trans hrt)
        rw [h2] at hport
        simp [isPort] at hport
    · rw [hval] at hmatch
      obtain ⟨hun, hud, ⟨taken, rem0, hsplit, htne, hrne, htr, hru⟩, hrem⟩ := hmatch
      have htu : t = u := by
        by_contra htu
        have h1 := hrem t htn htu
        by_cases htd : t ∈ done
        · rw [if_pos htd] at h1
          rw [h1] at hrt
          exact List.noConfusion hrt
        · rw [if_neg htd] at h1
          have h2 := wf_head_lock (hwf t htn) (h1.symm.trans hrt)
          rw [h2] at hport
          simp [isPort] at hport
      subst htu
      have hrem0 : rem0 = e :: rest := hru.symm.trans hrt
      refine ⟨done, hnd, hdlt, ?_, hun, hud, ⟨taken ++ [e], rest, ?_, ?_, ?_, ?_, ?_⟩, ?_⟩
      · intro v hv
        have hvt : v ≠ t := fun h => hv (h ▸ htn)
        simp only [updRem, if_neg hvt]
        exact hout v hv
      · rw [hsplit, hrem0]
        simp
      · simp
      · exact wf_suffix_port (hwf t htn) hsplit hrem0 hport
      · rw [htr]
        simp [List.append_assoc]
      · simp [updRem]
      · intro v hv hvt
        have h1 := hrem v hv hvt
        simpa [updRem, hvt] using h1

theorem schedInv_reach {n : Nat} {script : Nat → List Ev}
    (hwf : ∀ t, t < n → ScriptWF (script t)) {c : Conf}
    (hreach : Reach n script c) : SchedInv n script c := by
  induction hreach with
  | refl => exact schedInv_init n script
  | tail hsteps hstep ih => exact schedInv_step hwf ih hstep

theorem serial_main (n : Nat) (script : Nat → List Ev)
    (hwf : ∀ t, t < n → ScriptWF (script t)) (c : Conf)
    (hreach : Reach n script c) (hdone : ∀ t, t < n → c.rem t = []) :
    ∃ order : List Nat, order.Perm (List.range n) ∧
      c.tr = (order.map (taggedScript script)).flatten := by
  have hinv : SchedInv n script c := schedInv_reach hwf hreach
  obtain ⟨done, hnd, hdlt, hout, hmatch⟩ := hinv
  rcases hval : c.owner with _ | u
  · rw [hval] at hmatch
    obtain ⟨htr, hrem⟩ := hmatch
    refine ⟨done, ?_, htr⟩
    rw [List.perm_ext_iff_of_nodup hnd (List.nodup_range n)]
    intro v
    rw [List.mem_range]
    constructor
    · exact hdlt v
    · intro hv
      by_contra hvd
      have h1 := hrem v hv
      rw [if_neg hvd] at h1
      have hnil := hdone v hv
      rw [h1] at hnil
      obtain ⟨mid, hl, -⟩ := hwf v hv
      rw [hl] at hnil
      exact absurd hnil (by simp)
  · rw [hval] at hmatch
    obtain ⟨hun, -, ⟨taken, rem0, -, -, hrne, -, hru⟩, -⟩ := hmatch
    rw [hdone u hun] at hru
    exact absurd hru.symm hrne

/-- C9: for every number of threads and every assignment of one protocol
operation trace per thread, any complete run of the interleaving semantics
(mutex modelled from the spec) yields a global trace equal to the
concatenation of the whole per-thread tagged traces in some total order:
no two operations' port accesses ever interleave. -/
theorem c9_no_interleaving (n : Nat) (script : Nat → List Ev)
    (hop : ∀ t, t < n → OpTrace (script t)) (c : Conf)
    (hreach : Reach n script c) (hdone : ∀ t, t < n → c.rem t = []) :
    ∃ order : List Nat, order.Perm (List.range n) ∧
      c.tr = (order.map (taggedScript script)).flatten :=
  serial_main n script (fun t ht => scriptWF_of_opTrace (hop t ht)) c hreach hdone

theorem c9_no_interleaving_witness :
    (∀ t, t < 2 → OpTrace (twoScripts t)) ∧
    (∃ order : List Nat, order.Perm (List.range 2) ∧
      ([(0, Ev.lock), (0, Ev.inbCmd 1), (0, Ev.outbCmd 0x28), (0, Ev.unlock),
        (1, Ev.lock), (1, Ev.inbCmd 1), (1, Ev.outbCmd 0x28), (1, Ev.unlock)] :
        List (Nat × Ev)) = (order.map (taggedScript twoScripts)).flatten) := by
  have hop : ∀ t, t < 2 → OpTrace (twoScripts t) := by
    intro t ht
    exact Or.inr (Or.inr (Or.inr (Or.inr (Or.inr (Or.inr (Or.inr (Or.inr (Or.inr
      (Or.inl ⟨List Nat, devScript, [], 0x28, rfl⟩)))))))))
  have hreach : Reach 2 twoScripts ⟨fun _ => [], none,
      [(0, Ev.lock), (0, Ev.inbCmd 1), (0, Ev.outbCmd 0x28), (0, Ev.unlock),
       (1, Ev.lock), (1, Ev.inbCmd 1), (1, Ev.outbCmd 0x28), (1, Ev.unlock)]⟩ := by
    refine Relation.ReflTransGen.head
      (@Step.lock _ 0 [Ev.inbCmd 1, Ev.outbCmd 0x28, Ev.unlock] rfl rfl) ?_
    refine Relation.ReflTransGen.head
      (@Step.port _ 0 (Ev.inbCmd 1) [Ev.outbCmd 0x28, Ev.unlock] rfl rfl) ?_
    refine Relation.ReflTransGen.head
      (@Step.port _ 0 (Ev.outbCmd 0x28) [Ev.unlock] rfl rfl) ?_
    refine Relation.ReflTransGen.head (@Step.unlock _ 0 [] rfl) ?_
    refine Relation.ReflTransGen.head
      (@Step.lock _ 1 [Ev.inbCmd 1, Ev.outbCmd 0x28, Ev.unlock] rfl rfl) ?_
    refine Relation.ReflTransGen.head
      (@Step.port _ 1 (Ev.inbCmd 1) [Ev.outbCmd 0x28, Ev.unlock] rfl rfl) ?_
    refine Relation.ReflTransGen.head
      (@Step.port _ 1 (Ev.outbCmd 0x28) [Ev.unlock] rfl rfl) ?_
    refine Relation.ReflTransGen.head (@Step.unlock _ 1 [] rfl) ?_
    convert Relation.ReflTransGen.refl using 1
    rw [Conf.mk.injEq]
    refine ⟨funext fun t => ?_, rfl, by decide⟩
    rcases t with _ | _ | t
    · rfl
    · rfl
    · have h0 : ¬(t + 2 = 0) := by omega
      have h1 : ¬(t + 2 = 1) := by omega
      have h2 : ¬(t + 2 < 2) := by omega
      simp [updRem, initConf, h0, h1, h2]
  exact ⟨hop, c9_no_interleaving 2 twoScripts hop _ hreach (fun _ _ => rfl)⟩
